import Mathlib

set_option autoImplicit false

/-!
Verification of the GEMM kernel family of the
`matrix-multiplication-optimization` repository.

The C++ sources (`src/gemm.cpp`, `include/gemm.h`) are shallowly embedded:

* single-precision floats are idealised as exact rationals `ℚ` (all the
  optimized kernels are reassociations of the reference accumulation, so
  over `ℚ` the equivalence claims can be settled exactly, which in turn
  settles the `1e-5`-tolerance claims);
* a raw `float *` buffer is a total heap `ℕ → ℚ`; a possibly-null pointer
  is an `Option` of such a heap;
* `int` dimensions are `ℕ` (the data-model invariant is `h ≥ 0`, `w ≥ 0`);
* the NEON 128-bit vector type `float32x4_t` is a 4-tuple of rationals and
  the intrinsics (`vld1q_f32`, `vdupq_n_f32`, `vfmaq_f32`,
  `vdupq_laneq_f32`, `vfmaq_laneq_f32`, `vst1q_f32`) act componentwise,
  mirroring their documented semantics; the `__ARM_NEON` branches of the
  source are the ones embedded (they are the content of the SIMD layers);
* each kernel's loop nest is translated loop-for-loop into `List.foldl`
  over index ranges, with the C statement `pC[idx] += v;` becoming the
  heap operation `addAt pC idx v`, and `m & ~3` (clearing the two low
  bits of a loop bound) becoming `al4 m = 4 * (m / 4)`.
-/

namespace MMO

/-- A row-major matrix view: `data` is the (possibly null) backing buffer,
`h` the height, `w` the width.  Mirrors `class Matrix` of `gemm.h`. -/
structure Matrix where
  data : Option (ℕ → ℚ)
  h : ℕ
  w : ℕ

/-- Dereference a matrix's buffer (defaulting a null buffer to the zero
heap; every kernel dereferences only after `CheckParam` has ruled the
null case out). -/
def dataOf (m : Matrix) : ℕ → ℚ :=
  m.data.getD fun _ => 0

/-- The element of `m`'s buffer at linear offset `n`. -/
def Matrix.atIdx (m : Matrix) (n : ℕ) : ℚ :=
  dataOf m n

/-- `constexpr float EPSILON = 1e-5;` of `gemm.cpp`. -/
def EPSILON : ℚ := 1 / 100000

/-- `n & ~3`: the loop bound with its two low bits cleared
(`gemm.cpp` uses `b.w & ~3` etc. for the unrolled/SIMD loop bounds). -/
def al4 (n : ℕ) : ℕ := 4 * (n / 4)

/-- The list `[lo, lo+1, ..., hi-1]`: the index sequence of a C tail loop
`for (; j < hi; j++)` resumed at `j = lo`. -/
def rangeFT (lo hi : ℕ) : List ℕ :=
  (List.range (hi - lo)).map fun d => lo + d

/-- The C statement `p[idx] += v;` on a heap `p`. -/
def addAt (p : ℕ → ℚ) (idx : ℕ) (v : ℚ) : ℕ → ℚ :=
  fun n => if n = idx then p idx + v else p n

/-- A heap transformer `F` is a pure accumulation with per-offset addend
`δ` when `F p n = p n + δ n` for every heap `p` and offset `n` (the
addend may not read the heap).  Every write in every kernel of
`gemm.cpp` is a `+=` into `C` with an addend read from `A` and `B`, so
every kernel loop is of this shape. -/
def isAdd (F : (ℕ → ℚ) → ℕ → ℚ) (δ : ℕ → ℚ) : Prop :=
  ∀ p n, F p n = p n + δ n

/-- The NEON vector type `float32x4_t`. -/
structure Vec4 where
  x0 : ℚ
  x1 : ℚ
  x2 : ℚ
  x3 : ℚ

/-- `vld1q_f32(p + off)`: load four consecutive lanes. -/
def vld1q_f32 (p : ℕ → ℚ) (off : ℕ) : Vec4 :=
  ⟨p off, p (off + 1), p (off + 2), p (off + 3)⟩

/-- `vdupq_n_f32(s)`: broadcast a scalar to all four lanes. -/
def vdupq_n_f32 (s : ℚ) : Vec4 :=
  ⟨s, s, s, s⟩

/-- Lane extraction (lane index 0..3). -/
def laneq (v : Vec4) (l : ℕ) : ℚ :=
  if l = 0 then v.x0 else if l = 1 then v.x1 else if l = 2 then v.x2 else v.x3

/-- `vdupq_laneq_f32(v, l)`: broadcast lane `l` of `v`. -/
def vdupq_laneq_f32 (v : Vec4) (l : ℕ) : Vec4 :=
  vdupq_n_f32 (laneq v l)

/-- `vfmaq_f32(acc, x, y) = acc + x * y` lanewise. -/
def vfmaq_f32 (acc x y : Vec4) : Vec4 :=
  ⟨acc.x0 + x.x0 * y.x0, acc.x1 + x.x1 * y.x1,
   acc.x2 + x.x2 * y.x2, acc.x3 + x.x3 * y.x3⟩

/-- `vfmaq_laneq_f32(acc, x, v, l) = acc + x * v[l]` lanewise. -/
def vfmaq_laneq_f32 (acc x v : Vec4) (l : ℕ) : Vec4 :=
  vfmaq_f32 acc x (vdupq_n_f32 (laneq v l))

/-- `vst1q_f32(p + off, v)`: store four consecutive lanes. -/
def vst1q_f32 (p : ℕ → ℚ) (off : ℕ) (v : Vec4) : ℕ → ℚ :=
  fun n =>
    if n = off then v.x0
    else if n = off + 1 then v.x1
    else if n = off + 2 then v.x2
    else if n = off + 3 then v.x3
    else p n

namespace GeMM

/-- `GeMM::CheckParam` of `gemm.cpp` (lines 1107-1126). -/
def CheckParam (a b c : Matrix) : Bool :=
  if a.w ≠ b.h then false
  else if a.h ≠ c.h then false
  else if b.w ≠ c.w then false
  else if a.data.isNone || b.data.isNone || c.data.isNone then false
  else true

/-- `GeMM::CheckResult` of `gemm.cpp` (lines 17-41): shape and null checks,
then an element-wise absolute comparison against `EPSILON`; the C loop
returns `false` at the first offending pair, so its result is the
conjunction over all pairs. -/
def CheckResult (a b : Matrix) : Bool :=
  if a.w ≠ b.w then false
  else if a.h ≠ b.h then false
  else if a.data.isNone || b.data.isNone then false
  else
    (List.range a.h).all fun i =>
      (List.range a.w).all fun j =>
        decide (|dataOf a (i * a.w + j) - dataOf b (i * a.w + j)| ≤ EPSILON)

/-- Loop nest of `GeMM::Origin` (lines 66-72): `ijk` order,
`pC[i*c.w+j] += pA[i*a.w+k] * pB[k*b.w+j]`. -/
def originBody (pA pB : ℕ → ℚ) (ah aw bw cw : ℕ) (pC : ℕ → ℚ) : ℕ → ℚ :=
  (List.range ah).foldl
    (fun pC i =>
      (List.range bw).foldl
        (fun pC j =>
          (List.range aw).foldl
            (fun pC k =>
              addAt pC (i * cw + j) (pA (i * aw + k) * pB (k * bw + j)))
            pC)
        pC)
    pC

/-- `GeMM::Origin` (lines 56-74): validate, then run the loop nest on
`c`'s buffer. -/
def Origin (a b c : Matrix) : Matrix :=
  if CheckParam a b c then
    { c with data := some (originBody (dataOf a) (dataOf b) a.h a.w b.w c.w (dataOf c)) }
  else c

/-- Loop nest of `GeMM::Optimize1` (lines 99-106): `ikj` order. -/
def opt1Body (pA pB : ℕ → ℚ) (ah aw bw cw : ℕ) (pC : ℕ → ℚ) : ℕ → ℚ :=
  (List.range ah).foldl
    (fun pC i =>
      (List.range aw).foldl
        (fun pC k =>
          let a0 := pA (i * aw + k)
          (List.range bw).foldl
            (fun pC j => addAt pC (i * cw + j) (a0 * pB (k * bw + j)))
            pC)
        pC)
    pC

/-- `GeMM::Optimize1` (lines 89-108). -/
def Optimize1 (a b c : Matrix) : Matrix :=
  if CheckParam a b c then
    { c with data := some (opt1Body (dataOf a) (dataOf b) a.h a.w b.w c.w (dataOf c)) }
  else c

/-- Loop nest of `GeMM::Optimize2` (lines 133-140): `kij` order. -/
def opt2Body (pA pB : ℕ → ℚ) (ah aw bw cw : ℕ) (pC : ℕ → ℚ) : ℕ → ℚ :=
  (List.range aw).foldl
    (fun pC k =>
      (List.range ah).foldl
        (fun pC i =>
          let a0 := pA (i * aw + k)
          (List.range bw).foldl
            (fun pC j => addAt pC (i * cw + j) (a0 * pB (k * bw + j)))
            pC)
        pC)
    pC

/-- `GeMM::Optimize2` (lines 123-142). -/
def Optimize2 (a b c : Matrix) : Matrix :=
  if CheckParam a b c then
    { c with data := some (opt2Body (dataOf a) (dataOf b) a.h a.w b.w c.w (dataOf c)) }
  else c

/-- Loop nest of `GeMM::Optimize3` (lines 168-182): `ikj`, `j` unrolled by
4 with a scalar tail. -/
def opt3Body (pA pB : ℕ → ℚ) (ah aw bw cw : ℕ) (pC : ℕ → ℚ) : ℕ → ℚ :=
  (List.range ah).foldl
    (fun pC i =>
      (List.range aw).foldl
        (fun pC k =>
          let a0 := pA (i * aw + k)
          let pC :=
            (List.range (bw / 4)).foldl
              (fun pC q =>
                let j := 4 * q
                let pC := addAt pC (i * cw + j) (a0 * pB (k * bw + j))
                let pC := addAt pC (i * cw + j + 1) (a0 * pB (k * bw + j + 1))
                let pC := addAt pC (i * cw + j + 2) (a0 * pB (k * bw + j + 2))
                addAt pC (i * cw + j + 3) (a0 * pB (k * bw + j + 3)))
              pC
          (rangeFT (al4 bw) bw).foldl
            (fun pC j => addAt pC (i * cw + j) (a0 * pB (k * bw + j)))
            pC)
        pC)
    pC

/-- `GeMM::Optimize3` (lines 158-184). -/
def Optimize3 (a b c : Matrix) : Matrix :=
  if CheckParam a b c then
    { c with data := some (opt3Body (dataOf a) (dataOf b) a.h a.w b.w c.w (dataOf c)) }
  else c

/-- Loop nest of `GeMM::Optimize4` (lines 210-224): `kij`, `j` unrolled by
4 with a scalar tail. -/
def opt4Body (pA pB : ℕ → ℚ) (ah aw bw cw : ℕ) (pC : ℕ → ℚ) : ℕ → ℚ :=
  (List.range aw).foldl
    (fun pC k =>
      (List.range ah).foldl
        (fun pC i =>
          let a0 := pA (i * aw + k)
          let pC :=
            (List.range (bw / 4)).foldl
              (fun pC q =>
                let j := 4 * q
                let pC := addAt pC (i * cw + j) (a0 * pB (k * bw + j))
                let pC := addAt pC (i * cw + j + 1) (a0 * pB (k * bw + j + 1))
                let pC := addAt pC (i * cw + j + 2) (a0 * pB (k * bw + j + 2))
                addAt pC (i * cw + j + 3) (a0 * pB (k * bw + j + 3)))
              pC
          (rangeFT (al4 bw) bw).foldl
            (fun pC j => addAt pC (i * cw + j) (a0 * pB (k * bw + j)))
            pC)
        pC)
    pC

/-- `GeMM::Optimize4` (lines 200-226). -/
def Optimize4 (a b c : Matrix) : Matrix :=
  if CheckParam a b c then
    { c with data := some (opt4Body (dataOf a) (dataOf b) a.h a.w b.w c.w (dataOf c)) }
  else c

/-- Loop nest of `GeMM::Optimize5` (lines 252-271): `ikj`, `j` vectorised
(NEON branch) with a scalar tail. -/
def opt5Body (pA pB : ℕ → ℚ) (ah aw bw cw : ℕ) (pC : ℕ → ℚ) : ℕ → ℚ :=
  (List.range ah).foldl
    (fun pC i =>
      (List.range aw).foldl
        (fun pC k =>
          let a0 := pA (i * aw + k)
          let vA0 := vdupq_n_f32 a0
          let pC :=
            (List.range (bw / 4)).foldl
              (fun pC q =>
                let j := 4 * q
                let vB := vld1q_f32 pB (k * bw + j)
                let vC := vld1q_f32 pC (i * cw + j)
                let vC := vfmaq_f32 vC vA0 vB
                vst1q_f32 pC (i * cw + j) vC)
              pC
          (rangeFT (al4 bw) bw).foldl
            (fun pC j => addAt pC (i * cw + j) (a0 * pB (k * bw + j)))
            pC)
        pC)
    pC

/-- `GeMM::Optimize5` (lines 242-273). -/
def Optimize5 (a b c : Matrix) : Matrix :=
  if CheckParam a b c then
    { c with data := some (opt5Body (dataOf a) (dataOf b) a.h a.w b.w c.w (dataOf c)) }
  else c

/-- Loop nest of `GeMM::Optimize6` (lines 299-318): `kij`, `j` vectorised
(NEON branch) with a scalar tail. -/
def opt6Body (pA pB : ℕ → ℚ) (ah aw bw cw : ℕ) (pC : ℕ → ℚ) : ℕ → ℚ :=
  (List.range aw).foldl
    (fun pC k =>
      (List.range ah).foldl
        (fun pC i =>
          let a0 := pA (i * aw + k)
          let vA0 := vdupq_n_f32 a0
          let pC :=
            (List.range (bw / 4)).foldl
              (fun pC q =>
                let j := 4 * q
                let vB := vld1q_f32 pB (k * bw + j)
                let vC := vld1q_f32 pC (i * cw + j)
                let vC := vfmaq_f32 vC vA0 vB
                vst1q_f32 pC (i * cw + j) vC)
              pC
          (rangeFT (al4 bw) bw).foldl
            (fun pC j => addAt pC (i * cw + j) (a0 * pB (k * bw + j)))
            pC)
        pC)
    pC

/-- `GeMM::Optimize6` (lines 289-320). -/
def Optimize6 (a b c : Matrix) : Matrix :=
  if CheckParam a b c then
    { c with data := some (opt6Body (dataOf a) (dataOf b) a.h a.w b.w c.w (dataOf c)) }
  else c

/-- Loop nest of `GeMM::Optimize7` (lines 346-395): `ikj`, both `k` and
`j` unrolled by 4, with scalar tails in both dimensions. -/
def opt7Body (pA pB : ℕ → ℚ) (ah aw bw cw : ℕ) (pC : ℕ → ℚ) : ℕ → ℚ :=
  (List.range ah).foldl
    (fun pC i =>
      let pC :=
        (List.range (aw / 4)).foldl
          (fun pC q =>
            let k := 4 * q
            let a0 := pA (i * aw + k)
            let a1 := pA (i * aw + k + 1)
            let a2 := pA (i * aw + k + 2)
            let a3 := pA (i * aw + k + 3)
            let pC :=
              (List.range (bw / 4)).foldl
                (fun pC r =>
                  let j := 4 * r
                  let pC := addAt pC (i * cw + j) (a0 * pB (k * bw + j))
                  let pC := addAt pC (i * cw + j) (a1 * pB ((k + 1) * bw + j))
                  let pC := addAt pC (i * cw + j) (a2 * pB ((k + 2) * bw + j))
                  let pC := addAt pC (i * cw + j) (a3 * pB ((k + 3) * bw + j))
                  let pC := addAt pC (i * cw + j + 1) (a0 * pB (k * bw + j + 1))
                  let pC := addAt pC (i * cw + j + 1) (a1 * pB ((k + 1) * bw + j + 1))
                  let pC := addAt pC (i * cw + j + 1) (a2 * pB ((k + 2) * bw + j + 1))
                  let pC := addAt pC (i * cw + j + 1) (a3 * pB ((k + 3) * bw + j + 1))
                  let pC := addAt pC (i * cw + j + 2) (a0 * pB (k * bw + j + 2))
                  let pC := addAt pC (i * cw + j + 2) (a1 * pB ((k + 1) * bw + j + 2))
                  let pC := addAt pC (i * cw + j + 2) (a2 * pB ((k + 2) * bw + j + 2))
                  let pC := addAt pC (i * cw + j + 2) (a3 * pB ((k + 3) * bw + j + 2))
                  let pC := addAt pC (i * cw + j + 3) (a0 * pB (k * bw + j + 3))
                  let pC := addAt pC (i * cw + j + 3) (a1 * pB ((k + 1) * bw + j + 3))
                  let pC := addAt pC (i * cw + j + 3) (a2 * pB ((k + 2) * bw + j + 3))
                  addAt pC (i * cw + j + 3) (a3 * pB ((k + 3) * bw + j + 3)))
                pC
            (rangeFT (al4 bw) bw).foldl
              (fun pC j =>
                let pC := addAt pC (i * cw + j) (a0 * pB (k * bw + j))
                let pC := addAt pC (i * cw + j) (a1 * pB ((k + 1) * bw + j))
                let pC := addAt pC (i * cw + j) (a2 * pB ((k + 2) * bw + j))
                addAt pC (i * cw + j) (a3 * pB ((k + 3) * bw + j)))
              pC)
          pC
      (rangeFT (al4 aw) aw).foldl
        (fun pC k =>
          let a0 := pA (i * aw + k)
          let pC :=
            (List.range (bw / 4)).foldl
              (fun pC q =>
                let j := 4 * q
                let pC := addAt pC (i * cw + j) (a0 * pB (k * bw + j))
                let pC := addAt pC (i * cw + j + 1) (a0 * pB (k * bw + j + 1))
                let pC := addAt pC (i * cw + j + 2) (a0 * pB (k * bw + j + 2))
                addAt pC (i * cw + j + 3) (a0 * pB (k * bw + j + 3)))
              pC
          (rangeFT (al4 bw) bw).foldl
            (fun pC j => addAt pC (i * cw + j) (a0 * pB (k * bw + j)))
            pC)
        pC)
    pC

/-- `GeMM::Optimize7` (lines 336-397). -/
def Optimize7 (a b c : Matrix) : Matrix :=
  if CheckParam a b c then
    { c with data := some (opt7Body (dataOf a) (dataOf b) a.h a.w b.w c.w (dataOf c)) }
  else c

/-- Loop nest of `GeMM::Optimize8` (lines 423-475): `kij`, both `k` and
`j` unrolled by 4, with scalar tails in both dimensions. -/
def opt8Body (pA pB : ℕ → ℚ) (ah aw bw cw : ℕ) (pC : ℕ → ℚ) : ℕ → ℚ :=
  let pC :=
    (List.range (aw / 4)).foldl
      (fun pC q =>
        let k := 4 * q
        (List.range ah).foldl
          (fun pC i =>
            let a0 := pA (i * aw + k)
            let a1 := pA (i * aw + k + 1)
            let a2 := pA (i * aw + k + 2)
            let a3 := pA (i * aw + k + 3)
            let pC :=
              (List.range (bw / 4)).foldl
                (fun pC r =>
                  let j := 4 * r
                  let pC := addAt pC (i * cw + j) (a0 * pB (k * bw + j))
                  let pC := addAt pC (i * cw + j) (a1 * pB ((k + 1) * bw + j))
                  let pC := addAt pC (i * cw + j) (a2 * pB ((k + 2) * bw + j))
                  let pC := addAt pC (i * cw + j) (a3 * pB ((k + 3) * bw + j))
                  let pC := addAt pC (i * cw + j + 1) (a0 * pB (k * bw + j + 1))
                  let pC := addAt pC (i * cw + j + 1) (a1 * pB ((k + 1) * bw + j + 1))
                  let pC := addAt pC (i * cw + j + 1) (a2 * pB ((k + 2) * bw + j + 1))
                  let pC := addAt pC (i * cw + j + 1) (a3 * pB ((k + 3) * bw + j + 1))
                  let pC := addAt pC (i * cw + j + 2) (a0 * pB (k * bw + j + 2))
                  let pC := addAt pC (i * cw + j + 2) (a1 * pB ((k + 1) * bw + j + 2))
                  let pC := addAt pC (i * cw + j + 2) (a2 * pB ((k + 2) * bw + j + 2))
                  let pC := addAt pC (i * cw + j + 2) (a3 * pB ((k + 3) * bw + j + 2))
                  let pC := addAt pC (i * cw + j + 3) (a0 * pB (k * bw + j + 3))
                  let pC := addAt pC (i * cw + j + 3) (a1 * pB ((k + 1) * bw + j + 3))
                  let pC := addAt pC (i * cw + j + 3) (a2 * pB ((k + 2) * bw + j + 3))
                  addAt pC (i * cw + j + 3) (a3 * pB ((k + 3) * bw + j + 3)))
                pC
            (rangeFT (al4 bw) bw).foldl
              (fun pC j =>
                let pC := addAt pC (i * cw + j) (a0 * pB (k * bw + j))
                let pC := addAt pC (i * cw + j) (a1 * pB ((k + 1) * bw + j))
                let pC := addAt pC (i * cw + j) (a2 * pB ((k + 2) * bw + j))
                addAt pC (i * cw + j) (a3 * pB ((k + 3) * bw + j)))
              pC)
          pC)
      pC
  (rangeFT (al4 aw) aw).foldl
    (fun pC k =>
      (List.range ah).foldl
        (fun pC i =>
          let a0 := pA (i * aw + k)
          let pC :=
            (List.range (bw / 4)).foldl
              (fun pC q =>
                let j := 4 * q
                let pC := addAt pC (i * cw + j) (a0 * pB (k * bw + j))
                let pC := addAt pC (i * cw + j + 1) (a0 * pB (k * bw + j + 1))
                let pC := addAt pC (i * cw + j + 2) (a0 * pB (k * bw + j + 2))
                addAt pC (i * cw + j + 3) (a0 * pB (k * bw + j + 3)))
              pC
          (rangeFT (al4 bw) bw).foldl
            (fun pC j => addAt pC (i * cw + j) (a0 * pB (k * bw + j)))
            pC)
        pC)
    pC

/-- `GeMM::Optimize8` (lines 413-476). -/
def Optimize8 (a b c : Matrix) : Matrix :=
  if CheckParam a b c then
    { c with data := some (opt8Body (dataOf a) (dataOf b) a.h a.w b.w c.w (dataOf c)) }
  else c

/-- Loop nest of `GeMM::Optimize9` (lines 502-556): `ikj`, `k` unrolled by
4, `j` vectorised (NEON branch), scalar tails in both dimensions. -/
def opt9Body (pA pB : ℕ → ℚ) (ah aw bw cw : ℕ) (pC : ℕ → ℚ) : ℕ → ℚ :=
  (List.range ah).foldl
    (fun pC i =>
      let pC :=
        (List.range (aw / 4)).foldl
          (fun pC q =>
            let k := 4 * q
            let a0 := pA (i * aw + k)
            let a1 := pA (i * aw + k + 1)
            let a2 := pA (i * aw + k + 2)
            let a3 := pA (i * aw + k + 3)
            let vA0 := vdupq_n_f32 a0
            let vA1 := vdupq_n_f32 a1
            let vA2 := vdupq_n_f32 a2
            let vA3 := vdupq_n_f32 a3
            let pC :=
              (List.range (bw / 4)).foldl
                (fun pC r =>
                  let j := 4 * r
                  let vB0 := vld1q_f32 pB (k * bw + j)
                  let vB1 := vld1q_f32 pB ((k + 1) * bw + j)
                  let vB2 := vld1q_f32 pB ((k + 2) * bw + j)
                  let vB3 := vld1q_f32 pB ((k + 3) * bw + j)
                  let vC := vld1q_f32 pC (i * cw + j)
                  let vC := vfmaq_f32 vC vA0 vB0
                  let vC := vfmaq_f32 vC vA1 vB1
                  let vC := vfmaq_f32 vC vA2 vB2
                  let vC := vfmaq_f32 vC vA3 vB3
                  vst1q_f32 pC (i * cw + j) vC)
                pC
            (rangeFT (al4 bw) bw).foldl
              (fun pC j =>
                let pC := addAt pC (i * cw + j) (a0 * pB (k * bw + j))
                let pC := addAt pC (i * cw + j) (a1 * pB ((k + 1) * bw + j))
                let pC := addAt pC (i * cw + j) (a2 * pB ((k + 2) * bw + j))
                addAt pC (i * cw + j) (a3 * pB ((k + 3) * bw + j)))
              pC)
          pC
      (rangeFT (al4 aw) aw).foldl
        (fun pC k =>
          let a0 := pA (i * aw + k)
          let vA0 := vdupq_n_f32 a0
          let pC :=
            (List.range (bw / 4)).foldl
              (fun pC q =>
                let j := 4 * q
                let vB := vld1q_f32 pB (k * bw + j)
                let vC := vld1q_f32 pC (i * cw + j)
                let vC := vfmaq_f32 vC vA0 vB
                vst1q_f32 pC (i * cw + j) vC)
              pC
          (rangeFT (al4 bw) bw).foldl
            (fun pC j => addAt pC (i * cw + j) (a0 * pB (k * bw + j)))
            pC)
        pC)
    pC

/-- `GeMM::Optimize9` (lines 492-558). -/
def Optimize9 (a b c : Matrix) : Matrix :=
  if CheckParam a b c then
    { c with data := some (opt9Body (dataOf a) (dataOf b) a.h a.w b.w c.w (dataOf c)) }
  else c

/-- Loop nest of `GeMM::Optimize10` (lines 584-641): `kij`, `k` unrolled
by 4, `j` vectorised (NEON branch).  Its scalar `j` tail inside the
`k`-block (source lines 613-618) stores the `a1`, `a2`, `a3`
contributions at the staggered offsets `j+1`, `j+2`, `j+3` instead of at
`j` — translated verbatim. -/
def opt10Body (pA pB : ℕ → ℚ) (ah aw bw cw : ℕ) (pC : ℕ → ℚ) : ℕ → ℚ :=
  let pC :=
    (List.range (aw / 4)).foldl
      (fun pC q =>
        let k := 4 * q
        (List.range ah).foldl
          (fun pC i =>
            let a0 := pA (i * aw + k)
            let a1 := pA (i * aw + k + 1)
            let a2 := pA (i * aw + k + 2)
            let a3 := pA (i * aw + k + 3)
            let vA0 := vdupq_n_f32 a0
            let vA1 := vdupq_n_f32 a1
            let vA2 := vdupq_n_f32 a2
            let vA3 := vdupq_n_f32 a3
            let pC :=
              (List.range (bw / 4)).foldl
                (fun pC r =>
                  let j := 4 * r
                  let vB0 := vld1q_f32 pB (k * bw + j)
                  let vB1 := vld1q_f32 pB ((k + 1) * bw + j)
                  let vB2 := vld1q_f32 pB ((k + 2) * bw + j)
                  let vB3 := vld1q_f32 pB ((k + 3) * bw + j)
                  let vC := vld1q_f32 pC (i * cw + j)
                  let vC := vfmaq_f32 vC vA0 vB0
                  let vC := vfmaq_f32 vC vA1 vB1
                  let vC := vfmaq_f32 vC vA2 vB2
                  let vC := vfmaq_f32 vC vA3 vB3
                  vst1q_f32 pC (i * cw + j) vC)
                pC
            (rangeFT (al4 bw) bw).foldl
              (fun pC j =>
                let pC := addAt pC (i * cw + j) (a0 * pB (k * bw + j))
                let pC := addAt pC (i * cw + j + 1) (a1 * pB ((k + 1) * bw + j))
                let pC := addAt pC (i * cw + j + 2) (a2 * pB ((k + 2) * bw + j))
                addAt pC (i * cw + j + 3) (a3 * pB ((k + 3) * bw + j)))
              pC)
          pC)
      pC
  (rangeFT (al4 aw) aw).foldl
    (fun pC k =>
      (List.range ah).foldl
        (fun pC i =>
          let a0 := pA (i * aw + k)
          let vA := vdupq_n_f32 a0
          let pC :=
            (List.range (bw / 4)).foldl
              (fun pC q =>
                let j := 4 * q
                let vB := vld1q_f32 pB (k * bw + j)
                let vC := vld1q_f32 pC (i * cw + j)
                let vC := vfmaq_f32 vC vA vB
                vst1q_f32 pC (i * cw + j) vC)
              pC
          (rangeFT (al4 bw) bw).foldl
            (fun pC j => addAt pC (i * cw + j) (a0 * pB (k * bw + j)))
            pC)
        pC)
    pC

/-- `GeMM::Optimize10` (lines 574-642). -/
def Optimize10 (a b c : Matrix) : Matrix :=
  if CheckParam a b c then
    { c with data := some (opt10Body (dataOf a) (dataOf b) a.h a.w b.w c.w (dataOf c)) }
  else c

/-- Loop nest of `GeMM::Optimize11` (lines 670-692): `ikj`, `k` and `j`
restricted to their aligned parts (no tails, NEON only). -/
def opt11Body (pA pB : ℕ → ℚ) (ah aw bw cw : ℕ) (pC : ℕ → ℚ) : ℕ → ℚ :=
  (List.range ah).foldl
    (fun pC i =>
      (List.range (aw / 4)).foldl
        (fun pC q =>
          let k := 4 * q
          let vA := vld1q_f32 pA (i * aw + k)
          let vA0 := vdupq_laneq_f32 vA 0
          let vA1 := vdupq_laneq_f32 vA 1
          let vA2 := vdupq_laneq_f32 vA 2
          let vA3 := vdupq_laneq_f32 vA 3
          (List.range (bw / 4)).foldl
            (fun pC r =>
              let j := 4 * r
              let vB0 := vld1q_f32 pB (k * bw + j)
              let vB1 := vld1q_f32 pB ((k + 1) * bw + j)
              let vB2 := vld1q_f32 pB ((k + 2) * bw + j)
              let vB3 := vld1q_f32 pB ((k + 3) * bw + j)
              let vC := vld1q_f32 pC (i * cw + j)
              let vC := vfmaq_f32 vC vA0 vB0
              let vC := vfmaq_f32 vC vA1 vB1
              let vC := vfmaq_f32 vC vA2 vB2
              let vC := vfmaq_f32 vC vA3 vB3
              vst1q_f32 pC (i * cw + j) vC)
            pC)
        pC)
    pC

/-- `GeMM::Optimize11` (lines 659-695). -/
def Optimize11 (a b c : Matrix) : Matrix :=
  if CheckParam a b c then
    { c with data := some (opt11Body (dataOf a) (dataOf b) a.h a.w b.w c.w (dataOf c)) }
  else c

/-- Loop nest of `GeMM::Optimize12` (lines 723-745): as `Optimize11` with
the `k` loop outermost. -/
def opt12Body (pA pB : ℕ → ℚ) (ah aw bw cw : ℕ) (pC : ℕ → ℚ) : ℕ → ℚ :=
  (List.range (aw / 4)).foldl
    (fun pC q =>
      let k := 4 * q
      (List.range ah).foldl
        (fun pC i =>
          let vA := vld1q_f32 pA (i * aw + k)
          let vA0 := vdupq_laneq_f32 vA 0
          let vA1 := vdupq_laneq_f32 vA 1
          let vA2 := vdupq_laneq_f32 vA 2
          let vA3 := vdupq_laneq_f32 vA 3
          (List.range (bw / 4)).foldl
            (fun pC r =>
              let j := 4 * r
              let vB0 := vld1q_f32 pB (k * bw + j)
              let vB1 := vld1q_f32 pB ((k + 1) * bw + j)
              let vB2 := vld1q_f32 pB ((k + 2) * bw + j)
              let vB3 := vld1q_f32 pB ((k + 3) * bw + j)
              let vC := vld1q_f32 pC (i * cw + j)
              let vC := vfmaq_f32 vC vA0 vB0
              let vC := vfmaq_f32 vC vA1 vB1
              let vC := vfmaq_f32 vC vA2 vB2
              let vC := vfmaq_f32 vC vA3 vB3
              vst1q_f32 pC (i * cw + j) vC)
            pC)
        pC)
    pC

/-- `GeMM::Optimize12` (lines 712-748). -/
def Optimize12 (a b c : Matrix) : Matrix :=
  if CheckParam a b c then
    { c with data := some (opt12Body (dataOf a) (dataOf b) a.h a.w b.w c.w (dataOf c)) }
  else c

/-- Loop nest of `GeMM::Optimize13` (lines 791-831): 4x4 register-blocked
microkernel, `ikj` tile order, all three dimensions restricted to their
aligned parts (NEON only). -/
def opt13Body (pA pB : ℕ → ℚ) (ah aw bw cw : ℕ) (pC : ℕ → ℚ) : ℕ → ℚ :=
  (List.range (ah / 4)).foldl
    (fun pC qi =>
      let i := 4 * qi
      (List.range (aw / 4)).foldl
        (fun pC qk =>
          let k := 4 * qk
          let aIdx := i * aw + k
          let vA0 := vld1q_f32 pA aIdx
          let vA1 := vld1q_f32 pA (aIdx + aw)
          let vA2 := vld1q_f32 pA (aIdx + aw * 2)
          let vA3 := vld1q_f32 pA (aIdx + aw * 3)
          (List.range (bw / 4)).foldl
            (fun pC r =>
              let j := 4 * r
              let bIdx := k * bw + j
              let vB0 := vld1q_f32 pB bIdx
              let vB1 := vld1q_f32 pB (bIdx + bw)
              let vB2 := vld1q_f32 pB (bIdx + bw * 2)
              let vB3 := vld1q_f32 pB (bIdx + bw * 3)
              let cIdx := i * cw + j
              let vC0 := vld1q_f32 pC cIdx
              let vC0 := vfmaq_laneq_f32 vC0 vB0 vA0 0
              let vC0 := vfmaq_laneq_f32 vC0 vB1 vA0 1
              let vC0 := vfmaq_laneq_f32 vC0 vB2 vA0 2
              let vC0 := vfmaq_laneq_f32 vC0 vB3 vA0 3
              let pC := vst1q_f32 pC cIdx vC0
              let vC1 := vld1q_f32 pC (cIdx + cw)
              let vC1 := vfmaq_laneq_f32 vC1 vB0 vA1 0
              let vC1 := vfmaq_laneq_f32 vC1 vB1 vA1 1
              let vC1 := vfmaq_laneq_f32 vC1 vB2 vA1 2
              let vC1 := vfmaq_laneq_f32 vC1 vB3 vA1 3
              let pC := vst1q_f32 pC (cIdx + cw) vC1
              let vC2 := vld1q_f32 pC (cIdx + cw * 2)
              let vC2 := vfmaq_laneq_f32 vC2 vB0 vA2 0
              let vC2 := vfmaq_laneq_f32 vC2 vB1 vA2 1
              let vC2 := vfmaq_laneq_f32 vC2 vB2 vA2 2
              let vC2 := vfmaq_laneq_f32 vC2 vB3 vA2 3
              let pC := vst1q_f32 pC (cIdx + cw * 2) vC2
              let vC3 := vld1q_f32 pC (cIdx + cw * 3)
              let vC3 := vfmaq_laneq_f32 vC3 vB0 vA3 0
              let vC3 := vfmaq_laneq_f32 vC3 vB1 vA3 1
              let vC3 := vfmaq_laneq_f32 vC3 vB2 vA3 2
              let vC3 := vfmaq_laneq_f32 vC3 vB3 vA3 3
              vst1q_f32 pC (cIdx + cw * 3) vC3)
            pC)
        pC)
    pC

/-- `GeMM::Optimize13` (lines 765-834). -/
def Optimize13 (a b c : Matrix) : Matrix :=
  if CheckParam a b c then
    { c with data := some (opt13Body (dataOf a) (dataOf b) a.h a.w b.w c.w (dataOf c)) }
  else c

/-- Loop nest of `GeMM::Optimize14` (lines 877-917): as `Optimize13` with
the `k` tile loop outermost. -/
def opt14Body (pA pB : ℕ → ℚ) (ah aw bw cw : ℕ) (pC : ℕ → ℚ) : ℕ → ℚ :=
  (List.range (aw / 4)).foldl
    (fun pC qk =>
      let k := 4 * qk
      (List.range (ah / 4)).foldl
        (fun pC qi =>
          let i := 4 * qi
          let aIdx := i * aw + k
          let vA0 := vld1q_f32 pA aIdx
          let vA1 := vld1q_f32 pA (aIdx + aw)
          let vA2 := vld1q_f32 pA (aIdx + aw * 2)
          let vA3 := vld1q_f32 pA (aIdx + aw * 3)
          (List.range (bw / 4)).foldl
            (fun pC r =>
              let j := 4 * r
              let bIdx := k * bw + j
              let vB0 := vld1q_f32 pB bIdx
              let vB1 := vld1q_f32 pB (bIdx + bw)
              let vB2 := vld1q_f32 pB (bIdx + bw * 2)
              let vB3 := vld1q_f32 pB (bIdx + bw * 3)
              let cIdx := i * cw + j
              let vC0 := vld1q_f32 pC cIdx
              let vC0 := vfmaq_laneq_f32 vC0 vB0 vA0 0
              let vC0 := vfmaq_laneq_f32 vC0 vB1 vA0 1
              let vC0 := vfmaq_laneq_f32 vC0 vB2 vA0 2
              let vC0 := vfmaq_laneq_f32 vC0 vB3 vA0 3
              let pC := vst1q_f32 pC cIdx vC0
              let vC1 := vld1q_f32 pC (cIdx + cw)
              let vC1 := vfmaq_laneq_f32 vC1 vB0 vA1 0
              let vC1 := vfmaq_laneq_f32 vC1 vB1 vA1 1
              let vC1 := vfmaq_laneq_f32 vC1 vB2 vA1 2
              let vC1 := vfmaq_laneq_f32 vC1 vB3 vA1 3
              let pC := vst1q_f32 pC (cIdx + cw) vC1
              let vC2 := vld1q_f32 pC (cIdx + cw * 2)
              let vC2 := vfmaq_laneq_f32 vC2 vB0 vA2 0
              let vC2 := vfmaq_laneq_f32 vC2 vB1 vA2 1
              let vC2 := vfmaq_laneq_f32 vC2 vB2 vA2 2
              let vC2 := vfmaq_laneq_f32 vC2 vB3 vA2 3
              let pC := vst1q_f32 pC (cIdx + cw * 2) vC2
              let vC3 := vld1q_f32 pC (cIdx + cw * 3)
              let vC3 := vfmaq_laneq_f32 vC3 vB0 vA3 0
              let vC3 := vfmaq_laneq_f32 vC3 vB1 vA3 1
              let vC3 := vfmaq_laneq_f32 vC3 vB2 vA3 2
              let vC3 := vfmaq_laneq_f32 vC3 vB3 vA3 3
              vst1q_f32 pC (cIdx + cw * 3) vC3)
            pC)
        pC)
    pC

/-- `GeMM::Optimize14` (lines 851-920). -/
def Optimize14 (a b c : Matrix) : Matrix :=
  if CheckParam a b c then
    { c with data := some (opt14Body (dataOf a) (dataOf b) a.h a.w b.w c.w (dataOf c)) }
  else c

/-- Loop nest of `GeMM::Optimize15` (lines 963-1010): `Optimize13` with
the index bases (`aIdxBase`, `cIdxBase`, `bIdxBase`) hoisted out of the
inner loops; the arithmetic is the same. -/
def opt15Body (pA pB : ℕ → ℚ) (ah aw bw cw : ℕ) (pC : ℕ → ℚ) : ℕ → ℚ :=
  (List.range (ah / 4)).foldl
    (fun pC qi =>
      let i := 4 * qi
      let aIdxBase := i * aw
      let cIdxBase := i * cw
      (List.range (aw / 4)).foldl
        (fun pC qk =>
          let k := 4 * qk
          let aIdx := aIdxBase + k
          let vA0 := vld1q_f32 pA aIdx
          let vA1 := vld1q_f32 pA (aIdx + aw)
          let vA2 := vld1q_f32 pA (aIdx + aw * 2)
          let vA3 := vld1q_f32 pA (aIdx + aw * 3)
          let bIdxBase := k * bw
          (List.range (bw / 4)).foldl
            (fun pC r =>
              let j := 4 * r
              let bIdx := bIdxBase + j
              let vB0 := vld1q_f32 pB bIdx
              let vB1 := vld1q_f32 pB (bIdx + bw)
              let vB2 := vld1q_f32 pB (bIdx + bw * 2)
              let vB3 := vld1q_f32 pB (bIdx + bw * 3)
              let cIdx := cIdxBase + j
              let vC0 := vld1q_f32 pC cIdx
              let vC0 := vfmaq_laneq_f32 vC0 vB0 vA0 0
              let vC0 := vfmaq_laneq_f32 vC0 vB1 vA0 1
              let vC0 := vfmaq_laneq_f32 vC0 vB2 vA0 2
              let vC0 := vfmaq_laneq_f32 vC0 vB3 vA0 3
              let pC := vst1q_f32 pC cIdx vC0
              let vC1 := vld1q_f32 pC (cIdx + cw)
              let vC1 := vfmaq_laneq_f32 vC1 vB0 vA1 0
              let vC1 := vfmaq_laneq_f32 vC1 vB1 vA1 1
              let vC1 := vfmaq_laneq_f32 vC1 vB2 vA1 2
              let vC1 := vfmaq_laneq_f32 vC1 vB3 vA1 3
              let pC := vst1q_f32 pC (cIdx + cw) vC1
              let vC2 := vld1q_f32 pC (cIdx + cw * 2)
              let vC2 := vfmaq_laneq_f32 vC2 vB0 vA2 0
              let vC2 := vfmaq_laneq_f32 vC2 vB1 vA2 1
              let vC2 := vfmaq_laneq_f32 vC2 vB2 vA2 2
              let vC2 := vfmaq_laneq_f32 vC2 vB3 vA2 3
              let pC := vst1q_f32 pC (cIdx + cw * 2) vC2
              let vC3 := vld1q_f32 pC (cIdx + cw * 3)
              let vC3 := vfmaq_laneq_f32 vC3 vB0 vA3 0
              let vC3 := vfmaq_laneq_f32 vC3 vB1 vA3 1
              let vC3 := vfmaq_laneq_f32 vC3 vB2 vA3 2
              let vC3 := vfmaq_laneq_f32 vC3 vB3 vA3 3
              vst1q_f32 pC (cIdx + cw * 3) vC3)
            pC)
        pC)
    pC

/-- `GeMM::Optimize15` (lines 937-1013). -/
def Optimize15 (a b c : Matrix) : Matrix :=
  if CheckParam a b c then
    { c with data := some (opt15Body (dataOf a) (dataOf b) a.h a.w b.w c.w (dataOf c)) }
  else c

/-- Loop nest of `GeMM::Optimize16` (lines 1059-1102): `Optimize14` with
the index bases hoisted; the arithmetic is the same. -/
def opt16Body (pA pB : ℕ → ℚ) (ah aw bw cw : ℕ) (pC : ℕ → ℚ) : ℕ → ℚ :=
  (List.range (aw / 4)).foldl
    (fun pC qk =>
      let k := 4 * qk
      let bIdxBase := k * bw
      (List.range (ah / 4)).foldl
        (fun pC qi =>
          let i := 4 * qi
          let aIdxBase := i * aw
          let cIdxBase := i * cw
          let aIdx := aIdxBase + k
          let vA0 := vld1q_f32 pA aIdx
          let vA1 := vld1q_f32 pA (aIdx + aw)
          let vA2 := vld1q_f32 pA (aIdx + aw * 2)
          let vA3 := vld1q_f32 pA (aIdx + aw * 3)
          (List.range (bw / 4)).foldl
            (fun pC r =>
              let j := 4 * r
              let bIdx := bIdxBase + j
              let vB0 := vld1q_f32 pB bIdx
              let vB1 := vld1q_f32 pB (bIdx + bw)
              let vB2 := vld1q_f32 pB (bIdx + bw * 2)
              let vB3 := vld1q_f32 pB (bIdx + bw * 3)
              let cIdx := cIdxBase + j
              let vC0 := vld1q_f32 pC cIdx
              let vC0 := vfmaq_laneq_f32 vC0 vB0 vA0 0
              let vC0 := vfmaq_laneq_f32 vC0 vB1 vA0 1
              let vC0 := vfmaq_laneq_f32 vC0 vB2 vA0 2
              let vC0 := vfmaq_laneq_f32 vC0 vB3 vA0 3
              let pC := vst1q_f32 pC cIdx vC0
              let vC1 := vld1q_f32 pC (cIdx + cw)
              let vC1 := vfmaq_laneq_f32 vC1 vB0 vA1 0
              let vC1 := vfmaq_laneq_f32 vC1 vB1 vA1 1
              let vC1 := vfmaq_laneq_f32 vC1 vB2 vA1 2
              let vC1 := vfmaq_laneq_f32 vC1 vB3 vA1 3
              let pC := vst1q_f32 pC (cIdx + cw) vC1
              let vC2 := vld1q_f32 pC (cIdx + cw * 2)
              let vC2 := vfmaq_laneq_f32 vC2 vB0 vA2 0
              let vC2 := vfmaq_laneq_f32 vC2 vB1 vA2 1
              let vC2 := vfmaq_laneq_f32 vC2 vB2 vA2 2
              let vC2 := vfmaq_laneq_f32 vC2 vB3 vA2 3
              let pC := vst1q_f32 pC (cIdx + cw * 2) vC2
              let vC3 := vld1q_f32 pC (cIdx + cw * 3)
              let vC3 := vfmaq_laneq_f32 vC3 vB0 vA3 0
              let vC3 := vfmaq_laneq_f32 vC3 vB1 vA3 1
              let vC3 := vfmaq_laneq_f32 vC3 vB2 vA3 2
              let vC3 := vfmaq_laneq_f32 vC3 vB3 vA3 3
              vst1q_f32 pC (cIdx + cw * 3) vC3)
            pC)
        pC)
    pC

/-- `GeMM::Optimize16` (lines 1030-1105). -/
def Optimize16 (a b c : Matrix) : Matrix :=
  if CheckParam a b c then
    { c with data := some (opt16Body (dataOf a) (dataOf b) a.h a.w b.w c.w (dataOf c)) }
  else c

end GeMM

/-- The total matrix-product contribution a kernel adds at linear offset
`n` of `C`'s buffer, with row range `I`, column range `J` and contraction
range `K` (a fully remainder-handling kernel has `I = a.h`, `J = b.w`,
`K = a.w`; the aligned kernels truncate some of these to `al4 _`). -/
def mmAcc (pA pB : ℕ → ℚ) (aw bw cw I J K : ℕ) (n : ℕ) : ℚ :=
  ∑ i in Finset.range I, ∑ j in Finset.range J,
    if n = i * cw + j then ∑ k in Finset.range K, pA (i * aw + k) * pB (k * bw + j) else 0

/-- A buffer holding the entries of `l` (row-major), zero beyond. -/
def listData (l : List ℚ) : ℕ → ℚ :=
  fun n => l.getD n 0

/-- The spec's concrete scenario: `A = [[1,2,3],[4,5,6]]` (2x3). -/
def tA : Matrix := ⟨some (listData [1, 2, 3, 4, 5, 6]), 2, 3⟩

/-- The spec's concrete scenario: `B = [[7,8],[9,10],[11,12]]` (3x2). -/
def tB : Matrix := ⟨some (listData [7, 8, 9, 10, 11, 12]), 3, 2⟩

/-- The spec's concrete scenario: a zero-initialised 2x2 `C`. -/
def tC : Matrix := ⟨some fun _ => 0, 2, 2⟩

/-- A 2x2 output matrix pre-populated with fives (for the accumulation
claim). -/
def tCpre : Matrix := ⟨some fun _ => 5, 2, 2⟩

/-- A 4x4 all-ones matrix (dimensions divisible by 4). -/
def fourA : Matrix := ⟨some fun _ => 1, 4, 4⟩

/-- A second 4x4 all-ones matrix. -/
def fourB : Matrix := ⟨some fun _ => 1, 4, 4⟩

/-- A zero-initialised 4x4 output matrix. -/
def fourC : Matrix := ⟨some fun _ => 0, 4, 4⟩

/-- A 1x4 all-ones matrix (contraction dimension 4, output width 1). -/
def xA : Matrix := ⟨some fun _ => 1, 1, 4⟩

/-- A 4x1 all-ones matrix. -/
def xB : Matrix := ⟨some fun _ => 1, 4, 1⟩

/-- A zero-initialised 1x1 output matrix. -/
def xC : Matrix := ⟨some fun _ => 0, 1, 1⟩

/-- A 1x1 view whose buffer is null. -/
def nullView : Matrix := ⟨none, 1, 1⟩

/-- A 1x2 matrix used to build a dimension-mismatched call. -/
def badA : Matrix := ⟨some fun _ => 1, 1, 2⟩

/-- A 1x1 matrix; `badA.w = 2 ≠ 1 = badB.h`. -/
def badB : Matrix := ⟨some fun _ => 1, 1, 1⟩

/-- A 1x1 output matrix for the mismatched call. -/
def badC : Matrix := ⟨some fun _ => 5, 1, 1⟩

/-- 5x5 all-ones input (not a multiple of 4, for the aligned-tail claim). -/
def fiveA : Matrix := ⟨some fun _ => 1, 5, 5⟩

/-- Second 5x5 all-ones input. -/
def fiveB : Matrix := ⟨some fun _ => 1, 5, 5⟩

/-- 5x5 output whose buffer initially holds its own offset at each cell. -/
def fiveC : Matrix := ⟨some fun n => (n : ℚ), 5, 5⟩

/-- A 1x5 all-ones A: its inner dimension 5 exercises one unrolled
`k`-chunk of `Optimize10` plus a scalar `k`-tail. -/
def yA : Matrix := ⟨some fun _ => 1, 1, 5⟩

/-- A 5x1 all-ones B: its width 1 is not a multiple of 4, so
`Optimize10`'s scalar `j`-tail runs. -/
def yB : Matrix := ⟨some fun _ => 1, 5, 1⟩

/-- A zero-initialised 1x1 C for the `yA * yB` product. -/
def yC : Matrix := ⟨some fun _ => 0, 1, 1⟩

/-- The triple of matrix views a kernel call sees: `A`, `B`, `C`. -/
structure GemmState where
  A : Matrix
  B : Matrix
  C : Matrix

/-- Run one kernel on a call state.  Every store instruction in every
kernel of `gemm.cpp` goes through `pC = c.data`, so a kernel only
produces a new `C`; `A` and `B` are passed through. -/
def callKernel (K : Matrix → Matrix → Matrix → Matrix) (s : GemmState) : GemmState :=
  { s with C := K s.A s.B s.C }

/-- All seventeen kernels, in declaration order. -/
def gemmKernels : List (Matrix → Matrix → Matrix → Matrix) :=
  [GeMM.Origin, GeMM.Optimize1, GeMM.Optimize2, GeMM.Optimize3,
   GeMM.Optimize4, GeMM.Optimize5, GeMM.Optimize6, GeMM.Optimize7,
   GeMM.Optimize8, GeMM.Optimize9, GeMM.Optimize10, GeMM.Optimize11,
   GeMM.Optimize12, GeMM.Optimize13, GeMM.Optimize14, GeMM.Optimize15,
   GeMM.Optimize16]

open GeMM

/-! ## Generic lemmas: pure accumulations -/

theorem isAdd_congr {F : (ℕ → ℚ) → ℕ → ℚ} {δ δ' : ℕ → ℚ}
    (h : isAdd F δ) (h' : ∀ n, δ n = δ' n) : isAdd F δ' := by
  intro p n
  rw [h p n, h' n]

theorem isAdd_addAt (idx : ℕ) (v : ℚ) :
    isAdd (fun p => addAt p idx v) (fun n => if n = idx then v else 0) := by
  intro p n
  dsimp only [addAt]
  split_ifs with h1
  · subst h1; ring
  · ring

theorem isAdd_seq {F G : (ℕ → ℚ) → ℕ → ℚ} {δF δG : ℕ → ℚ}
    (hF : isAdd F δF) (hG : isAdd G δG) :
    isAdd (fun p => G (F p)) (fun n => δF n + δG n) := by
  intro p n
  dsimp only
  rw [hG (F p) n, hF p n]
  ring

theorem isAdd_foldl_range {G : (ℕ → ℚ) → ℕ → ℕ → ℚ} {δ : ℕ → ℕ → ℚ}
    (h : ∀ x, isAdd (fun p => G p x) (δ x)) (m : ℕ) :
    isAdd (fun p => (List.range m).foldl G p)
      (fun n => ∑ q in Finset.range m, δ q n) := by
  induction m with
  | zero => intro p n; simp
  | succ m ih =>
    intro p n
    dsimp only
    rw [List.range_succ, List.foldl_append, List.foldl_cons, List.foldl_nil]
    have h1 := h m (List.foldl G p (List.range m)) n
    have h2 := ih p n
    dsimp only at h1 h2
    rw [h1, h2, Finset.sum_range_succ]
    ring

theorem isAdd_foldl_rangeFT {G : (ℕ → ℚ) → ℕ → ℕ → ℚ} {δ : ℕ → ℕ → ℚ}
    (h : ∀ x, isAdd (fun p => G p x) (δ x)) (lo hi : ℕ) :
    isAdd (fun p => (rangeFT lo hi).foldl G p)
      (fun n => ∑ d in Finset.range (hi - lo), δ (lo + d) n) := by
  intro p n
  dsimp only [rangeFT]
  rw [List.foldl_map]
  exact isAdd_foldl_range (fun d => h (lo + d)) (hi - lo) p n

theorem isAdd_vst_fma1 (idx : ℕ) (X Y : Vec4) :
    isAdd (fun p => vst1q_f32 p idx (vfmaq_f32 (vld1q_f32 p idx) X Y))
      (fun n =>
        if n = idx then X.x0 * Y.x0
        else if n = idx + 1 then X.x1 * Y.x1
        else if n = idx + 2 then X.x2 * Y.x2
        else if n = idx + 3 then X.x3 * Y.x3
        else 0) := by
  intro p n
  simp only [vst1q_f32, vfmaq_f32, vld1q_f32]
  split_ifs <;> subst_vars <;> ring

theorem isAdd_vst_fma4 (idx : ℕ) (A0 A1 A2 A3 B0 B1 B2 B3 : Vec4) :
    isAdd (fun p =>
        vst1q_f32 p idx
          (vfmaq_f32 (vfmaq_f32 (vfmaq_f32 (vfmaq_f32 (vld1q_f32 p idx) A0 B0) A1 B1) A2 B2) A3 B3))
      (fun n =>
        if n = idx then A0.x0 * B0.x0 + A1.x0 * B1.x0 + A2.x0 * B2.x0 + A3.x0 * B3.x0
        else if n = idx + 1 then A0.x1 * B0.x1 + A1.x1 * B1.x1 + A2.x1 * B2.x1 + A3.x1 * B3.x1
        else if n = idx + 2 then A0.x2 * B0.x2 + A1.x2 * B1.x2 + A2.x2 * B2.x2 + A3.x2 * B3.x2
        else if n = idx + 3 then A0.x3 * B0.x3 + A1.x3 * B1.x3 + A2.x3 * B2.x3 + A3.x3 * B3.x3
        else 0) := by
  intro p n
  simp only [vst1q_f32, vfmaq_f32, vld1q_f32]
  split_ifs <;> subst_vars <;> ring

theorem isAdd_vst_laneq4 (idx : ℕ) (B0 B1 B2 B3 v : Vec4) :
    isAdd (fun p =>
        vst1q_f32 p idx
          (vfmaq_laneq_f32
            (vfmaq_laneq_f32 (vfmaq_laneq_f32 (vfmaq_laneq_f32 (vld1q_f32 p idx) B0 v 0) B1 v 1) B2 v 2)
            B3 v 3))
      (fun n =>
        if n = idx then B0.x0 * v.x0 + B1.x0 * v.x1 + B2.x0 * v.x2 + B3.x0 * v.x3
        else if n = idx + 1 then B0.x1 * v.x0 + B1.x1 * v.x1 + B2.x1 * v.x2 + B3.x1 * v.x3
        else if n = idx + 2 then B0.x2 * v.x0 + B1.x2 * v.x1 + B2.x2 * v.x2 + B3.x2 * v.x3
        else if n = idx + 3 then B0.x3 * v.x0 + B1.x3 * v.x1 + B2.x3 * v.x2 + B3.x3 * v.x3
        else 0) := by
  intro p n
  simp only [vfmaq_laneq_f32, vdupq_n_f32, laneq, vst1q_f32, vfmaq_f32, vld1q_f32]
  norm_num
  split_ifs <;> subst_vars <;> ring

theorem ite4_chain_eq_sum (idx : ℕ) (v0 v1 v2 v3 : ℚ) (n : ℕ) :
    (if n = idx then v0
      else if n = idx + 1 then v1
      else if n = idx + 2 then v2
      else if n = idx + 3 then v3
      else 0)
      = (if n = idx then v0 else 0) + (if n = idx + 1 then v1 else 0)
          + (if n = idx + 2 then v2 else 0) + (if n = idx + 3 then v3 else 0) := by
  split_ifs <;> first | (exfalso; omega) | ring

/-! ## Generic lemmas: sum reshaping -/

theorem sum_ite_push (s : Finset ℕ) (c : Prop) [Decidable c] (f : ℕ → ℚ) :
    (∑ x in s, if c then f x else 0) = if c then ∑ x in s, f x else 0 := by
  split <;> simp

theorem sum_swap (m1 m2 : ℕ) (f : ℕ → ℕ → ℚ) :
    (∑ x in Finset.range m1, ∑ y in Finset.range m2, f x y)
      = ∑ y in Finset.range m2, ∑ x in Finset.range m1, f x y :=
  Finset.sum_comm

theorem chunk4 (f : ℕ → ℚ) (m : ℕ) :
    (∑ q in Finset.range m, (f (4 * q) + f (4 * q + 1) + f (4 * q + 2) + f (4 * q + 3)))
      = ∑ j in Finset.range (4 * m), f j := by
  induction m with
  | zero => simp
  | succ m ih =>
    rw [Finset.sum_range_succ, ih,
      show 4 * (m + 1) = 4 * m + 1 + 1 + 1 + 1 from by ring,
      Finset.sum_range_succ, Finset.sum_range_succ, Finset.sum_range_succ,
      Finset.sum_range_succ]
    ring_nf

theorem sum_range_split (f : ℕ → ℚ) (lo t : ℕ) :
    (∑ j in Finset.range lo, f j) + ∑ d in Finset.range t, f (lo + d)
      = ∑ j in Finset.range (lo + t), f j := by
  induction t with
  | zero => simp
  | succ t ih =>
    rw [Finset.sum_range_succ,
      show lo + (t + 1) = (lo + t) + 1 from by ring,
      Finset.sum_range_succ, ← ih]
    ring

theorem chunk_tail (f : ℕ → ℚ) (m : ℕ) :
    (∑ q in Finset.range (m / 4), (f (4 * q) + f (4 * q + 1) + f (4 * q + 2) + f (4 * q + 3)))
        + ∑ d in Finset.range (m - al4 m), f (al4 m + d)
      = ∑ j in Finset.range m, f j := by
  rw [chunk4]
  have h4 : 4 * (m / 4) = al4 m := rfl
  rw [h4, sum_range_split]
  have : al4 m + (m - al4 m) = m := by unfold al4; omega
  rw [this]

theorem chunk_tail4 (f0 f1 f2 f3 : ℕ → ℚ) (m : ℕ) :
    (∑ r in Finset.range (m / 4),
        (f0 (4 * r) + f1 (4 * r) + f2 (4 * r) + f3 (4 * r)
          + f0 (4 * r + 1) + f1 (4 * r + 1) + f2 (4 * r + 1) + f3 (4 * r + 1)
          + f0 (4 * r + 2) + f1 (4 * r + 2) + f2 (4 * r + 2) + f3 (4 * r + 2)
          + f0 (4 * r + 3) + f1 (4 * r + 3) + f2 (4 * r + 3) + f3 (4 * r + 3)))
      + ∑ d in Finset.range (m - al4 m),
          (f0 (al4 m + d) + f1 (al4 m + d) + f2 (al4 m + d) + f3 (al4 m + d))
      = (∑ j in Finset.range m, f0 j) + (∑ j in Finset.range m, f1 j)
          + (∑ j in Finset.range m, f2 j) + (∑ j in Finset.range m, f3 j) := by
  have key : ∀ (g0 g1 g2 g3 : ℕ → ℚ) (s : Finset ℕ),
      (∑ r in s, (g0 r + g1 r + g2 r + g3 r))
        = (∑ r in s, g0 r) + (∑ r in s, g1 r) + (∑ r in s, g2 r) + (∑ r in s, g3 r) := by
    intro g0 g1 g2 g3 s
    rw [Finset.sum_add_distrib, Finset.sum_add_distrib, Finset.sum_add_distrib]
  rw [← chunk_tail f0 m, ← chunk_tail f1 m, ← chunk_tail f2 m, ← chunk_tail f3 m]
  have h16 : (∑ r in Finset.range (m / 4),
        (f0 (4 * r) + f1 (4 * r) + f2 (4 * r) + f3 (4 * r)
          + f0 (4 * r + 1) + f1 (4 * r + 1) + f2 (4 * r + 1) + f3 (4 * r + 1)
          + f0 (4 * r + 2) + f1 (4 * r + 2) + f2 (4 * r + 2) + f3 (4 * r + 2)
          + f0 (4 * r + 3) + f1 (4 * r + 3) + f2 (4 * r + 3) + f3 (4 * r + 3)))
      = (∑ r in Finset.range (m / 4), (f0 (4 * r) + f0 (4 * r + 1) + f0 (4 * r + 2) + f0 (4 * r + 3)))
        + (∑ r in Finset.range (m / 4), (f1 (4 * r) + f1 (4 * r + 1) + f1 (4 * r + 2) + f1 (4 * r + 3)))
        + (∑ r in Finset.range (m / 4), (f2 (4 * r) + f2 (4 * r + 1) + f2 (4 * r + 2) + f2 (4 * r + 3)))
        + (∑ r in Finset.range (m / 4), (f3 (4 * r) + f3 (4 * r + 1) + f3 (4 * r + 2) + f3 (4 * r + 3))) := by
    rw [← key]
    exact Finset.sum_congr rfl fun r _ => by ring
  rw [h16, key (fun d => f0 (al4 m + d)) (fun d => f1 (al4 m + d))
    (fun d => f2 (al4 m + d)) (fun d => f3 (al4 m + d)) (Finset.range (m - al4 m))]
  ring

theorem sum_split4 (g0 g1 g2 g3 : ℕ → ℚ) (s : Finset ℕ) :
    (∑ r in s, (g0 r + g1 r + g2 r + g3 r))
      = (∑ r in s, g0 r) + (∑ r in s, g1 r) + (∑ r in s, g2 r) + (∑ r in s, g3 r) := by
  rw [Finset.sum_add_distrib, Finset.sum_add_distrib, Finset.sum_add_distrib]

theorem chunk4four (f0 f1 f2 f3 : ℕ → ℚ) (m : ℕ) :
    (∑ r in Finset.range m,
        (f0 (4 * r) + f1 (4 * r) + f2 (4 * r) + f3 (4 * r)
          + f0 (4 * r + 1) + f1 (4 * r + 1) + f2 (4 * r + 1) + f3 (4 * r + 1)
          + f0 (4 * r + 2) + f1 (4 * r + 2) + f2 (4 * r + 2) + f3 (4 * r + 2)
          + f0 (4 * r + 3) + f1 (4 * r + 3) + f2 (4 * r + 3) + f3 (4 * r + 3)))
      = (∑ j in Finset.range (4 * m), f0 j) + (∑ j in Finset.range (4 * m), f1 j)
          + (∑ j in Finset.range (4 * m), f2 j) + (∑ j in Finset.range (4 * m), f3 j) := by
  have h16 : (∑ r in Finset.range m,
        (f0 (4 * r) + f1 (4 * r) + f2 (4 * r) + f3 (4 * r)
          + f0 (4 * r + 1) + f1 (4 * r + 1) + f2 (4 * r + 1) + f3 (4 * r + 1)
          + f0 (4 * r + 2) + f1 (4 * r + 2) + f2 (4 * r + 2) + f3 (4 * r + 2)
          + f0 (4 * r + 3) + f1 (4 * r + 3) + f2 (4 * r + 3) + f3 (4 * r + 3)))
      = (∑ r in Finset.range m, (f0 (4 * r) + f0 (4 * r + 1) + f0 (4 * r + 2) + f0 (4 * r + 3)))
        + (∑ r in Finset.range m, (f1 (4 * r) + f1 (4 * r + 1) + f1 (4 * r + 2) + f1 (4 * r + 3)))
        + (∑ r in Finset.range m, (f2 (4 * r) + f2 (4 * r + 1) + f2 (4 * r + 2) + f2 (4 * r + 3)))
        + (∑ r in Finset.range m, (f3 (4 * r) + f3 (4 * r + 1) + f3 (4 * r + 2) + f3 (4 * r + 3))) := by
    rw [← sum_split4]
    exact Finset.sum_congr rfl fun r _ => by ring
  rw [h16, chunk4 f0 m, chunk4 f1 m, chunk4 f2 m, chunk4 f3 m]

theorem blockSumC_eq (pA pB : ℕ → ℚ) (aw bw cw : ℕ) (n i : ℕ) :
    (∑ q in Finset.range (aw / 4), ∑ r in Finset.range (bw / 4),
        ((if n = i * cw + 4 * r then
              pA (i * aw + 4 * q) * pB (4 * q * bw + 4 * r)
                + pA (i * aw + (4 * q + 1)) * pB ((4 * q + 1) * bw + 4 * r)
                + pA (i * aw + (4 * q + 2)) * pB ((4 * q + 2) * bw + 4 * r)
                + pA (i * aw + (4 * q + 3)) * pB ((4 * q + 3) * bw + 4 * r)
            else 0)
            + (if n = i * cw + (4 * r + 1) then
                pA (i * aw + 4 * q) * pB (4 * q * bw + (4 * r + 1))
                  + pA (i * aw + (4 * q + 1)) * pB ((4 * q + 1) * bw + (4 * r + 1))
                  + pA (i * aw + (4 * q + 2)) * pB ((4 * q + 2) * bw + (4 * r + 1))
                  + pA (i * aw + (4 * q + 3)) * pB ((4 * q + 3) * bw + (4 * r + 1))
              else 0)
            + (if n = i * cw + (4 * r + 2) then
                pA (i * aw + 4 * q) * pB (4 * q * bw + (4 * r + 2))
                  + pA (i * aw + (4 * q + 1)) * pB ((4 * q + 1) * bw + (4 * r + 2))
                  + pA (i * aw + (4 * q + 2)) * pB ((4 * q + 2) * bw + (4 * r + 2))
                  + pA (i * aw + (4 * q + 3)) * pB ((4 * q + 3) * bw + (4 * r + 2))
              else 0)
            + (if n = i * cw + (4 * r + 3) then
                pA (i * aw + 4 * q) * pB (4 * q * bw + (4 * r + 3))
                  + pA (i * aw + (4 * q + 1)) * pB ((4 * q + 1) * bw + (4 * r + 3))
                  + pA (i * aw + (4 * q + 2)) * pB ((4 * q + 2) * bw + (4 * r + 3))
                  + pA (i * aw + (4 * q + 3)) * pB ((4 * q + 3) * bw + (4 * r + 3))
              else 0)))
      = ∑ j in Finset.range (al4 bw),
          if n = i * cw + j then ∑ k in Finset.range (al4 aw), pA (i * aw + k) * pB (k * bw + j) else 0 := by
  calc
    (∑ q in Finset.range (aw / 4), ∑ r in Finset.range (bw / 4),
        ((if n = i * cw + 4 * r then
              pA (i * aw + 4 * q) * pB (4 * q * bw + 4 * r)
                + pA (i * aw + (4 * q + 1)) * pB ((4 * q + 1) * bw + 4 * r)
                + pA (i * aw + (4 * q + 2)) * pB ((4 * q + 2) * bw + 4 * r)
                + pA (i * aw + (4 * q + 3)) * pB ((4 * q + 3) * bw + 4 * r)
            else 0)
            + (if n = i * cw + (4 * r + 1) then
                pA (i * aw + 4 * q) * pB (4 * q * bw + (4 * r + 1))
                  + pA (i * aw + (4 * q + 1)) * pB ((4 * q + 1) * bw + (4 * r + 1))
                  + pA (i * aw + (4 * q + 2)) * pB ((4 * q + 2) * bw + (4 * r + 1))
                  + pA (i * aw + (4 * q + 3)) * pB ((4 * q + 3) * bw + (4 * r + 1))
              else 0)
            + (if n = i * cw + (4 * r + 2) then
                pA (i * aw + 4 * q) * pB (4 * q * bw + (4 * r + 2))
                  + pA (i * aw + (4 * q + 1)) * pB ((4 * q + 1) * bw + (4 * r + 2))
                  + pA (i * aw + (4 * q + 2)) * pB ((4 * q + 2) * bw + (4 * r + 2))
                  + pA (i * aw + (4 * q + 3)) * pB ((4 * q + 3) * bw + (4 * r + 2))
              else 0)
            + (if n = i * cw + (4 * r + 3) then
                pA (i * aw + 4 * q) * pB (4 * q * bw + (4 * r + 3))
                  + pA (i * aw + (4 * q + 1)) * pB ((4 * q + 1) * bw + (4 * r + 3))
                  + pA (i * aw + (4 * q + 2)) * pB ((4 * q + 2) * bw + (4 * r + 3))
                  + pA (i * aw + (4 * q + 3)) * pB ((4 * q + 3) * bw + (4 * r + 3))
              else 0)))
      = ∑ q in Finset.range (aw / 4), ∑ r in Finset.range (bw / 4),
          ((if n = i * cw + 4 * r then pA (i * aw + 4 * q) * pB (4 * q * bw + 4 * r) else 0)
            + (if n = i * cw + 4 * r then pA (i * aw + (4 * q + 1)) * pB ((4 * q + 1) * bw + 4 * r) else 0)
            + (if n = i * cw + 4 * r then pA (i * aw + (4 * q + 2)) * pB ((4 * q + 2) * bw + 4 * r) else 0)
            + (if n = i * cw + 4 * r then pA (i * aw + (4 * q + 3)) * pB ((4 * q + 3) * bw + 4 * r) else 0)
            + (if n = i * cw + (4 * r + 1) then pA (i * aw + 4 * q) * pB (4 * q * bw + (4 * r + 1)) else 0)
            + (if n = i * cw + (4 * r + 1) then pA (i * aw + (4 * q + 1)) * pB ((4 * q + 1) * bw + (4 * r + 1)) else 0)
            + (if n = i * cw + (4 * r + 1) then pA (i * aw + (4 * q + 2)) * pB ((4 * q + 2) * bw + (4 * r + 1)) else 0)
            + (if n = i * cw + (4 * r + 1) then pA (i * aw + (4 * q + 3)) * pB ((4 * q + 3) * bw + (4 * r + 1)) else 0)
            + (if n = i * cw + (4 * r + 2) then pA (i * aw + 4 * q) * pB (4 * q * bw + (4 * r + 2)) else 0)
            + (if n = i * cw + (4 * r + 2) then pA (i * aw + (4 * q + 1)) * pB ((4 * q + 1) * bw + (4 * r + 2)) else 0)
            + (if n = i * cw + (4 * r + 2) then pA (i * aw + (4 * q + 2)) * pB ((4 * q + 2) * bw + (4 * r + 2)) else 0)
            + (if n = i * cw + (4 * r + 2) then pA (i * aw + (4 * q + 3)) * pB ((4 * q + 3) * bw + (4 * r + 2)) else 0)
            + (if n = i * cw + (4 * r + 3) then pA (i * aw + 4 * q) * pB (4 * q * bw + (4 * r + 3)) else 0)
            + (if n = i * cw + (4 * r + 3) then pA (i * aw + (4 * q + 1)) * pB ((4 * q + 1) * bw + (4 * r + 3)) else 0)
            + (if n = i * cw + (4 * r + 3) then pA (i * aw + (4 * q + 2)) * pB ((4 * q + 2) * bw + (4 * r + 3)) else 0)
            + (if n = i * cw + (4 * r + 3) then pA (i * aw + (4 * q + 3)) * pB ((4 * q + 3) * bw + (4 * r + 3)) else 0)) :=
        Finset.sum_congr rfl fun q _ => Finset.sum_congr rfl fun r _ => by
          split_ifs <;> first | (exfalso; omega) | ring
    _ = ∑ q in Finset.range (aw / 4),
          ((∑ j in Finset.range (al4 bw), if n = i * cw + j then pA (i * aw + 4 * q) * pB (4 * q * bw + j) else 0)
            + (∑ j in Finset.range (al4 bw), if n = i * cw + j then pA (i * aw + (4 * q + 1)) * pB ((4 * q + 1) * bw + j) else 0)
            + (∑ j in Finset.range (al4 bw), if n = i * cw + j then pA (i * aw + (4 * q + 2)) * pB ((4 * q + 2) * bw + j) else 0)
            + ∑ j in Finset.range (al4 bw), if n = i * cw + j then pA (i * aw + (4 * q + 3)) * pB ((4 * q + 3) * bw + j) else 0) :=
        Finset.sum_congr rfl fun q _ =>
          chunk4four
              (fun j => if n = i * cw + j then pA (i * aw + 4 * q) * pB (4 * q * bw + j) else 0)
              (fun j => if n = i * cw + j then pA (i * aw + (4 * q + 1)) * pB ((4 * q + 1) * bw + j) else 0)
              (fun j => if n = i * cw + j then pA (i * aw + (4 * q + 2)) * pB ((4 * q + 2) * bw + j) else 0)
              (fun j => if n = i * cw + j then pA (i * aw + (4 * q + 3)) * pB ((4 * q + 3) * bw + j) else 0)
              (bw / 4)
    _ = ∑ k in Finset.range (al4 aw), ∑ j in Finset.range (al4 bw),
          if n = i * cw + j then pA (i * aw + k) * pB (k * bw + j) else 0 :=
        chunk4
          (fun k => ∑ j in Finset.range (al4 bw),
            if n = i * cw + j then pA (i * aw + k) * pB (k * bw + j) else 0)
          (aw / 4)
    _ = ∑ j in Finset.range (al4 bw), ∑ k in Finset.range (al4 aw),
          if n = i * cw + j then pA (i * aw + k) * pB (k * bw + j) else 0 :=
        sum_swap (al4 aw) (al4 bw) _
    _ = ∑ j in Finset.range (al4 bw),
          if n = i * cw + j then ∑ k in Finset.range (al4 aw), pA (i * aw + k) * pB (k * bw + j) else 0 :=
        Finset.sum_congr rfl fun j _ => sum_ite_push _ _ _


/-! ## Claim-level helpers -/

theorem rowcol_inj {cw i j i2 j2 : ℕ} (hj : j < cw) (hj2 : j2 < cw)
    (h : i * cw + j = i2 * cw + j2) : i = i2 ∧ j = j2 := by
  have hcw : 0 < cw := lt_of_le_of_lt (Nat.zero_le j) hj
  have e1 : (i * cw + j) % cw = j := by
    rw [show i * cw + j = cw * i + j from by ring, Nat.mul_add_mod]
    exact Nat.mod_eq_of_lt hj
  have e2 : (i2 * cw + j2) % cw = j2 := by
    rw [show i2 * cw + j2 = cw * i2 + j2 from by ring, Nat.mul_add_mod]
    exact Nat.mod_eq_of_lt hj2
  have hjj : j = j2 := by rw [← e1, h, e2]
  subst hjj
  have hm : i * cw = i2 * cw := by omega
  exact ⟨Nat.eq_of_mul_eq_mul_right hcw hm, rfl⟩

theorem mmAcc_apply (pA pB : ℕ → ℚ) (aw bw cw I J K i j : ℕ)
    (hi : i < I) (hj : j < J) (hJ : J ≤ cw) :
    mmAcc pA pB aw bw cw I J K (i * cw + j)
      = ∑ k in Finset.range K, pA (i * aw + k) * pB (k * bw + j) := by
  unfold mmAcc
  rw [Finset.sum_eq_single i]
  · rw [Finset.sum_eq_single j]
    · rw [if_pos rfl]
    · intro j2 hj2 hne
      rw [if_neg]
      intro hc
      exact hne ((rowcol_inj (lt_of_lt_of_le hj hJ)
        (lt_of_lt_of_le (Finset.mem_range.mp hj2) hJ) hc).2.symm)
    · intro hj2
      exact absurd (Finset.mem_range.mpr hj) hj2
  · intro i2 hi2 hne
    refine Finset.sum_eq_zero fun j2 hj2 => ?_
    rw [if_neg]
    intro hc
    exact hne ((rowcol_inj (lt_of_lt_of_le hj hJ)
      (lt_of_lt_of_le (Finset.mem_range.mp hj2) hJ) hc).1.symm)
  · intro hi2
    exact absurd (Finset.mem_range.mpr hi) hi2

theorem mmAcc_eq_zero (pA pB : ℕ → ℚ) (aw bw cw I J K i j : ℕ)
    (hj : j < cw) (hJ : J ≤ cw) (h : I ≤ i ∨ J ≤ j) :
    mmAcc pA pB aw bw cw I J K (i * cw + j) = 0 := by
  unfold mmAcc
  refine Finset.sum_eq_zero fun i2 hi2 => Finset.sum_eq_zero fun j2 hj2 => ?_
  rw [if_neg]
  intro hc
  obtain ⟨h1, h2⟩ := rowcol_inj hj (lt_of_lt_of_le (Finset.mem_range.mp hj2) hJ) hc
  have m1 := Finset.mem_range.mp hi2
  have m2 := Finset.mem_range.mp hj2
  omega

theorem al4_dvd_eq {m : ℕ} (h : 4 ∣ m) : al4 m = m := by
  unfold al4
  omega

theorem dataOf_some {m : Matrix} {f : ℕ → ℚ} (h : m.data = some f) : dataOf m = f := by
  unfold dataOf
  rw [h]
  rfl

theorem CheckParam_true (a b c : Matrix)
    (hab : a.w = b.h) (hh : a.h = c.h) (hw : b.w = c.w)
    (hA : a.data ≠ none) (hB : b.data ≠ none) (hC : c.data ≠ none) :
    CheckParam a b c = true := by
  unfold CheckParam
  rw [if_neg (by simp [hab]), if_neg (by simp [hh]), if_neg (by simp [hw]), if_neg]
  simp [Option.isNone_iff_eq_none, hA, hB, hC]

theorem CheckResult_true_of (a b : Matrix) (f g : ℕ → ℚ)
    (hw : a.w = b.w) (hh : a.h = b.h) (hA : a.data = some f) (hB : b.data = some g)
    (h : ∀ n, f n = g n) : CheckResult a b = true := by
  unfold CheckResult
  rw [if_neg (by simp [hw]), if_neg (by simp [hh]), if_neg (by simp [hA, hB])]
  refine List.all_eq_true.mpr fun i hi => List.all_eq_true.mpr fun j hj => ?_
  rw [decide_eq_true_eq, dataOf_some hA, dataOf_some hB, h, sub_self, abs_zero]
  unfold EPSILON
  norm_num

theorem Origin_run (a b c : Matrix) (h : CheckParam a b c = true) :
    GeMM.Origin a b c
      = { c with data := some (originBody (dataOf a) (dataOf b) a.h a.w b.w c.w (dataOf c)) } := by
  simp [GeMM.Origin, h]

theorem Origin_skip (a b c : Matrix) (h : CheckParam a b c = false) :
    GeMM.Origin a b c = c := by
  simp [GeMM.Origin, h]

theorem Optimize1_run (a b c : Matrix) (h : CheckParam a b c = true) :
    GeMM.Optimize1 a b c
      = { c with data := some (opt1Body (dataOf a) (dataOf b) a.h a.w b.w c.w (dataOf c)) } := by
  simp [GeMM.Optimize1, h]

theorem Optimize1_skip (a b c : Matrix) (h : CheckParam a b c = false) :
    GeMM.Optimize1 a b c = c := by
  simp [GeMM.Optimize1, h]

theorem Optimize2_run (a b c : Matrix) (h : CheckParam a b c = true) :
    GeMM.Optimize2 a b c
      = { c with data := some (opt2Body (dataOf a) (dataOf b) a.h a.w b.w c.w (dataOf c)) } := by
  simp [GeMM.Optimize2, h]

theorem Optimize2_skip (a b c : Matrix) (h : CheckParam a b c = false) :
    GeMM.Optimize2 a b c = c := by
  simp [GeMM.Optimize2, h]

theorem Optimize3_run (a b c : Matrix) (h : CheckParam a b c = true) :
    GeMM.Optimize3 a b c
      = { c with data := some (opt3Body (dataOf a) (dataOf b) a.h a.w b.w c.w (dataOf c)) } := by
  simp [GeMM.Optimize3, h]

theorem Optimize3_skip (a b c : Matrix) (h : CheckParam a b c = false) :
    GeMM.Optimize3 a b c = c := by
  simp [GeMM.Optimize3, h]

theorem Optimize4_run (a b c : Matrix) (h : CheckParam a b c = true) :
    GeMM.Optimize4 a b c
      = { c with data := some (opt4Body (dataOf a) (dataOf b) a.h a.w b.w c.w (dataOf c)) } := by
  simp [GeMM.Optimize4, h]

theorem Optimize4_skip (a b c : Matrix) (h : CheckParam a b c = false) :
    GeMM.Optimize4 a b c = c := by
  simp [GeMM.Optimize4, h]

theorem Optimize5_run (a b c : Matrix) (h : CheckParam a b c = true) :
    GeMM.Optimize5 a b c
      = { c with data := some (opt5Body (dataOf a) (dataOf b) a.h a.w b.w c.w (dataOf c)) } := by
  simp [GeMM.Optimize5, h]

theorem Optimize5_skip (a b c : Matrix) (h : CheckParam a b c = false) :
    GeMM.Optimize5 a b c = c := by
  simp [GeMM.Optimize5, h]

theorem Optimize6_run (a b c : Matrix) (h : CheckParam a b c = true) :
    GeMM.Optimize6 a b c
      = { c with data := some (opt6Body (dataOf a) (dataOf b) a.h a.w b.w c.w (dataOf c)) } := by
  simp [GeMM.Optimize6, h]

theorem Optimize6_skip (a b c : Matrix) (h : CheckParam a b c = false) :
    GeMM.Optimize6 a b c = c := by
  simp [GeMM.Optimize6, h]

theorem Optimize7_run (a b c : Matrix) (h : CheckParam a b c = true) :
    GeMM.Optimize7 a b c
      = { c with data := some (opt7Body (dataOf a) (dataOf b) a.h a.w b.w c.w (dataOf c)) } := by
  simp [GeMM.Optimize7, h]

theorem Optimize7_skip (a b c : Matrix) (h : CheckParam a b c = false) :
    GeMM.Optimize7 a b c = c := by
  simp [GeMM.Optimize7, h]

theorem Optimize8_run (a b c : Matrix) (h : CheckParam a b c = true) :
    GeMM.Optimize8 a b c
      = { c with data := some (opt8Body (dataOf a) (dataOf b) a.h a.w b.w c.w (dataOf c)) } := by
  simp [GeMM.Optimize8, h]

theorem Optimize8_skip (a b c : Matrix) (h : CheckParam a b c = false) :
    GeMM.Optimize8 a b c = c := by
  simp [GeMM.Optimize8, h]

theorem Optimize9_run (a b c : Matrix) (h : CheckParam a b c = true) :
    GeMM.Optimize9 a b c
      = { c with data := some (opt9Body (dataOf a) (dataOf b) a.h a.w b.w c.w (dataOf c)) } := by
  simp [GeMM.Optimize9, h]

theorem Optimize9_skip (a b c : Matrix) (h : CheckParam a b c = false) :
    GeMM.Optimize9 a b c = c := by
  simp [GeMM.Optimize9, h]

theorem Optimize10_run (a b c : Matrix) (h : CheckParam a b c = true) :
    GeMM.Optimize10 a b c
      = { c with data := some (opt10Body (dataOf a) (dataOf b) a.h a.w b.w c.w (dataOf c)) } := by
  simp [GeMM.Optimize10, h]

theorem Optimize10_skip (a b c : Matrix) (h : CheckParam a b c = false) :
    GeMM.Optimize10 a b c = c := by
  simp [GeMM.Optimize10, h]

theorem Optimize11_run (a b c : Matrix) (h : CheckParam a b c = true) :
    GeMM.Optimize11 a b c
      = { c with data := some (opt11Body (dataOf a) (dataOf b) a.h a.w b.w c.w (dataOf c)) } := by
  simp [GeMM.Optimize11, h]

theorem Optimize11_skip (a b c : Matrix) (h : CheckParam a b c = false) :
    GeMM.Optimize11 a b c = c := by
  simp [GeMM.Optimize11, h]

theorem Optimize12_run (a b c : Matrix) (h : CheckParam a b c = true) :
    GeMM.Optimize12 a b c
      = { c with data := some (opt12Body (dataOf a) (dataOf b) a.h a.w b.w c.w (dataOf c)) } := by
  simp [GeMM.Optimize12, h]

theorem Optimize12_skip (a b c : Matrix) (h : CheckParam a b c = false) :
    GeMM.Optimize12 a b c = c := by
  simp [GeMM.Optimize12, h]

theorem Optimize13_run (a b c : Matrix) (h : CheckParam a b c = true) :
    GeMM.Optimize13 a b c
      = { c with data := some (opt13Body (dataOf a) (dataOf b) a.h a.w b.w c.w (dataOf c)) } := by
  simp [GeMM.Optimize13, h]

theorem Optimize13_skip (a b c : Matrix) (h : CheckParam a b c = false) :
    GeMM.Optimize13 a b c = c := by
  simp [GeMM.Optimize13, h]

theorem Optimize14_run (a b c : Matrix) (h : CheckParam a b c = true) :
    GeMM.Optimize14 a b c
      = { c with data := some (opt14Body (dataOf a) (dataOf b) a.h a.w b.w c.w (dataOf c)) } := by
  simp [GeMM.Optimize14, h]

theorem Optimize14_skip (a b c : Matrix) (h : CheckParam a b c = false) :
    GeMM.Optimize14 a b c = c := by
  simp [GeMM.Optimize14, h]

theorem Optimize15_run (a b c : Matrix) (h : CheckParam a b c = true) :
    GeMM.Optimize15 a b c
      = { c with data := some (opt15Body (dataOf a) (dataOf b) a.h a.w b.w c.w (dataOf c)) } := by
  simp [GeMM.Optimize15, h]

theorem Optimize15_skip (a b c : Matrix) (h : CheckParam a b c = false) :
    GeMM.Optimize15 a b c = c := by
  simp [GeMM.Optimize15, h]

theorem Optimize16_run (a b c : Matrix) (h : CheckParam a b c = true) :
    GeMM.Optimize16 a b c
      = { c with data := some (opt16Body (dataOf a) (dataOf b) a.h a.w b.w c.w (dataOf c)) } := by
  simp [GeMM.Optimize16, h]

theorem Optimize16_skip (a b c : Matrix) (h : CheckParam a b c = false) :
    GeMM.Optimize16 a b c = c := by
  simp [GeMM.Optimize16, h]

/-! ## Body lemmas: each kernel's loop nest is a pure accumulation -/

theorem originBody_eq (pA pB : ℕ → ℚ) (ah aw bw cw : ℕ) (pC : ℕ → ℚ) (n : ℕ) :
    originBody pA pB ah aw bw cw pC n = pC n + mmAcc pA pB aw bw cw ah bw aw n := by
  have h : isAdd (originBody pA pB ah aw bw cw)
      (fun n => ∑ i in Finset.range ah, ∑ j in Finset.range bw, ∑ k in Finset.range aw,
        if n = i * cw + j then pA (i * aw + k) * pB (k * bw + j) else 0) := by
    unfold originBody
    exact isAdd_foldl_range
      (fun i => isAdd_foldl_range
        (fun j => isAdd_foldl_range (fun k => isAdd_addAt _ _) _) _) _
  rw [h pC n]
  congr 1
  unfold mmAcc
  refine Finset.sum_congr rfl fun i _ => Finset.sum_congr rfl fun j _ => ?_
  rw [sum_ite_push]

theorem opt1Body_eq (pA pB : ℕ → ℚ) (ah aw bw cw : ℕ) (pC : ℕ → ℚ) (n : ℕ) :
    opt1Body pA pB ah aw bw cw pC n = pC n + mmAcc pA pB aw bw cw ah bw aw n := by
  have h : isAdd (opt1Body pA pB ah aw bw cw)
      (fun n => ∑ i in Finset.range ah, ∑ k in Finset.range aw, ∑ j in Finset.range bw,
        if n = i * cw + j then pA (i * aw + k) * pB (k * bw + j) else 0) := by
    unfold opt1Body
    exact isAdd_foldl_range
      (fun i => isAdd_foldl_range
        (fun k => isAdd_foldl_range (fun j => isAdd_addAt _ _) _) _) _
  rw [h pC n]
  congr 1
  unfold mmAcc
  dsimp only
  refine Finset.sum_congr rfl fun i _ => ?_
  rw [sum_swap aw bw]
  refine Finset.sum_congr rfl fun j _ => ?_
  rw [sum_ite_push]

theorem opt3Body_eq (pA pB : ℕ → ℚ) (ah aw bw cw : ℕ) (pC : ℕ → ℚ) (n : ℕ) :
    opt3Body pA pB ah aw bw cw pC n = pC n + mmAcc pA pB aw bw cw ah bw aw n := by
  have h : isAdd (opt3Body pA pB ah aw bw cw)
      (fun n => ∑ i in Finset.range ah, ∑ k in Finset.range aw,
        ((∑ q in Finset.range (bw / 4),
            ((if n = i * cw + 4 * q then pA (i * aw + k) * pB (k * bw + 4 * q) else 0)
              + (if n = i * cw + 4 * q + 1 then pA (i * aw + k) * pB (k * bw + 4 * q + 1) else 0)
              + (if n = i * cw + 4 * q + 2 then pA (i * aw + k) * pB (k * bw + 4 * q + 2) else 0)
              + (if n = i * cw + 4 * q + 3 then pA (i * aw + k) * pB (k * bw + 4 * q + 3) else 0)))
          + ∑ d in Finset.range (bw - al4 bw),
              if n = i * cw + (al4 bw + d) then pA (i * aw + k) * pB (k * bw + (al4 bw + d)) else 0)) := by
    unfold opt3Body
    exact isAdd_foldl_range
      (fun i => isAdd_foldl_range
        (fun k => isAdd_seq
          (isAdd_foldl_range
            (fun q => isAdd_seq
              (isAdd_seq (isAdd_seq (isAdd_addAt _ _) (isAdd_addAt _ _)) (isAdd_addAt _ _))
              (isAdd_addAt _ _)) _)
          (isAdd_foldl_rangeFT (fun j => isAdd_addAt _ _) _ _)) _) _
  rw [h pC n]
  congr 1
  unfold mmAcc
  dsimp only
  simp only [Nat.add_assoc]
  refine Finset.sum_congr rfl fun i _ => ?_
  calc
    ∑ k in Finset.range aw,
        ((∑ q in Finset.range (bw / 4),
            ((if n = i * cw + 4 * q then pA (i * aw + k) * pB (k * bw + 4 * q) else 0)
              + (if n = i * cw + (4 * q + 1) then pA (i * aw + k) * pB (k * bw + (4 * q + 1)) else 0)
              + (if n = i * cw + (4 * q + 2) then pA (i * aw + k) * pB (k * bw + (4 * q + 2)) else 0)
              + (if n = i * cw + (4 * q + 3) then pA (i * aw + k) * pB (k * bw + (4 * q + 3)) else 0)))
          + ∑ d in Finset.range (bw - al4 bw),
              if n = i * cw + (al4 bw + d) then pA (i * aw + k) * pB (k * bw + (al4 bw + d)) else 0)
      = ∑ k in Finset.range aw, ∑ j in Finset.range bw,
          if n = i * cw + j then pA (i * aw + k) * pB (k * bw + j) else 0 :=
        Finset.sum_congr rfl fun k _ =>
          chunk_tail (fun j => if n = i * cw + j then pA (i * aw + k) * pB (k * bw + j) else 0) bw
    _ = ∑ j in Finset.range bw, ∑ k in Finset.range aw,
          if n = i * cw + j then pA (i * aw + k) * pB (k * bw + j) else 0 := sum_swap aw bw _
    _ = ∑ j in Finset.range bw,
          if n = i * cw + j then ∑ k in Finset.range aw, pA (i * aw + k) * pB (k * bw + j) else 0 :=
        Finset.sum_congr rfl fun j _ => sum_ite_push _ _ _

theorem opt4Body_eq (pA pB : ℕ → ℚ) (ah aw bw cw : ℕ) (pC : ℕ → ℚ) (n : ℕ) :
    opt4Body pA pB ah aw bw cw pC n = pC n + mmAcc pA pB aw bw cw ah bw aw n := by
  have h : isAdd (opt4Body pA pB ah aw bw cw)
      (fun n => ∑ k in Finset.range aw, ∑ i in Finset.range ah,
        ((∑ q in Finset.range (bw / 4),
            ((if n = i * cw + 4 * q then pA (i * aw + k) * pB (k * bw + 4 * q) else 0)
              + (if n = i * cw + 4 * q + 1 then pA (i * aw + k) * pB (k * bw + 4 * q + 1) else 0)
              + (if n = i * cw + 4 * q + 2 then pA (i * aw + k) * pB (k * bw + 4 * q + 2) else 0)
              + (if n = i * cw + 4 * q + 3 then pA (i * aw + k) * pB (k * bw + 4 * q + 3) else 0)))
          + ∑ d in Finset.range (bw - al4 bw),
              if n = i * cw + (al4 bw + d) then pA (i * aw + k) * pB (k * bw + (al4 bw + d)) else 0)) := by
    unfold opt4Body
    exact isAdd_foldl_range
      (fun k => isAdd_foldl_range
        (fun i => isAdd_seq
          (isAdd_foldl_range
            (fun q => isAdd_seq
              (isAdd_seq (isAdd_seq (isAdd_addAt _ _) (isAdd_addAt _ _)) (isAdd_addAt _ _))
              (isAdd_addAt _ _)) _)
          (isAdd_foldl_rangeFT (fun j => isAdd_addAt _ _) _ _)) _) _
  rw [h pC n]
  congr 1
  unfold mmAcc
  dsimp only
  simp only [Nat.add_assoc]
  rw [sum_swap aw ah]
  refine Finset.sum_congr rfl fun i _ => ?_
  calc
    ∑ k in Finset.range aw,
        ((∑ q in Finset.range (bw / 4),
            ((if n = i * cw + 4 * q then pA (i * aw + k) * pB (k * bw + 4 * q) else 0)
              + (if n = i * cw + (4 * q + 1) then pA (i * aw + k) * pB (k * bw + (4 * q + 1)) else 0)
              + (if n = i * cw + (4 * q + 2) then pA (i * aw + k) * pB (k * bw + (4 * q + 2)) else 0)
              + (if n = i * cw + (4 * q + 3) then pA (i * aw + k) * pB (k * bw + (4 * q + 3)) else 0)))
          + ∑ d in Finset.range (bw - al4 bw),
              if n = i * cw + (al4 bw + d) then pA (i * aw + k) * pB (k * bw + (al4 bw + d)) else 0)
      = ∑ k in Finset.range aw, ∑ j in Finset.range bw,
          if n = i * cw + j then pA (i * aw + k) * pB (k * bw + j) else 0 :=
        Finset.sum_congr rfl fun k _ =>
          chunk_tail (fun j => if n = i * cw + j then pA (i * aw + k) * pB (k * bw + j) else 0) bw
    _ = ∑ j in Finset.range bw, ∑ k in Finset.range aw,
          if n = i * cw + j then pA (i * aw + k) * pB (k * bw + j) else 0 := sum_swap aw bw _
    _ = ∑ j in Finset.range bw,
          if n = i * cw + j then ∑ k in Finset.range aw, pA (i * aw + k) * pB (k * bw + j) else 0 :=
        Finset.sum_congr rfl fun j _ => sum_ite_push _ _ _

theorem opt5Body_eq (pA pB : ℕ → ℚ) (ah aw bw cw : ℕ) (pC : ℕ → ℚ) (n : ℕ) :
    opt5Body pA pB ah aw bw cw pC n = pC n + mmAcc pA pB aw bw cw ah bw aw n := by
  have h : isAdd (opt5Body pA pB ah aw bw cw)
      (fun n => ∑ i in Finset.range ah, ∑ k in Finset.range aw,
        ((∑ q in Finset.range (bw / 4),
            ((if n = i * cw + 4 * q then pA (i * aw + k) * pB (k * bw + 4 * q) else 0)
              + (if n = i * cw + 4 * q + 1 then pA (i * aw + k) * pB (k * bw + 4 * q + 1) else 0)
              + (if n = i * cw + 4 * q + 2 then pA (i * aw + k) * pB (k * bw + 4 * q + 2) else 0)
              + (if n = i * cw + 4 * q + 3 then pA (i * aw + k) * pB (k * bw + 4 * q + 3) else 0)))
          + ∑ d in Finset.range (bw - al4 bw),
              if n = i * cw + (al4 bw + d) then pA (i * aw + k) * pB (k * bw + (al4 bw + d)) else 0)) := by
    unfold opt5Body
    exact isAdd_foldl_range
      (fun i => isAdd_foldl_range
        (fun k => isAdd_seq
          (isAdd_foldl_range
            (fun q => isAdd_congr (isAdd_vst_fma1 _ _ _)
              (fun m => ite4_chain_eq_sum _ _ _ _ _ m)) _)
          (isAdd_foldl_rangeFT (fun j => isAdd_addAt _ _) _ _)) _) _
  rw [h pC n]
  congr 1
  unfold mmAcc
  dsimp only
  simp only [Nat.add_assoc]
  refine Finset.sum_congr rfl fun i _ => ?_
  calc
    ∑ k in Finset.range aw,
        ((∑ q in Finset.range (bw / 4),
            ((if n = i * cw + 4 * q then pA (i * aw + k) * pB (k * bw + 4 * q) else 0)
              + (if n = i * cw + (4 * q + 1) then pA (i * aw + k) * pB (k * bw + (4 * q + 1)) else 0)
              + (if n = i * cw + (4 * q + 2) then pA (i * aw + k) * pB (k * bw + (4 * q + 2)) else 0)
              + (if n = i * cw + (4 * q + 3) then pA (i * aw + k) * pB (k * bw + (4 * q + 3)) else 0)))
          + ∑ d in Finset.range (bw - al4 bw),
              if n = i * cw + (al4 bw + d) then pA (i * aw + k) * pB (k * bw + (al4 bw + d)) else 0)
      = ∑ k in Finset.range aw, ∑ j in Finset.range bw,
          if n = i * cw + j then pA (i * aw + k) * pB (k * bw + j) else 0 :=
        Finset.sum_congr rfl fun k _ =>
          chunk_tail (fun j => if n = i * cw + j then pA (i * aw + k) * pB (k * bw + j) else 0) bw
    _ = ∑ j in Finset.range bw, ∑ k in Finset.range aw,
          if n = i * cw + j then pA (i * aw + k) * pB (k * bw + j) else 0 := sum_swap aw bw _
    _ = ∑ j in Finset.range bw,
          if n = i * cw + j then ∑ k in Finset.range aw, pA (i * aw + k) * pB (k * bw + j) else 0 :=
        Finset.sum_congr rfl fun j _ => sum_ite_push _ _ _

theorem opt6Body_eq (pA pB : ℕ → ℚ) (ah aw bw cw : ℕ) (pC : ℕ → ℚ) (n : ℕ) :
    opt6Body pA pB ah aw bw cw pC n = pC n + mmAcc pA pB aw bw cw ah bw aw n := by
  have h : isAdd (opt6Body pA pB ah aw bw cw)
      (fun n => ∑ k in Finset.range aw, ∑ i in Finset.range ah,
        ((∑ q in Finset.range (bw / 4),
            ((if n = i * cw + 4 * q then pA (i * aw + k) * pB (k * bw + 4 * q) else 0)
              + (if n = i * cw + 4 * q + 1 then pA (i * aw + k) * pB (k * bw + 4 * q + 1) else 0)
              + (if n = i * cw + 4 * q + 2 then pA (i * aw + k) * pB (k * bw + 4 * q + 2) else 0)
              + (if n = i * cw + 4 * q + 3 then pA (i * aw + k) * pB (k * bw + 4 * q + 3) else 0)))
          + ∑ d in Finset.range (bw - al4 bw),
              if n = i * cw + (al4 bw + d) then pA (i * aw + k) * pB (k * bw + (al4 bw + d)) else 0)) := by
    unfold opt6Body
    exact isAdd_foldl_range
      (fun k => isAdd_foldl_range
        (fun i => isAdd_seq
          (isAdd_foldl_range
            (fun q => isAdd_congr (isAdd_vst_fma1 _ _ _)
              (fun m => ite4_chain_eq_sum _ _ _ _ _ m)) _)
          (isAdd_foldl_rangeFT (fun j => isAdd_addAt _ _) _ _)) _) _
  rw [h pC n]
  congr 1
  unfold mmAcc
  dsimp only
  simp only [Nat.add_assoc]
  rw [sum_swap aw ah]
  refine Finset.sum_congr rfl fun i _ => ?_
  calc
    ∑ k in Finset.range aw,
        ((∑ q in Finset.range (bw / 4),
            ((if n = i * cw + 4 * q then pA (i * aw + k) * pB (k * bw + 4 * q) else 0)
              + (if n = i * cw + (4 * q + 1) then pA (i * aw + k) * pB (k * bw + (4 * q + 1)) else 0)
              + (if n = i * cw + (4 * q + 2) then pA (i * aw + k) * pB (k * bw + (4 * q + 2)) else 0)
              + (if n = i * cw + (4 * q + 3) then pA (i * aw + k) * pB (k * bw + (4 * q + 3)) else 0)))
          + ∑ d in Finset.range (bw - al4 bw),
              if n = i * cw + (al4 bw + d) then pA (i * aw + k) * pB (k * bw + (al4 bw + d)) else 0)
      = ∑ k in Finset.range aw, ∑ j in Finset.range bw,
          if n = i * cw + j then pA (i * aw + k) * pB (k * bw + j) else 0 :=
        Finset.sum_congr rfl fun k _ =>
          chunk_tail (fun j => if n = i * cw + j then pA (i * aw + k) * pB (k * bw + j) else 0) bw
    _ = ∑ j in Finset.range bw, ∑ k in Finset.range aw,
          if n = i * cw + j then pA (i * aw + k) * pB (k * bw + j) else 0 := sum_swap aw bw _
    _ = ∑ j in Finset.range bw,
          if n = i * cw + j then ∑ k in Finset.range aw, pA (i * aw + k) * pB (k * bw + j) else 0 :=
        Finset.sum_congr rfl fun j _ => sum_ite_push _ _ _

theorem opt7Body_eq (pA pB : ℕ → ℚ) (ah aw bw cw : ℕ) (pC : ℕ → ℚ) (n : ℕ) :
    opt7Body pA pB ah aw bw cw pC n = pC n + mmAcc pA pB aw bw cw ah bw aw n := by
  have h : isAdd (opt7Body pA pB ah aw bw cw)
      (fun n => ∑ i in Finset.range ah,
        ((∑ q in Finset.range (aw / 4),
            ((∑ r in Finset.range (bw / 4),
                ((if n = i * cw + 4 * r then pA (i * aw + 4 * q) * pB (4 * q * bw + 4 * r) else 0)
                  + (if n = i * cw + 4 * r then pA (i * aw + 4 * q + 1) * pB ((4 * q + 1) * bw + 4 * r) else 0)
                  + (if n = i * cw + 4 * r then pA (i * aw + 4 * q + 2) * pB ((4 * q + 2) * bw + 4 * r) else 0)
                  + (if n = i * cw + 4 * r then pA (i * aw + 4 * q + 3) * pB ((4 * q + 3) * bw + 4 * r) else 0)
                  + (if n = i * cw + 4 * r + 1 then pA (i * aw + 4 * q) * pB (4 * q * bw + 4 * r + 1) else 0)
                  + (if n = i * cw + 4 * r + 1 then pA (i * aw + 4 * q + 1) * pB ((4 * q + 1) * bw + 4 * r + 1) else 0)
                  + (if n = i * cw + 4 * r + 1 then pA (i * aw + 4 * q + 2) * pB ((4 * q + 2) * bw + 4 * r + 1) else 0)
                  + (if n = i * cw + 4 * r + 1 then pA (i * aw + 4 * q + 3) * pB ((4 * q + 3) * bw + 4 * r + 1) else 0)
                  + (if n = i * cw + 4 * r + 2 then pA (i * aw + 4 * q) * pB (4 * q * bw + 4 * r + 2) else 0)
                  + (if n = i * cw + 4 * r + 2 then pA (i * aw + 4 * q + 1) * pB ((4 * q + 1) * bw + 4 * r + 2) else 0)
                  + (if n = i * cw + 4 * r + 2 then pA (i * aw + 4 * q + 2) * pB ((4 * q + 2) * bw + 4 * r + 2) else 0)
                  + (if n = i * cw + 4 * r + 2 then pA (i * aw + 4 * q + 3) * pB ((4 * q + 3) * bw + 4 * r + 2) else 0)
                  + (if n = i * cw + 4 * r + 3 then pA (i * aw + 4 * q) * pB (4 * q * bw + 4 * r + 3) else 0)
                  + (if n = i * cw + 4 * r + 3 then pA (i * aw + 4 * q + 1) * pB ((4 * q + 1) * bw + 4 * r + 3) else 0)
                  + (if n = i * cw + 4 * r + 3 then pA (i * aw + 4 * q + 2) * pB ((4 * q + 2) * bw + 4 * r + 3) else 0)
                  + (if n = i * cw + 4 * r + 3 then pA (i * aw + 4 * q + 3) * pB ((4 * q + 3) * bw + 4 * r + 3) else 0)))
              + ∑ d in Finset.range (bw - al4 bw),
                  ((if n = i * cw + (al4 bw + d) then pA (i * aw + 4 * q) * pB (4 * q * bw + (al4 bw + d)) else 0)
                    + (if n = i * cw + (al4 bw + d) then pA (i * aw + 4 * q + 1) * pB ((4 * q + 1) * bw + (al4 bw + d)) else 0)
                    + (if n = i * cw + (al4 bw + d) then pA (i * aw + 4 * q + 2) * pB ((4 * q + 2) * bw + (al4 bw + d)) else 0)
                    + (if n = i * cw + (al4 bw + d) then pA (i * aw + 4 * q + 3) * pB ((4 * q + 3) * bw + (al4 bw + d)) else 0))))
          + ∑ dk in Finset.range (aw - al4 aw),
              ((∑ q in Finset.range (bw / 4),
                  ((if n = i * cw + 4 * q then pA (i * aw + (al4 aw + dk)) * pB ((al4 aw + dk) * bw + 4 * q) else 0)
                    + (if n = i * cw + 4 * q + 1 then pA (i * aw + (al4 aw + dk)) * pB ((al4 aw + dk) * bw + 4 * q + 1) else 0)
                    + (if n = i * cw + 4 * q + 2 then pA (i * aw + (al4 aw + dk)) * pB ((al4 aw + dk) * bw + 4 * q + 2) else 0)
                    + (if n = i * cw + 4 * q + 3 then pA (i * aw + (al4 aw + dk)) * pB ((al4 aw + dk) * bw + 4 * q + 3) else 0)))
                + ∑ d in Finset.range (bw - al4 bw),
                    if n = i * cw + (al4 bw + d) then pA (i * aw + (al4 aw + dk)) * pB ((al4 aw + dk) * bw + (al4 bw + d)) else 0))) := by
    unfold opt7Body
    exact isAdd_foldl_range
      (fun i => isAdd_seq
        (isAdd_foldl_range
          (fun q => isAdd_seq
            (isAdd_foldl_range
              (fun r =>
                isAdd_seq (isAdd_seq (isAdd_seq (isAdd_seq (isAdd_seq (isAdd_seq (isAdd_seq
                  (isAdd_seq (isAdd_seq (isAdd_seq (isAdd_seq (isAdd_seq (isAdd_seq (isAdd_seq
                  (isAdd_seq
                    (isAdd_addAt _ _) (isAdd_addAt _ _)) (isAdd_addAt _ _)) (isAdd_addAt _ _))
                  (isAdd_addAt _ _)) (isAdd_addAt _ _)) (isAdd_addAt _ _)) (isAdd_addAt _ _))
                  (isAdd_addAt _ _)) (isAdd_addAt _ _)) (isAdd_addAt _ _)) (isAdd_addAt _ _))
                  (isAdd_addAt _ _)) (isAdd_addAt _ _)) (isAdd_addAt _ _)) (isAdd_addAt _ _)) _)
            (isAdd_foldl_rangeFT
              (fun j => isAdd_seq (isAdd_seq (isAdd_seq (isAdd_addAt _ _) (isAdd_addAt _ _))
                (isAdd_addAt _ _)) (isAdd_addAt _ _)) _ _)) _)
        (isAdd_foldl_rangeFT
          (fun k => isAdd_seq
            (isAdd_foldl_range
              (fun q => isAdd_seq (isAdd_seq (isAdd_seq (isAdd_addAt _ _) (isAdd_addAt _ _))
                (isAdd_addAt _ _)) (isAdd_addAt _ _)) _)
            (isAdd_foldl_rangeFT (fun j => isAdd_addAt _ _) _ _)) _ _)) _
  rw [h pC n]
  congr 1
  unfold mmAcc
  dsimp only
  simp only [Nat.add_assoc]
  refine Finset.sum_congr rfl fun i _ => ?_
  calc
    (∑ q in Finset.range (aw / 4),
        ((∑ r in Finset.range (bw / 4),
            ((if n = i * cw + 4 * r then pA (i * aw + 4 * q) * pB (4 * q * bw + 4 * r) else 0)
              + (if n = i * cw + 4 * r then pA (i * aw + (4 * q + 1)) * pB ((4 * q + 1) * bw + 4 * r) else 0)
              + (if n = i * cw + 4 * r then pA (i * aw + (4 * q + 2)) * pB ((4 * q + 2) * bw + 4 * r) else 0)
              + (if n = i * cw + 4 * r then pA (i * aw + (4 * q + 3)) * pB ((4 * q + 3) * bw + 4 * r) else 0)
              + (if n = i * cw + (4 * r + 1) then pA (i * aw + 4 * q) * pB (4 * q * bw + (4 * r + 1)) else 0)
              + (if n = i * cw + (4 * r + 1) then pA (i * aw + (4 * q + 1)) * pB ((4 * q + 1) * bw + (4 * r + 1)) else 0)
              + (if n = i * cw + (4 * r + 1) then pA (i * aw + (4 * q + 2)) * pB ((4 * q + 2) * bw + (4 * r + 1)) else 0)
              + (if n = i * cw + (4 * r + 1) then pA (i * aw + (4 * q + 3)) * pB ((4 * q + 3) * bw + (4 * r + 1)) else 0)
              + (if n = i * cw + (4 * r + 2) then pA (i * aw + 4 * q) * pB (4 * q * bw + (4 * r + 2)) else 0)
              + (if n = i * cw + (4 * r + 2) then pA (i * aw + (4 * q + 1)) * pB ((4 * q + 1) * bw + (4 * r + 2)) else 0)
              + (if n = i * cw + (4 * r + 2) then pA (i * aw + (4 * q + 2)) * pB ((4 * q + 2) * bw + (4 * r + 2)) else 0)
              + (if n = i * cw + (4 * r + 2) then pA (i * aw + (4 * q + 3)) * pB ((4 * q + 3) * bw + (4 * r + 2)) else 0)
              + (if n = i * cw + (4 * r + 3) then pA (i * aw + 4 * q) * pB (4 * q * bw + (4 * r + 3)) else 0)
              + (if n = i * cw + (4 * r + 3) then pA (i * aw + (4 * q + 1)) * pB ((4 * q + 1) * bw + (4 * r + 3)) else 0)
              + (if n = i * cw + (4 * r + 3) then pA (i * aw + (4 * q + 2)) * pB ((4 * q + 2) * bw + (4 * r + 3)) else 0)
              + (if n = i * cw + (4 * r + 3) then pA (i * aw + (4 * q + 3)) * pB ((4 * q + 3) * bw + (4 * r + 3)) else 0)))
          + ∑ d in Finset.range (bw - al4 bw),
              ((if n = i * cw + (al4 bw + d) then pA (i * aw + 4 * q) * pB (4 * q * bw + (al4 bw + d)) else 0)
                + (if n = i * cw + (al4 bw + d) then pA (i * aw + (4 * q + 1)) * pB ((4 * q + 1) * bw + (al4 bw + d)) else 0)
                + (if n = i * cw + (al4 bw + d) then pA (i * aw + (4 * q + 2)) * pB ((4 * q + 2) * bw + (al4 bw + d)) else 0)
                + (if n = i * cw + (al4 bw + d) then pA (i * aw + (4 * q + 3)) * pB ((4 * q + 3) * bw + (al4 bw + d)) else 0))))
      + ∑ dk in Finset.range (aw - al4 aw),
          ((∑ q in Finset.range (bw / 4),
              ((if n = i * cw + 4 * q then pA (i * aw + (al4 aw + dk)) * pB ((al4 aw + dk) * bw + 4 * q) else 0)
                + (if n = i * cw + (4 * q + 1) then pA (i * aw + (al4 aw + dk)) * pB ((al4 aw + dk) * bw + (4 * q + 1)) else 0)
                + (if n = i * cw + (4 * q + 2) then pA (i * aw + (al4 aw + dk)) * pB ((al4 aw + dk) * bw + (4 * q + 2)) else 0)
                + (if n = i * cw + (4 * q + 3) then pA (i * aw + (al4 aw + dk)) * pB ((al4 aw + dk) * bw + (4 * q + 3)) else 0)))
            + ∑ d in Finset.range (bw - al4 bw),
                if n = i * cw + (al4 bw + d) then pA (i * aw + (al4 aw + dk)) * pB ((al4 aw + dk) * bw + (al4 bw + d)) else 0)
      = (∑ q in Finset.range (aw / 4),
          ((∑ j in Finset.range bw, if n = i * cw + j then pA (i * aw + 4 * q) * pB (4 * q * bw + j) else 0)
            + (∑ j in Finset.range bw, if n = i * cw + j then pA (i * aw + (4 * q + 1)) * pB ((4 * q + 1) * bw + j) else 0)
            + (∑ j in Finset.range bw, if n = i * cw + j then pA (i * aw + (4 * q + 2)) * pB ((4 * q + 2) * bw + j) else 0)
            + ∑ j in Finset.range bw, if n = i * cw + j then pA (i * aw + (4 * q + 3)) * pB ((4 * q + 3) * bw + j) else 0))
        + ∑ dk in Finset.range (aw - al4 aw),
            ∑ j in Finset.range bw,
              if n = i * cw + j then pA (i * aw + (al4 aw + dk)) * pB ((al4 aw + dk) * bw + j) else 0 :=
        congrArg₂ (· + ·)
          (Finset.sum_congr rfl fun q _ =>
            chunk_tail4
              (fun j => if n = i * cw + j then pA (i * aw + 4 * q) * pB (4 * q * bw + j) else 0)
              (fun j => if n = i * cw + j then pA (i * aw + (4 * q + 1)) * pB ((4 * q + 1) * bw + j) else 0)
              (fun j => if n = i * cw + j then pA (i * aw + (4 * q + 2)) * pB ((4 * q + 2) * bw + j) else 0)
              (fun j => if n = i * cw + j then pA (i * aw + (4 * q + 3)) * pB ((4 * q + 3) * bw + j) else 0)
              bw)
          (Finset.sum_congr rfl fun dk _ =>
            chunk_tail
              (fun j => if n = i * cw + j then pA (i * aw + (al4 aw + dk)) * pB ((al4 aw + dk) * bw + j) else 0)
              bw)
    _ = ∑ k in Finset.range aw, ∑ j in Finset.range bw,
          if n = i * cw + j then pA (i * aw + k) * pB (k * bw + j) else 0 :=
        chunk_tail
          (fun k => ∑ j in Finset.range bw,
            if n = i * cw + j then pA (i * aw + k) * pB (k * bw + j) else 0)
          aw
    _ = ∑ j in Finset.range bw, ∑ k in Finset.range aw,
          if n = i * cw + j then pA (i * aw + k) * pB (k * bw + j) else 0 := sum_swap aw bw _
    _ = ∑ j in Finset.range bw,
          if n = i * cw + j then ∑ k in Finset.range aw, pA (i * aw + k) * pB (k * bw + j) else 0 :=
        Finset.sum_congr rfl fun j _ => sum_ite_push _ _ _

theorem opt9Body_eq (pA pB : ℕ → ℚ) (ah aw bw cw : ℕ) (pC : ℕ → ℚ) (n : ℕ) :
    opt9Body pA pB ah aw bw cw pC n = pC n + mmAcc pA pB aw bw cw ah bw aw n := by
  have h : isAdd (opt9Body pA pB ah aw bw cw)
      (fun n => ∑ i in Finset.range ah,
        ((∑ q in Finset.range (aw / 4),
            ((∑ r in Finset.range (bw / 4),
                ((if n = i * cw + 4 * r then pA (i * aw + 4 * q) * pB (4 * q * bw + 4 * r) else 0)
                  + (if n = i * cw + 4 * r then pA (i * aw + 4 * q + 1) * pB ((4 * q + 1) * bw + 4 * r) else 0)
                  + (if n = i * cw + 4 * r then pA (i * aw + 4 * q + 2) * pB ((4 * q + 2) * bw + 4 * r) else 0)
                  + (if n = i * cw + 4 * r then pA (i * aw + 4 * q + 3) * pB ((4 * q + 3) * bw + 4 * r) else 0)
                  + (if n = i * cw + 4 * r + 1 then pA (i * aw + 4 * q) * pB (4 * q * bw + 4 * r + 1) else 0)
                  + (if n = i * cw + 4 * r + 1 then pA (i * aw + 4 * q + 1) * pB ((4 * q + 1) * bw + 4 * r + 1) else 0)
                  + (if n = i * cw + 4 * r + 1 then pA (i * aw + 4 * q + 2) * pB ((4 * q + 2) * bw + 4 * r + 1) else 0)
                  + (if n = i * cw + 4 * r + 1 then pA (i * aw + 4 * q + 3) * pB ((4 * q + 3) * bw + 4 * r + 1) else 0)
                  + (if n = i * cw + 4 * r + 2 then pA (i * aw + 4 * q) * pB (4 * q * bw + 4 * r + 2) else 0)
                  + (if n = i * cw + 4 * r + 2 then pA (i * aw + 4 * q + 1) * pB ((4 * q + 1) * bw + 4 * r + 2) else 0)
                  + (if n = i * cw + 4 * r + 2 then pA (i * aw + 4 * q + 2) * pB ((4 * q + 2) * bw + 4 * r + 2) else 0)
                  + (if n = i * cw + 4 * r + 2 then pA (i * aw + 4 * q + 3) * pB ((4 * q + 3) * bw + 4 * r + 2) else 0)
                  + (if n = i * cw + 4 * r + 3 then pA (i * aw + 4 * q) * pB (4 * q * bw + 4 * r + 3) else 0)
                  + (if n = i * cw + 4 * r + 3 then pA (i * aw + 4 * q + 1) * pB ((4 * q + 1) * bw + 4 * r + 3) else 0)
                  + (if n = i * cw + 4 * r + 3 then pA (i * aw + 4 * q + 2) * pB ((4 * q + 2) * bw + 4 * r + 3) else 0)
                  + (if n = i * cw + 4 * r + 3 then pA (i * aw + 4 * q + 3) * pB ((4 * q + 3) * bw + 4 * r + 3) else 0)))
              + ∑ d in Finset.range (bw - al4 bw),
                  ((if n = i * cw + (al4 bw + d) then pA (i * aw + 4 * q) * pB (4 * q * bw + (al4 bw + d)) else 0)
                    + (if n = i * cw + (al4 bw + d) then pA (i * aw + 4 * q + 1) * pB ((4 * q + 1) * bw + (al4 bw + d)) else 0)
                    + (if n = i * cw + (al4 bw + d) then pA (i * aw + 4 * q + 2) * pB ((4 * q + 2) * bw + (al4 bw + d)) else 0)
                    + (if n = i * cw + (al4 bw + d) then pA (i * aw + 4 * q + 3) * pB ((4 * q + 3) * bw + (al4 bw + d)) else 0))))
          + ∑ dk in Finset.range (aw - al4 aw),
              ((∑ q in Finset.range (bw / 4),
                  ((if n = i * cw + 4 * q then pA (i * aw + (al4 aw + dk)) * pB ((al4 aw + dk) * bw + 4 * q) else 0)
                    + (if n = i * cw + 4 * q + 1 then pA (i * aw + (al4 aw + dk)) * pB ((al4 aw + dk) * bw + 4 * q + 1) else 0)
                    + (if n = i * cw + 4 * q + 2 then pA (i * aw + (al4 aw + dk)) * pB ((al4 aw + dk) * bw + 4 * q + 2) else 0)
                    + (if n = i * cw + 4 * q + 3 then pA (i * aw + (al4 aw + dk)) * pB ((al4 aw + dk) * bw + 4 * q + 3) else 0)))
                + ∑ d in Finset.range (bw - al4 bw),
                    if n = i * cw + (al4 bw + d) then pA (i * aw + (al4 aw + dk)) * pB ((al4 aw + dk) * bw + (al4 bw + d)) else 0))) := by
    unfold opt9Body
    exact isAdd_foldl_range
      (fun i => isAdd_seq
        (isAdd_foldl_range
          (fun q => isAdd_seq
            (isAdd_foldl_range
              (fun r => isAdd_congr (isAdd_vst_fma4 _ _ _ _ _ _ _ _ _)
                (fun m => by
                  dsimp only [vdupq_n_f32, vld1q_f32]
                  split_ifs <;> first | (exfalso; omega) | ring)) _)
            (isAdd_foldl_rangeFT
              (fun j => isAdd_seq (isAdd_seq (isAdd_seq (isAdd_addAt _ _) (isAdd_addAt _ _))
                (isAdd_addAt _ _)) (isAdd_addAt _ _)) _ _)) _)
        (isAdd_foldl_rangeFT
          (fun k => isAdd_seq
            (isAdd_foldl_range
              (fun q => isAdd_congr (isAdd_vst_fma1 _ _ _)
                (fun m => ite4_chain_eq_sum _ _ _ _ _ m)) _)
            (isAdd_foldl_rangeFT (fun j => isAdd_addAt _ _) _ _)) _ _)) _
  rw [h pC n]
  congr 1
  unfold mmAcc
  dsimp only
  simp only [Nat.add_assoc]
  refine Finset.sum_congr rfl fun i _ => ?_
  calc
    (∑ q in Finset.range (aw / 4),
        ((∑ r in Finset.range (bw / 4),
            ((if n = i * cw + 4 * r then pA (i * aw + 4 * q) * pB (4 * q * bw + 4 * r) else 0)
              + (if n = i * cw + 4 * r then pA (i * aw + (4 * q + 1)) * pB ((4 * q + 1) * bw + 4 * r) else 0)
              + (if n = i * cw + 4 * r then pA (i * aw + (4 * q + 2)) * pB ((4 * q + 2) * bw + 4 * r) else 0)
              + (if n = i * cw + 4 * r then pA (i * aw + (4 * q + 3)) * pB ((4 * q + 3) * bw + 4 * r) else 0)
              + (if n = i * cw + (4 * r + 1) then pA (i * aw + 4 * q) * pB (4 * q * bw + (4 * r + 1)) else 0)
              + (if n = i * cw + (4 * r + 1) then pA (i * aw + (4 * q + 1)) * pB ((4 * q + 1) * bw + (4 * r + 1)) else 0)
              + (if n = i * cw + (4 * r + 1) then pA (i * aw + (4 * q + 2)) * pB ((4 * q + 2) * bw + (4 * r + 1)) else 0)
              + (if n = i * cw + (4 * r + 1) then pA (i * aw + (4 * q + 3)) * pB ((4 * q + 3) * bw + (4 * r + 1)) else 0)
              + (if n = i * cw + (4 * r + 2) then pA (i * aw + 4 * q) * pB (4 * q * bw + (4 * r + 2)) else 0)
              + (if n = i * cw + (4 * r + 2) then pA (i * aw + (4 * q + 1)) * pB ((4 * q + 1) * bw + (4 * r + 2)) else 0)
              + (if n = i * cw + (4 * r + 2) then pA (i * aw + (4 * q + 2)) * pB ((4 * q + 2) * bw + (4 * r + 2)) else 0)
              + (if n = i * cw + (4 * r + 2) then pA (i * aw + (4 * q + 3)) * pB ((4 * q + 3) * bw + (4 * r + 2)) else 0)
              + (if n = i * cw + (4 * r + 3) then pA (i * aw + 4 * q) * pB (4 * q * bw + (4 * r + 3)) else 0)
              + (if n = i * cw + (4 * r + 3) then pA (i * aw + (4 * q + 1)) * pB ((4 * q + 1) * bw + (4 * r + 3)) else 0)
              + (if n = i * cw + (4 * r + 3) then pA (i * aw + (4 * q + 2)) * pB ((4 * q + 2) * bw + (4 * r + 3)) else 0)
              + (if n = i * cw + (4 * r + 3) then pA (i * aw + (4 * q + 3)) * pB ((4 * q + 3) * bw + (4 * r + 3)) else 0)))
          + ∑ d in Finset.range (bw - al4 bw),
              ((if n = i * cw + (al4 bw + d) then pA (i * aw + 4 * q) * pB (4 * q * bw + (al4 bw + d)) else 0)
                + (if n = i * cw + (al4 bw + d) then pA (i * aw + (4 * q + 1)) * pB ((4 * q + 1) * bw + (al4 bw + d)) else 0)
                + (if n = i * cw + (al4 bw + d) then pA (i * aw + (4 * q + 2)) * pB ((4 * q + 2) * bw + (al4 bw + d)) else 0)
                + (if n = i * cw + (al4 bw + d) then pA (i * aw + (4 * q + 3)) * pB ((4 * q + 3) * bw + (al4 bw + d)) else 0))))
      + ∑ dk in Finset.range (aw - al4 aw),
          ((∑ q in Finset.range (bw / 4),
              ((if n = i * cw + 4 * q then pA (i * aw + (al4 aw + dk)) * pB ((al4 aw + dk) * bw + 4 * q) else 0)
                + (if n = i * cw + (4 * q + 1) then pA (i * aw + (al4 aw + dk)) * pB ((al4 aw + dk) * bw + (4 * q + 1)) else 0)
                + (if n = i * cw + (4 * q + 2) then pA (i * aw + (al4 aw + dk)) * pB ((al4 aw + dk) * bw + (4 * q + 2)) else 0)
                + (if n = i * cw + (4 * q + 3) then pA (i * aw + (al4 aw + dk)) * pB ((al4 aw + dk) * bw + (4 * q + 3)) else 0)))
            + ∑ d in Finset.range (bw - al4 bw),
                if n = i * cw + (al4 bw + d) then pA (i * aw + (al4 aw + dk)) * pB ((al4 aw + dk) * bw + (al4 bw + d)) else 0)
      = (∑ q in Finset.range (aw / 4),
          ((∑ j in Finset.range bw, if n = i * cw + j then pA (i * aw + 4 * q) * pB (4 * q * bw + j) else 0)
            + (∑ j in Finset.range bw, if n = i * cw + j then pA (i * aw + (4 * q + 1)) * pB ((4 * q + 1) * bw + j) else 0)
            + (∑ j in Finset.range bw, if n = i * cw + j then pA (i * aw + (4 * q + 2)) * pB ((4 * q + 2) * bw + j) else 0)
            + ∑ j in Finset.range bw, if n = i * cw + j then pA (i * aw + (4 * q + 3)) * pB ((4 * q + 3) * bw + j) else 0))
        + ∑ dk in Finset.range (aw - al4 aw),
            ∑ j in Finset.range bw,
              if n = i * cw + j then pA (i * aw + (al4 aw + dk)) * pB ((al4 aw + dk) * bw + j) else 0 :=
        congrArg₂ (· + ·)
          (Finset.sum_congr rfl fun q _ =>
            chunk_tail4
              (fun j => if n = i * cw + j then pA (i * aw + 4 * q) * pB (4 * q * bw + j) else 0)
              (fun j => if n = i * cw + j then pA (i * aw + (4 * q + 1)) * pB ((4 * q + 1) * bw + j) else 0)
              (fun j => if n = i * cw + j then pA (i * aw + (4 * q + 2)) * pB ((4 * q + 2) * bw + j) else 0)
              (fun j => if n = i * cw + j then pA (i * aw + (4 * q + 3)) * pB ((4 * q + 3) * bw + j) else 0)
              bw)
          (Finset.sum_congr rfl fun dk _ =>
            chunk_tail
              (fun j => if n = i * cw + j then pA (i * aw + (al4 aw + dk)) * pB ((al4 aw + dk) * bw + j) else 0)
              bw)
    _ = ∑ k in Finset.range aw, ∑ j in Finset.range bw,
          if n = i * cw + j then pA (i * aw + k) * pB (k * bw + j) else 0 :=
        chunk_tail
          (fun k => ∑ j in Finset.range bw,
            if n = i * cw + j then pA (i * aw + k) * pB (k * bw + j) else 0)
          aw
    _ = ∑ j in Finset.range bw, ∑ k in Finset.range aw,
          if n = i * cw + j then pA (i * aw + k) * pB (k * bw + j) else 0 := sum_swap aw bw _
    _ = ∑ j in Finset.range bw,
          if n = i * cw + j then ∑ k in Finset.range aw, pA (i * aw + k) * pB (k * bw + j) else 0 :=
        Finset.sum_congr rfl fun j _ => sum_ite_push _ _ _

theorem opt8Body_eq (pA pB : ℕ → ℚ) (ah aw bw cw : ℕ) (pC : ℕ → ℚ) (n : ℕ) :
    opt8Body pA pB ah aw bw cw pC n = pC n + mmAcc pA pB aw bw cw ah bw aw n := by
  have h : isAdd (opt8Body pA pB ah aw bw cw)
      (fun n =>
        (∑ q in Finset.range (aw / 4), ∑ i in Finset.range ah,
            ((∑ r in Finset.range (bw / 4),
                ((if n = i * cw + 4 * r then pA (i * aw + 4 * q) * pB (4 * q * bw + 4 * r) else 0)
                  + (if n = i * cw + 4 * r then pA (i * aw + 4 * q + 1) * pB ((4 * q + 1) * bw + 4 * r) else 0)
                  + (if n = i * cw + 4 * r then pA (i * aw + 4 * q + 2) * pB ((4 * q + 2) * bw + 4 * r) else 0)
                  + (if n = i * cw + 4 * r then pA (i * aw + 4 * q + 3) * pB ((4 * q + 3) * bw + 4 * r) else 0)
                  + (if n = i * cw + 4 * r + 1 then pA (i * aw + 4 * q) * pB (4 * q * bw + 4 * r + 1) else 0)
                  + (if n = i * cw + 4 * r + 1 then pA (i * aw + 4 * q + 1) * pB ((4 * q + 1) * bw + 4 * r + 1) else 0)
                  + (if n = i * cw + 4 * r + 1 then pA (i * aw + 4 * q + 2) * pB ((4 * q + 2) * bw + 4 * r + 1) else 0)
                  + (if n = i * cw + 4 * r + 1 then pA (i * aw + 4 * q + 3) * pB ((4 * q + 3) * bw + 4 * r + 1) else 0)
                  + (if n = i * cw + 4 * r + 2 then pA (i * aw + 4 * q) * pB (4 * q * bw + 4 * r + 2) else 0)
                  + (if n = i * cw + 4 * r + 2 then pA (i * aw + 4 * q + 1) * pB ((4 * q + 1) * bw + 4 * r + 2) else 0)
                  + (if n = i * cw + 4 * r + 2 then pA (i * aw + 4 * q + 2) * pB ((4 * q + 2) * bw + 4 * r + 2) else 0)
                  + (if n = i * cw + 4 * r + 2 then pA (i * aw + 4 * q + 3) * pB ((4 * q + 3) * bw + 4 * r + 2) else 0)
                  + (if n = i * cw + 4 * r + 3 then pA (i * aw + 4 * q) * pB (4 * q * bw + 4 * r + 3) else 0)
                  + (if n = i * cw + 4 * r + 3 then pA (i * aw + 4 * q + 1) * pB ((4 * q + 1) * bw + 4 * r + 3) else 0)
                  + (if n = i * cw + 4 * r + 3 then pA (i * aw + 4 * q + 2) * pB ((4 * q + 2) * bw + 4 * r + 3) else 0)
                  + (if n = i * cw + 4 * r + 3 then pA (i * aw + 4 * q + 3) * pB ((4 * q + 3) * bw + 4 * r + 3) else 0)))
              + ∑ d in Finset.range (bw - al4 bw),
                  ((if n = i * cw + (al4 bw + d) then pA (i * aw + 4 * q) * pB (4 * q * bw + (al4 bw + d)) else 0)
                    + (if n = i * cw + (al4 bw + d) then pA (i * aw + 4 * q + 1) * pB ((4 * q + 1) * bw + (al4 bw + d)) else 0)
                    + (if n = i * cw + (al4 bw + d) then pA (i * aw + 4 * q + 2) * pB ((4 * q + 2) * bw + (al4 bw + d)) else 0)
                    + (if n = i * cw + (al4 bw + d) then pA (i * aw + 4 * q + 3) * pB ((4 * q + 3) * bw + (al4 bw + d)) else 0))))
          + ∑ dk in Finset.range (aw - al4 aw), ∑ i in Finset.range ah,
              ((∑ q in Finset.range (bw / 4),
                  ((if n = i * cw + 4 * q then pA (i * aw + (al4 aw + dk)) * pB ((al4 aw + dk) * bw + 4 * q) else 0)
                    + (if n = i * cw + 4 * q + 1 then pA (i * aw + (al4 aw + dk)) * pB ((al4 aw + dk) * bw + 4 * q + 1) else 0)
                    + (if n = i * cw + 4 * q + 2 then pA (i * aw + (al4 aw + dk)) * pB ((al4 aw + dk) * bw + 4 * q + 2) else 0)
                    + (if n = i * cw + 4 * q + 3 then pA (i * aw + (al4 aw + dk)) * pB ((al4 aw + dk) * bw + 4 * q + 3) else 0)))
                + ∑ d in Finset.range (bw - al4 bw),
                    if n = i * cw + (al4 bw + d) then pA (i * aw + (al4 aw + dk)) * pB ((al4 aw + dk) * bw + (al4 bw + d)) else 0)) := by
    unfold opt8Body
    exact isAdd_seq
      (isAdd_foldl_range
        (fun q => isAdd_foldl_range
          (fun i => isAdd_seq
            (isAdd_foldl_range
              (fun r =>
                isAdd_seq (isAdd_seq (isAdd_seq (isAdd_seq (isAdd_seq (isAdd_seq (isAdd_seq
                  (isAdd_seq (isAdd_seq (isAdd_seq (isAdd_seq (isAdd_seq (isAdd_seq (isAdd_seq
                  (isAdd_seq
                    (isAdd_addAt _ _) (isAdd_addAt _ _)) (isAdd_addAt _ _)) (isAdd_addAt _ _))
                  (isAdd_addAt _ _)) (isAdd_addAt _ _)) (isAdd_addAt _ _)) (isAdd_addAt _ _))
                  (isAdd_addAt _ _)) (isAdd_addAt _ _)) (isAdd_addAt _ _)) (isAdd_addAt _ _))
                  (isAdd_addAt _ _)) (isAdd_addAt _ _)) (isAdd_addAt _ _)) (isAdd_addAt _ _)) _)
            (isAdd_foldl_rangeFT
              (fun j => isAdd_seq (isAdd_seq (isAdd_seq (isAdd_addAt _ _) (isAdd_addAt _ _))
                (isAdd_addAt _ _)) (isAdd_addAt _ _)) _ _)) _) _)
      (isAdd_foldl_rangeFT
        (fun k => isAdd_foldl_range
          (fun i => isAdd_seq
            (isAdd_foldl_range
              (fun q => isAdd_seq (isAdd_seq (isAdd_seq (isAdd_addAt _ _) (isAdd_addAt _ _))
                (isAdd_addAt _ _)) (isAdd_addAt _ _)) _)
            (isAdd_foldl_rangeFT (fun j => isAdd_addAt _ _) _ _)) _) _ _)
  rw [h pC n]
  congr 1
  unfold mmAcc
  dsimp only
  simp only [Nat.add_assoc]
  rw [sum_swap (aw / 4) ah, sum_swap (aw - al4 aw) ah, ← Finset.sum_add_distrib]
  refine Finset.sum_congr rfl fun i _ => ?_
  calc
    (∑ q in Finset.range (aw / 4),
        ((∑ r in Finset.range (bw / 4),
            ((if n = i * cw + 4 * r then pA (i * aw + 4 * q) * pB (4 * q * bw + 4 * r) else 0)
              + (if n = i * cw + 4 * r then pA (i * aw + (4 * q + 1)) * pB ((4 * q + 1) * bw + 4 * r) else 0)
              + (if n = i * cw + 4 * r then pA (i * aw + (4 * q + 2)) * pB ((4 * q + 2) * bw + 4 * r) else 0)
              + (if n = i * cw + 4 * r then pA (i * aw + (4 * q + 3)) * pB ((4 * q + 3) * bw + 4 * r) else 0)
              + (if n = i * cw + (4 * r + 1) then pA (i * aw + 4 * q) * pB (4 * q * bw + (4 * r + 1)) else 0)
              + (if n = i * cw + (4 * r + 1) then pA (i * aw + (4 * q + 1)) * pB ((4 * q + 1) * bw + (4 * r + 1)) else 0)
              + (if n = i * cw + (4 * r + 1) then pA (i * aw + (4 * q + 2)) * pB ((4 * q + 2) * bw + (4 * r + 1)) else 0)
              + (if n = i * cw + (4 * r + 1) then pA (i * aw + (4 * q + 3)) * pB ((4 * q + 3) * bw + (4 * r + 1)) else 0)
              + (if n = i * cw + (4 * r + 2) then pA (i * aw + 4 * q) * pB (4 * q * bw + (4 * r + 2)) else 0)
              + (if n = i * cw + (4 * r + 2) then pA (i * aw + (4 * q + 1)) * pB ((4 * q + 1) * bw + (4 * r + 2)) else 0)
              + (if n = i * cw + (4 * r + 2) then pA (i * aw + (4 * q + 2)) * pB ((4 * q + 2) * bw + (4 * r + 2)) else 0)
              + (if n = i * cw + (4 * r + 2) then pA (i * aw + (4 * q + 3)) * pB ((4 * q + 3) * bw + (4 * r + 2)) else 0)
              + (if n = i * cw + (4 * r + 3) then pA (i * aw + 4 * q) * pB (4 * q * bw + (4 * r + 3)) else 0)
              + (if n = i * cw + (4 * r + 3) then pA (i * aw + (4 * q + 1)) * pB ((4 * q + 1) * bw + (4 * r + 3)) else 0)
              + (if n = i * cw + (4 * r + 3) then pA (i * aw + (4 * q + 2)) * pB ((4 * q + 2) * bw + (4 * r + 3)) else 0)
              + (if n = i * cw + (4 * r + 3) then pA (i * aw + (4 * q + 3)) * pB ((4 * q + 3) * bw + (4 * r + 3)) else 0)))
          + ∑ d in Finset.range (bw - al4 bw),
              ((if n = i * cw + (al4 bw + d) then pA (i * aw + 4 * q) * pB (4 * q * bw + (al4 bw + d)) else 0)
                + (if n = i * cw + (al4 bw + d) then pA (i * aw + (4 * q + 1)) * pB ((4 * q + 1) * bw + (al4 bw + d)) else 0)
                + (if n = i * cw + (al4 bw + d) then pA (i * aw + (4 * q + 2)) * pB ((4 * q + 2) * bw + (al4 bw + d)) else 0)
                + (if n = i * cw + (al4 bw + d) then pA (i * aw + (4 * q + 3)) * pB ((4 * q + 3) * bw + (al4 bw + d)) else 0))))
      + ∑ dk in Finset.range (aw - al4 aw),
          ((∑ q in Finset.range (bw / 4),
              ((if n = i * cw + 4 * q then pA (i * aw + (al4 aw + dk)) * pB ((al4 aw + dk) * bw + 4 * q) else 0)
                + (if n = i * cw + (4 * q + 1) then pA (i * aw + (al4 aw + dk)) * pB ((al4 aw + dk) * bw + (4 * q + 1)) else 0)
                + (if n = i * cw + (4 * q + 2) then pA (i * aw + (al4 aw + dk)) * pB ((al4 aw + dk) * bw + (4 * q + 2)) else 0)
                + (if n = i * cw + (4 * q + 3) then pA (i * aw + (al4 aw + dk)) * pB ((al4 aw + dk) * bw + (4 * q + 3)) else 0)))
            + ∑ d in Finset.range (bw - al4 bw),
                if n = i * cw + (al4 bw + d) then pA (i * aw + (al4 aw + dk)) * pB ((al4 aw + dk) * bw + (al4 bw + d)) else 0)
      = (∑ q in Finset.range (aw / 4),
          ((∑ j in Finset.range bw, if n = i * cw + j then pA (i * aw + 4 * q) * pB (4 * q * bw + j) else 0)
            + (∑ j in Finset.range bw, if n = i * cw + j then pA (i * aw + (4 * q + 1)) * pB ((4 * q + 1) * bw + j) else 0)
            + (∑ j in Finset.range bw, if n = i * cw + j then pA (i * aw + (4 * q + 2)) * pB ((4 * q + 2) * bw + j) else 0)
            + ∑ j in Finset.range bw, if n = i * cw + j then pA (i * aw + (4 * q + 3)) * pB ((4 * q + 3) * bw + j) else 0))
        + ∑ dk in Finset.range (aw - al4 aw),
            ∑ j in Finset.range bw,
              if n = i * cw + j then pA (i * aw + (al4 aw + dk)) * pB ((al4 aw + dk) * bw + j) else 0 :=
        congrArg₂ (· + ·)
          (Finset.sum_congr rfl fun q _ =>
            chunk_tail4
              (fun j => if n = i * cw + j then pA (i * aw + 4 * q) * pB (4 * q * bw + j) else 0)
              (fun j => if n = i * cw + j then pA (i * aw + (4 * q + 1)) * pB ((4 * q + 1) * bw + j) else 0)
              (fun j => if n = i * cw + j then pA (i * aw + (4 * q + 2)) * pB ((4 * q + 2) * bw + j) else 0)
              (fun j => if n = i * cw + j then pA (i * aw + (4 * q + 3)) * pB ((4 * q + 3) * bw + j) else 0)
              bw)
          (Finset.sum_congr rfl fun dk _ =>
            chunk_tail
              (fun j => if n = i * cw + j then pA (i * aw + (al4 aw + dk)) * pB ((al4 aw + dk) * bw + j) else 0)
              bw)
    _ = ∑ k in Finset.range aw, ∑ j in Finset.range bw,
          if n = i * cw + j then pA (i * aw + k) * pB (k * bw + j) else 0 :=
        chunk_tail
          (fun k => ∑ j in Finset.range bw,
            if n = i * cw + j then pA (i * aw + k) * pB (k * bw + j) else 0)
          aw
    _ = ∑ j in Finset.range bw, ∑ k in Finset.range aw,
          if n = i * cw + j then pA (i * aw + k) * pB (k * bw + j) else 0 := sum_swap aw bw _
    _ = ∑ j in Finset.range bw,
          if n = i * cw + j then ∑ k in Finset.range aw, pA (i * aw + k) * pB (k * bw + j) else 0 :=
        Finset.sum_congr rfl fun j _ => sum_ite_push _ _ _

theorem opt10Body_eq (pA pB : ℕ → ℚ) (ah aw bw cw : ℕ) (hbw : 4 ∣ bw) (pC : ℕ → ℚ) (n : ℕ) :
    opt10Body pA pB ah aw bw cw pC n = pC n + mmAcc pA pB aw bw cw ah bw aw n := by
  have h : isAdd (opt10Body pA pB ah aw bw cw)
      (fun n =>
        (∑ q in Finset.range (aw / 4), ∑ i in Finset.range ah,
            ((∑ r in Finset.range (bw / 4),
                ((if n = i * cw + 4 * r then pA (i * aw + 4 * q) * pB (4 * q * bw + 4 * r) else 0)
                  + (if n = i * cw + 4 * r then pA (i * aw + 4 * q + 1) * pB ((4 * q + 1) * bw + 4 * r) else 0)
                  + (if n = i * cw + 4 * r then pA (i * aw + 4 * q + 2) * pB ((4 * q + 2) * bw + 4 * r) else 0)
                  + (if n = i * cw + 4 * r then pA (i * aw + 4 * q + 3) * pB ((4 * q + 3) * bw + 4 * r) else 0)
                  + (if n = i * cw + 4 * r + 1 then pA (i * aw + 4 * q) * pB (4 * q * bw + 4 * r + 1) else 0)
                  + (if n = i * cw + 4 * r + 1 then pA (i * aw + 4 * q + 1) * pB ((4 * q + 1) * bw + 4 * r + 1) else 0)
                  + (if n = i * cw + 4 * r + 1 then pA (i * aw + 4 * q + 2) * pB ((4 * q + 2) * bw + 4 * r + 1) else 0)
                  + (if n = i * cw + 4 * r + 1 then pA (i * aw + 4 * q + 3) * pB ((4 * q + 3) * bw + 4 * r + 1) else 0)
                  + (if n = i * cw + 4 * r + 2 then pA (i * aw + 4 * q) * pB (4 * q * bw + 4 * r + 2) else 0)
                  + (if n = i * cw + 4 * r + 2 then pA (i * aw + 4 * q + 1) * pB ((4 * q + 1) * bw + 4 * r + 2) else 0)
                  + (if n = i * cw + 4 * r + 2 then pA (i * aw + 4 * q + 2) * pB ((4 * q + 2) * bw + 4 * r + 2) else 0)
                  + (if n = i * cw + 4 * r + 2 then pA (i * aw + 4 * q + 3) * pB ((4 * q + 3) * bw + 4 * r + 2) else 0)
                  + (if n = i * cw + 4 * r + 3 then pA (i * aw + 4 * q) * pB (4 * q * bw + 4 * r + 3) else 0)
                  + (if n = i * cw + 4 * r + 3 then pA (i * aw + 4 * q + 1) * pB ((4 * q + 1) * bw + 4 * r + 3) else 0)
                  + (if n = i * cw + 4 * r + 3 then pA (i * aw + 4 * q + 2) * pB ((4 * q + 2) * bw + 4 * r + 3) else 0)
                  + (if n = i * cw + 4 * r + 3 then pA (i * aw + 4 * q + 3) * pB ((4 * q + 3) * bw + 4 * r + 3) else 0)))
              + ∑ d in Finset.range (bw - al4 bw),
                  ((if n = i * cw + (al4 bw + d) then pA (i * aw + 4 * q) * pB (4 * q * bw + (al4 bw + d)) else 0)
                    + (if n = i * cw + (al4 bw + d) + 1 then pA (i * aw + 4 * q + 1) * pB ((4 * q + 1) * bw + (al4 bw + d)) else 0)
                    + (if n = i * cw + (al4 bw + d) + 2 then pA (i * aw + 4 * q + 2) * pB ((4 * q + 2) * bw + (al4 bw + d)) else 0)
                    + (if n = i * cw + (al4 bw + d) + 3 then pA (i * aw + 4 * q + 3) * pB ((4 * q + 3) * bw + (al4 bw + d)) else 0))))
          + ∑ dk in Finset.range (aw - al4 aw), ∑ i in Finset.range ah,
              ((∑ q in Finset.range (bw / 4),
                  ((if n = i * cw + 4 * q then pA (i * aw + (al4 aw + dk)) * pB ((al4 aw + dk) * bw + 4 * q) else 0)
                    + (if n = i * cw + 4 * q + 1 then pA (i * aw + (al4 aw + dk)) * pB ((al4 aw + dk) * bw + 4 * q + 1) else 0)
                    + (if n = i * cw + 4 * q + 2 then pA (i * aw + (al4 aw + dk)) * pB ((al4 aw + dk) * bw + 4 * q + 2) else 0)
                    + (if n = i * cw + 4 * q + 3 then pA (i * aw + (al4 aw + dk)) * pB ((al4 aw + dk) * bw + 4 * q + 3) else 0)))
                + ∑ d in Finset.range (bw - al4 bw),
                    if n = i * cw + (al4 bw + d) then pA (i * aw + (al4 aw + dk)) * pB ((al4 aw + dk) * bw + (al4 bw + d)) else 0)) := by
    unfold opt10Body
    exact isAdd_seq
      (isAdd_foldl_range
        (fun q => isAdd_foldl_range
          (fun i => isAdd_seq
            (isAdd_foldl_range
              (fun r => isAdd_congr (isAdd_vst_fma4 _ _ _ _ _ _ _ _ _)
                (fun m => by
                  dsimp only [vdupq_n_f32, vld1q_f32]
                  split_ifs <;> first | (exfalso; omega) | ring)) _)
            (isAdd_foldl_rangeFT
              (fun j => isAdd_seq (isAdd_seq (isAdd_seq (isAdd_addAt _ _) (isAdd_addAt _ _))
                (isAdd_addAt _ _)) (isAdd_addAt _ _)) _ _)) _) _)
      (isAdd_foldl_rangeFT
        (fun k => isAdd_foldl_range
          (fun i => isAdd_seq
            (isAdd_foldl_range
              (fun q => isAdd_congr (isAdd_vst_fma1 _ _ _)
                (fun m => ite4_chain_eq_sum _ _ _ _ _ m)) _)
            (isAdd_foldl_rangeFT (fun j => isAdd_addAt _ _) _ _)) _) _ _)
  rw [h pC n]
  congr 1
  unfold mmAcc
  dsimp only
  have hz : bw - al4 bw = 0 := by unfold al4; omega
  simp only [hz, Finset.range_zero, Finset.sum_empty, add_zero]
  simp only [Nat.add_assoc]
  rw [sum_swap (aw / 4) ah, sum_swap (aw - al4 aw) ah, ← Finset.sum_add_distrib]
  refine Finset.sum_congr rfl fun i _ => ?_
  calc
    (∑ q in Finset.range (aw / 4),
        ∑ r in Finset.range (bw / 4),
          ((if n = i * cw + 4 * r then pA (i * aw + 4 * q) * pB (4 * q * bw + 4 * r) else 0)
            + (if n = i * cw + 4 * r then pA (i * aw + (4 * q + 1)) * pB ((4 * q + 1) * bw + 4 * r) else 0)
            + (if n = i * cw + 4 * r then pA (i * aw + (4 * q + 2)) * pB ((4 * q + 2) * bw + 4 * r) else 0)
            + (if n = i * cw + 4 * r then pA (i * aw + (4 * q + 3)) * pB ((4 * q + 3) * bw + 4 * r) else 0)
            + (if n = i * cw + (4 * r + 1) then pA (i * aw + 4 * q) * pB (4 * q * bw + (4 * r + 1)) else 0)
            + (if n = i * cw + (4 * r + 1) then pA (i * aw + (4 * q + 1)) * pB ((4 * q + 1) * bw + (4 * r + 1)) else 0)
            + (if n = i * cw + (4 * r + 1) then pA (i * aw + (4 * q + 2)) * pB ((4 * q + 2) * bw + (4 * r + 1)) else 0)
            + (if n = i * cw + (4 * r + 1) then pA (i * aw + (4 * q + 3)) * pB ((4 * q + 3) * bw + (4 * r + 1)) else 0)
            + (if n = i * cw + (4 * r + 2) then pA (i * aw + 4 * q) * pB (4 * q * bw + (4 * r + 2)) else 0)
            + (if n = i * cw + (4 * r + 2) then pA (i * aw + (4 * q + 1)) * pB ((4 * q + 1) * bw + (4 * r + 2)) else 0)
            + (if n = i * cw + (4 * r + 2) then pA (i * aw + (4 * q + 2)) * pB ((4 * q + 2) * bw + (4 * r + 2)) else 0)
            + (if n = i * cw + (4 * r + 2) then pA (i * aw + (4 * q + 3)) * pB ((4 * q + 3) * bw + (4 * r + 2)) else 0)
            + (if n = i * cw + (4 * r + 3) then pA (i * aw + 4 * q) * pB (4 * q * bw + (4 * r + 3)) else 0)
            + (if n = i * cw + (4 * r + 3) then pA (i * aw + (4 * q + 1)) * pB ((4 * q + 1) * bw + (4 * r + 3)) else 0)
            + (if n = i * cw + (4 * r + 3) then pA (i * aw + (4 * q + 2)) * pB ((4 * q + 2) * bw + (4 * r + 3)) else 0)
            + (if n = i * cw + (4 * r + 3) then pA (i * aw + (4 * q + 3)) * pB ((4 * q + 3) * bw + (4 * r + 3)) else 0)))
      + ∑ dk in Finset.range (aw - al4 aw),
          ∑ q in Finset.range (bw / 4),
            ((if n = i * cw + 4 * q then pA (i * aw + (al4 aw + dk)) * pB ((al4 aw + dk) * bw + 4 * q) else 0)
              + (if n = i * cw + (4 * q + 1) then pA (i * aw + (al4 aw + dk)) * pB ((al4 aw + dk) * bw + (4 * q + 1)) else 0)
              + (if n = i * cw + (4 * q + 2) then pA (i * aw + (al4 aw + dk)) * pB ((al4 aw + dk) * bw + (4 * q + 2)) else 0)
              + (if n = i * cw + (4 * q + 3) then pA (i * aw + (al4 aw + dk)) * pB ((al4 aw + dk) * bw + (4 * q + 3)) else 0))
      = (∑ q in Finset.range (aw / 4),
          ((∑ j in Finset.range (4 * (bw / 4)), if n = i * cw + j then pA (i * aw + 4 * q) * pB (4 * q * bw + j) else 0)
            + (∑ j in Finset.range (4 * (bw / 4)), if n = i * cw + j then pA (i * aw + (4 * q + 1)) * pB ((4 * q + 1) * bw + j) else 0)
            + (∑ j in Finset.range (4 * (bw / 4)), if n = i * cw + j then pA (i * aw + (4 * q + 2)) * pB ((4 * q + 2) * bw + j) else 0)
            + ∑ j in Finset.range (4 * (bw / 4)), if n = i * cw + j then pA (i * aw + (4 * q + 3)) * pB ((4 * q + 3) * bw + j) else 0))
        + ∑ dk in Finset.range (aw - al4 aw),
            ∑ j in Finset.range (4 * (bw / 4)),
              if n = i * cw + j then pA (i * aw + (al4 aw + dk)) * pB ((al4 aw + dk) * bw + j) else 0 :=
        congrArg₂ (· + ·)
          (Finset.sum_congr rfl fun q _ =>
            chunk4four
              (fun j => if n = i * cw + j then pA (i * aw + 4 * q) * pB (4 * q * bw + j) else 0)
              (fun j => if n = i * cw + j then pA (i * aw + (4 * q + 1)) * pB ((4 * q + 1) * bw + j) else 0)
              (fun j => if n = i * cw + j then pA (i * aw + (4 * q + 2)) * pB ((4 * q + 2) * bw + j) else 0)
              (fun j => if n = i * cw + j then pA (i * aw + (4 * q + 3)) * pB ((4 * q + 3) * bw + j) else 0)
              (bw / 4))
          (Finset.sum_congr rfl fun dk _ =>
            chunk4
              (fun j => if n = i * cw + j then pA (i * aw + (al4 aw + dk)) * pB ((al4 aw + dk) * bw + j) else 0)
              (bw / 4))
    _ = (∑ q in Finset.range (aw / 4),
          ((∑ j in Finset.range bw, if n = i * cw + j then pA (i * aw + 4 * q) * pB (4 * q * bw + j) else 0)
            + (∑ j in Finset.range bw, if n = i * cw + j then pA (i * aw + (4 * q + 1)) * pB ((4 * q + 1) * bw + j) else 0)
            + (∑ j in Finset.range bw, if n = i * cw + j then pA (i * aw + (4 * q + 2)) * pB ((4 * q + 2) * bw + j) else 0)
            + ∑ j in Finset.range bw, if n = i * cw + j then pA (i * aw + (4 * q + 3)) * pB ((4 * q + 3) * bw + j) else 0))
        + ∑ dk in Finset.range (aw - al4 aw),
            ∑ j in Finset.range bw,
              if n = i * cw + j then pA (i * aw + (al4 aw + dk)) * pB ((al4 aw + dk) * bw + j) else 0 := by
        rw [show 4 * (bw / 4) = bw from by omega]
    _ = ∑ k in Finset.range aw, ∑ j in Finset.range bw,
          if n = i * cw + j then pA (i * aw + k) * pB (k * bw + j) else 0 :=
        chunk_tail
          (fun k => ∑ j in Finset.range bw,
            if n = i * cw + j then pA (i * aw + k) * pB (k * bw + j) else 0)
          aw
    _ = ∑ j in Finset.range bw, ∑ k in Finset.range aw,
          if n = i * cw + j then pA (i * aw + k) * pB (k * bw + j) else 0 := sum_swap aw bw _
    _ = ∑ j in Finset.range bw,
          if n = i * cw + j then ∑ k in Finset.range aw, pA (i * aw + k) * pB (k * bw + j) else 0 :=
        Finset.sum_congr rfl fun j _ => sum_ite_push _ _ _

theorem opt10Body_eq_small (pA pB : ℕ → ℚ) (ah aw bw cw : ℕ) (haw : aw < 4) (pC : ℕ → ℚ)
    (n : ℕ) :
    opt10Body pA pB ah aw bw cw pC n = pC n + mmAcc pA pB aw bw cw ah bw aw n := by
  have h : isAdd (opt10Body pA pB ah aw bw cw)
      (fun n =>
        (∑ q in Finset.range (aw / 4), ∑ i in Finset.range ah,
            ((∑ r in Finset.range (bw / 4),
                ((if n = i * cw + 4 * r then pA (i * aw + 4 * q) * pB (4 * q * bw + 4 * r) else 0)
                  + (if n = i * cw + 4 * r then pA (i * aw + 4 * q + 1) * pB ((4 * q + 1) * bw + 4 * r) else 0)
                  + (if n = i * cw + 4 * r then pA (i * aw + 4 * q + 2) * pB ((4 * q + 2) * bw + 4 * r) else 0)
                  + (if n = i * cw + 4 * r then pA (i * aw + 4 * q + 3) * pB ((4 * q + 3) * bw + 4 * r) else 0)
                  + (if n = i * cw + 4 * r + 1 then pA (i * aw + 4 * q) * pB (4 * q * bw + 4 * r + 1) else 0)
                  + (if n = i * cw + 4 * r + 1 then pA (i * aw + 4 * q + 1) * pB ((4 * q + 1) * bw + 4 * r + 1) else 0)
                  + (if n = i * cw + 4 * r + 1 then pA (i * aw + 4 * q + 2) * pB ((4 * q + 2) * bw + 4 * r + 1) else 0)
                  + (if n = i * cw + 4 * r + 1 then pA (i * aw + 4 * q + 3) * pB ((4 * q + 3) * bw + 4 * r + 1) else 0)
                  + (if n = i * cw + 4 * r + 2 then pA (i * aw + 4 * q) * pB (4 * q * bw + 4 * r + 2) else 0)
                  + (if n = i * cw + 4 * r + 2 then pA (i * aw + 4 * q + 1) * pB ((4 * q + 1) * bw + 4 * r + 2) else 0)
                  + (if n = i * cw + 4 * r + 2 then pA (i * aw + 4 * q + 2) * pB ((4 * q + 2) * bw + 4 * r + 2) else 0)
                  + (if n = i * cw + 4 * r + 2 then pA (i * aw + 4 * q + 3) * pB ((4 * q + 3) * bw + 4 * r + 2) else 0)
                  + (if n = i * cw + 4 * r + 3 then pA (i * aw + 4 * q) * pB (4 * q * bw + 4 * r + 3) else 0)
                  + (if n = i * cw + 4 * r + 3 then pA (i * aw + 4 * q + 1) * pB ((4 * q + 1) * bw + 4 * r + 3) else 0)
                  + (if n = i * cw + 4 * r + 3 then pA (i * aw + 4 * q + 2) * pB ((4 * q + 2) * bw + 4 * r + 3) else 0)
                  + (if n = i * cw + 4 * r + 3 then pA (i * aw + 4 * q + 3) * pB ((4 * q + 3) * bw + 4 * r + 3) else 0)))
              + ∑ d in Finset.range (bw - al4 bw),
                  ((if n = i * cw + (al4 bw + d) then pA (i * aw + 4 * q) * pB (4 * q * bw + (al4 bw + d)) else 0)
                    + (if n = i * cw + (al4 bw + d) + 1 then pA (i * aw + 4 * q + 1) * pB ((4 * q + 1) * bw + (al4 bw + d)) else 0)
                    + (if n = i * cw + (al4 bw + d) + 2 then pA (i * aw + 4 * q + 2) * pB ((4 * q + 2) * bw + (al4 bw + d)) else 0)
                    + (if n = i * cw + (al4 bw + d) + 3 then pA (i * aw + 4 * q + 3) * pB ((4 * q + 3) * bw + (al4 bw + d)) else 0))))
          + ∑ dk in Finset.range (aw - al4 aw), ∑ i in Finset.range ah,
              ((∑ q in Finset.range (bw / 4),
                  ((if n = i * cw + 4 * q then pA (i * aw + (al4 aw + dk)) * pB ((al4 aw + dk) * bw + 4 * q) else 0)
                    + (if n = i * cw + 4 * q + 1 then pA (i * aw + (al4 aw + dk)) * pB ((al4 aw + dk) * bw + 4 * q + 1) else 0)
                    + (if n = i * cw + 4 * q + 2 then pA (i * aw + (al4 aw + dk)) * pB ((al4 aw + dk) * bw + 4 * q + 2) else 0)
                    + (if n = i * cw + 4 * q + 3 then pA (i * aw + (al4 aw + dk)) * pB ((al4 aw + dk) * bw + 4 * q + 3) else 0)))
                + ∑ d in Finset.range (bw - al4 bw),
                    if n = i * cw + (al4 bw + d) then pA (i * aw + (al4 aw + dk)) * pB ((al4 aw + dk) * bw + (al4 bw + d)) else 0)) := by
    unfold opt10Body
    exact isAdd_seq
      (isAdd_foldl_range
        (fun q => isAdd_foldl_range
          (fun i => isAdd_seq
            (isAdd_foldl_range
              (fun r => isAdd_congr (isAdd_vst_fma4 _ _ _ _ _ _ _ _ _)
                (fun m => by
                  dsimp only [vdupq_n_f32, vld1q_f32]
                  split_ifs <;> first | (exfalso; omega) | ring)) _)
            (isAdd_foldl_rangeFT
              (fun j => isAdd_seq (isAdd_seq (isAdd_seq (isAdd_addAt _ _) (isAdd_addAt _ _))
                (isAdd_addAt _ _)) (isAdd_addAt _ _)) _ _)) _) _)
      (isAdd_foldl_rangeFT
        (fun k => isAdd_foldl_range
          (fun i => isAdd_seq
            (isAdd_foldl_range
              (fun q => isAdd_congr (isAdd_vst_fma1 _ _ _)
                (fun m => ite4_chain_eq_sum _ _ _ _ _ m)) _)
            (isAdd_foldl_rangeFT (fun j => isAdd_addAt _ _) _ _)) _) _ _)
  rw [h pC n]
  congr 1
  unfold mmAcc
  dsimp only
  have hq0 : aw / 4 = 0 := by omega
  have hal0 : al4 aw = 0 := by unfold al4; omega
  simp only [hq0, hal0, Finset.range_zero, Finset.sum_empty, Nat.sub_zero, Nat.zero_add,
    zero_add]
  simp only [Nat.add_assoc]
  rw [sum_swap aw ah]
  refine Finset.sum_congr rfl fun i _ => ?_
  refine Eq.trans (Finset.sum_congr rfl fun k _ =>
    chunk_tail (fun j => if n = i * cw + j then pA (i * aw + k) * pB (k * bw + j) else 0) bw) ?_
  rw [sum_swap aw bw]
  exact Finset.sum_congr rfl fun j _ => sum_ite_push _ _ _

theorem opt11Body_eq (pA pB : ℕ → ℚ) (ah aw bw cw : ℕ) (pC : ℕ → ℚ) (n : ℕ) :
    opt11Body pA pB ah aw bw cw pC n
      = pC n + mmAcc pA pB aw bw cw ah (al4 bw) (al4 aw) n := by
  have h : isAdd (opt11Body pA pB ah aw bw cw)
      (fun n => ∑ i in Finset.range ah, ∑ q in Finset.range (aw / 4), ∑ r in Finset.range (bw / 4),
          ((if n = i * cw + 4 * r then pA (i * aw + 4 * q) * pB (4 * q * bw + 4 * r) else 0)
            + (if n = i * cw + 4 * r then pA (i * aw + 4 * q + 1) * pB ((4 * q + 1) * bw + 4 * r) else 0)
            + (if n = i * cw + 4 * r then pA (i * aw + 4 * q + 2) * pB ((4 * q + 2) * bw + 4 * r) else 0)
            + (if n = i * cw + 4 * r then pA (i * aw + 4 * q + 3) * pB ((4 * q + 3) * bw + 4 * r) else 0)
            + (if n = i * cw + 4 * r + 1 then pA (i * aw + 4 * q) * pB (4 * q * bw + 4 * r + 1) else 0)
            + (if n = i * cw + 4 * r + 1 then pA (i * aw + 4 * q + 1) * pB ((4 * q + 1) * bw + 4 * r + 1) else 0)
            + (if n = i * cw + 4 * r + 1 then pA (i * aw + 4 * q + 2) * pB ((4 * q + 2) * bw + 4 * r + 1) else 0)
            + (if n = i * cw + 4 * r + 1 then pA (i * aw + 4 * q + 3) * pB ((4 * q + 3) * bw + 4 * r + 1) else 0)
            + (if n = i * cw + 4 * r + 2 then pA (i * aw + 4 * q) * pB (4 * q * bw + 4 * r + 2) else 0)
            + (if n = i * cw + 4 * r + 2 then pA (i * aw + 4 * q + 1) * pB ((4 * q + 1) * bw + 4 * r + 2) else 0)
            + (if n = i * cw + 4 * r + 2 then pA (i * aw + 4 * q + 2) * pB ((4 * q + 2) * bw + 4 * r + 2) else 0)
            + (if n = i * cw + 4 * r + 2 then pA (i * aw + 4 * q + 3) * pB ((4 * q + 3) * bw + 4 * r + 2) else 0)
            + (if n = i * cw + 4 * r + 3 then pA (i * aw + 4 * q) * pB (4 * q * bw + 4 * r + 3) else 0)
            + (if n = i * cw + 4 * r + 3 then pA (i * aw + 4 * q + 1) * pB ((4 * q + 1) * bw + 4 * r + 3) else 0)
            + (if n = i * cw + 4 * r + 3 then pA (i * aw + 4 * q + 2) * pB ((4 * q + 2) * bw + 4 * r + 3) else 0)
            + (if n = i * cw + 4 * r + 3 then pA (i * aw + 4 * q + 3) * pB ((4 * q + 3) * bw + 4 * r + 3) else 0))) := by
    unfold opt11Body
    exact isAdd_foldl_range
      (fun i => isAdd_foldl_range
        (fun q => isAdd_foldl_range
          (fun r => isAdd_congr (isAdd_vst_fma4 _ _ _ _ _ _ _ _ _)
            (fun m => by
              simp only [vdupq_laneq_f32, vdupq_n_f32, vld1q_f32, laneq]
              norm_num
              split_ifs <;> first | (exfalso; omega) | ring)) _) _) _
  rw [h pC n]
  congr 1
  unfold mmAcc
  dsimp only
  simp only [Nat.add_assoc]
  refine Finset.sum_congr rfl fun i _ => ?_
  calc
    (∑ q in Finset.range (aw / 4), ∑ r in Finset.range (bw / 4),
          ((if n = i * cw + 4 * r then pA (i * aw + 4 * q) * pB (4 * q * bw + 4 * r) else 0)
            + (if n = i * cw + 4 * r then pA (i * aw + (4 * q + 1)) * pB ((4 * q + 1) * bw + 4 * r) else 0)
            + (if n = i * cw + 4 * r then pA (i * aw + (4 * q + 2)) * pB ((4 * q + 2) * bw + 4 * r) else 0)
            + (if n = i * cw + 4 * r then pA (i * aw + (4 * q + 3)) * pB ((4 * q + 3) * bw + 4 * r) else 0)
            + (if n = i * cw + (4 * r + 1) then pA (i * aw + 4 * q) * pB (4 * q * bw + (4 * r + 1)) else 0)
            + (if n = i * cw + (4 * r + 1) then pA (i * aw + (4 * q + 1)) * pB ((4 * q + 1) * bw + (4 * r + 1)) else 0)
            + (if n = i * cw + (4 * r + 1) then pA (i * aw + (4 * q + 2)) * pB ((4 * q + 2) * bw + (4 * r + 1)) else 0)
            + (if n = i * cw + (4 * r + 1) then pA (i * aw + (4 * q + 3)) * pB ((4 * q + 3) * bw + (4 * r + 1)) else 0)
            + (if n = i * cw + (4 * r + 2) then pA (i * aw + 4 * q) * pB (4 * q * bw + (4 * r + 2)) else 0)
            + (if n = i * cw + (4 * r + 2) then pA (i * aw + (4 * q + 1)) * pB ((4 * q + 1) * bw + (4 * r + 2)) else 0)
            + (if n = i * cw + (4 * r + 2) then pA (i * aw + (4 * q + 2)) * pB ((4 * q + 2) * bw + (4 * r + 2)) else 0)
            + (if n = i * cw + (4 * r + 2) then pA (i * aw + (4 * q + 3)) * pB ((4 * q + 3) * bw + (4 * r + 2)) else 0)
            + (if n = i * cw + (4 * r + 3) then pA (i * aw + 4 * q) * pB (4 * q * bw + (4 * r + 3)) else 0)
            + (if n = i * cw + (4 * r + 3) then pA (i * aw + (4 * q + 1)) * pB ((4 * q + 1) * bw + (4 * r + 3)) else 0)
            + (if n = i * cw + (4 * r + 3) then pA (i * aw + (4 * q + 2)) * pB ((4 * q + 2) * bw + (4 * r + 3)) else 0)
            + (if n = i * cw + (4 * r + 3) then pA (i * aw + (4 * q + 3)) * pB ((4 * q + 3) * bw + (4 * r + 3)) else 0)))
      = ∑ q in Finset.range (aw / 4),
          ((∑ j in Finset.range (al4 bw), if n = i * cw + j then pA (i * aw + 4 * q) * pB (4 * q * bw + j) else 0)
            + (∑ j in Finset.range (al4 bw), if n = i * cw + j then pA (i * aw + (4 * q + 1)) * pB ((4 * q + 1) * bw + j) else 0)
            + (∑ j in Finset.range (al4 bw), if n = i * cw + j then pA (i * aw + (4 * q + 2)) * pB ((4 * q + 2) * bw + j) else 0)
            + ∑ j in Finset.range (al4 bw), if n = i * cw + j then pA (i * aw + (4 * q + 3)) * pB ((4 * q + 3) * bw + j) else 0) :=
        Finset.sum_congr rfl fun q _ =>
          chunk4four
              (fun j => if n = i * cw + j then pA (i * aw + 4 * q) * pB (4 * q * bw + j) else 0)
              (fun j => if n = i * cw + j then pA (i * aw + (4 * q + 1)) * pB ((4 * q + 1) * bw + j) else 0)
              (fun j => if n = i * cw + j then pA (i * aw + (4 * q + 2)) * pB ((4 * q + 2) * bw + j) else 0)
              (fun j => if n = i * cw + j then pA (i * aw + (4 * q + 3)) * pB ((4 * q + 3) * bw + j) else 0)
              (bw / 4)
    _ = ∑ k in Finset.range (al4 aw), ∑ j in Finset.range (al4 bw),
          if n = i * cw + j then pA (i * aw + k) * pB (k * bw + j) else 0 :=
        chunk4
          (fun k => ∑ j in Finset.range (al4 bw),
            if n = i * cw + j then pA (i * aw + k) * pB (k * bw + j) else 0)
          (aw / 4)
    _ = ∑ j in Finset.range (al4 bw), ∑ k in Finset.range (al4 aw),
          if n = i * cw + j then pA (i * aw + k) * pB (k * bw + j) else 0 :=
        sum_swap (al4 aw) (al4 bw) _
    _ = ∑ j in Finset.range (al4 bw),
          if n = i * cw + j then ∑ k in Finset.range (al4 aw), pA (i * aw + k) * pB (k * bw + j) else 0 :=
        Finset.sum_congr rfl fun j _ => sum_ite_push _ _ _

theorem opt12Body_eq (pA pB : ℕ → ℚ) (ah aw bw cw : ℕ) (pC : ℕ → ℚ) (n : ℕ) :
    opt12Body pA pB ah aw bw cw pC n
      = pC n + mmAcc pA pB aw bw cw ah (al4 bw) (al4 aw) n := by
  have h : isAdd (opt12Body pA pB ah aw bw cw)
      (fun n => ∑ q in Finset.range (aw / 4), ∑ i in Finset.range ah, ∑ r in Finset.range (bw / 4),
          ((if n = i * cw + 4 * r then pA (i * aw + 4 * q) * pB (4 * q * bw + 4 * r) else 0)
            + (if n = i * cw + 4 * r then pA (i * aw + 4 * q + 1) * pB ((4 * q + 1) * bw + 4 * r) else 0)
            + (if n = i * cw + 4 * r then pA (i * aw + 4 * q + 2) * pB ((4 * q + 2) * bw + 4 * r) else 0)
            + (if n = i * cw + 4 * r then pA (i * aw + 4 * q + 3) * pB ((4 * q + 3) * bw + 4 * r) else 0)
            + (if n = i * cw + 4 * r + 1 then pA (i * aw + 4 * q) * pB (4 * q * bw + 4 * r + 1) else 0)
            + (if n = i * cw + 4 * r + 1 then pA (i * aw + 4 * q + 1) * pB ((4 * q + 1) * bw + 4 * r + 1) else 0)
            + (if n = i * cw + 4 * r + 1 then pA (i * aw + 4 * q + 2) * pB ((4 * q + 2) * bw + 4 * r + 1) else 0)
            + (if n = i * cw + 4 * r + 1 then pA (i * aw + 4 * q + 3) * pB ((4 * q + 3) * bw + 4 * r + 1) else 0)
            + (if n = i * cw + 4 * r + 2 then pA (i * aw + 4 * q) * pB (4 * q * bw + 4 * r + 2) else 0)
            + (if n = i * cw + 4 * r + 2 then pA (i * aw + 4 * q + 1) * pB ((4 * q + 1) * bw + 4 * r + 2) else 0)
            + (if n = i * cw + 4 * r + 2 then pA (i * aw + 4 * q + 2) * pB ((4 * q + 2) * bw + 4 * r + 2) else 0)
            + (if n = i * cw + 4 * r + 2 then pA (i * aw + 4 * q + 3) * pB ((4 * q + 3) * bw + 4 * r + 2) else 0)
            + (if n = i * cw + 4 * r + 3 then pA (i * aw + 4 * q) * pB (4 * q * bw + 4 * r + 3) else 0)
            + (if n = i * cw + 4 * r + 3 then pA (i * aw + 4 * q + 1) * pB ((4 * q + 1) * bw + 4 * r + 3) else 0)
            + (if n = i * cw + 4 * r + 3 then pA (i * aw + 4 * q + 2) * pB ((4 * q + 2) * bw + 4 * r + 3) else 0)
            + (if n = i * cw + 4 * r + 3 then pA (i * aw + 4 * q + 3) * pB ((4 * q + 3) * bw + 4 * r + 3) else 0))) := by
    unfold opt12Body
    exact isAdd_foldl_range
      (fun q => isAdd_foldl_range
        (fun i => isAdd_foldl_range
          (fun r => isAdd_congr (isAdd_vst_fma4 _ _ _ _ _ _ _ _ _)
            (fun m => by
              simp only [vdupq_laneq_f32, vdupq_n_f32, vld1q_f32, laneq]
              norm_num
              split_ifs <;> first | (exfalso; omega) | ring)) _) _) _
  rw [h pC n]
  congr 1
  unfold mmAcc
  dsimp only
  simp only [Nat.add_assoc]
  rw [sum_swap (aw / 4) ah]
  refine Finset.sum_congr rfl fun i _ => ?_
  calc
    (∑ q in Finset.range (aw / 4), ∑ r in Finset.range (bw / 4),
          ((if n = i * cw + 4 * r then pA (i * aw + 4 * q) * pB (4 * q * bw + 4 * r) else 0)
            + (if n = i * cw + 4 * r then pA (i * aw + (4 * q + 1)) * pB ((4 * q + 1) * bw + 4 * r) else 0)
            + (if n = i * cw + 4 * r then pA (i * aw + (4 * q + 2)) * pB ((4 * q + 2) * bw + 4 * r) else 0)
            + (if n = i * cw + 4 * r then pA (i * aw + (4 * q + 3)) * pB ((4 * q + 3) * bw + 4 * r) else 0)
            + (if n = i * cw + (4 * r + 1) then pA (i * aw + 4 * q) * pB (4 * q * bw + (4 * r + 1)) else 0)
            + (if n = i * cw + (4 * r + 1) then pA (i * aw + (4 * q + 1)) * pB ((4 * q + 1) * bw + (4 * r + 1)) else 0)
            + (if n = i * cw + (4 * r + 1) then pA (i * aw + (4 * q + 2)) * pB ((4 * q + 2) * bw + (4 * r + 1)) else 0)
            + (if n = i * cw + (4 * r + 1) then pA (i * aw + (4 * q + 3)) * pB ((4 * q + 3) * bw + (4 * r + 1)) else 0)
            + (if n = i * cw + (4 * r + 2) then pA (i * aw + 4 * q) * pB (4 * q * bw + (4 * r + 2)) else 0)
            + (if n = i * cw + (4 * r + 2) then pA (i * aw + (4 * q + 1)) * pB ((4 * q + 1) * bw + (4 * r + 2)) else 0)
            + (if n = i * cw + (4 * r + 2) then pA (i * aw + (4 * q + 2)) * pB ((4 * q + 2) * bw + (4 * r + 2)) else 0)
            + (if n = i * cw + (4 * r + 2) then pA (i * aw + (4 * q + 3)) * pB ((4 * q + 3) * bw + (4 * r + 2)) else 0)
            + (if n = i * cw + (4 * r + 3) then pA (i * aw + 4 * q) * pB (4 * q * bw + (4 * r + 3)) else 0)
            + (if n = i * cw + (4 * r + 3) then pA (i * aw + (4 * q + 1)) * pB ((4 * q + 1) * bw + (4 * r + 3)) else 0)
            + (if n = i * cw + (4 * r + 3) then pA (i * aw + (4 * q + 2)) * pB ((4 * q + 2) * bw + (4 * r + 3)) else 0)
            + (if n = i * cw + (4 * r + 3) then pA (i * aw + (4 * q + 3)) * pB ((4 * q + 3) * bw + (4 * r + 3)) else 0)))
      = ∑ q in Finset.range (aw / 4),
          ((∑ j in Finset.range (al4 bw), if n = i * cw + j then pA (i * aw + 4 * q) * pB (4 * q * bw + j) else 0)
            + (∑ j in Finset.range (al4 bw), if n = i * cw + j then pA (i * aw + (4 * q + 1)) * pB ((4 * q + 1) * bw + j) else 0)
            + (∑ j in Finset.range (al4 bw), if n = i * cw + j then pA (i * aw + (4 * q + 2)) * pB ((4 * q + 2) * bw + j) else 0)
            + ∑ j in Finset.range (al4 bw), if n = i * cw + j then pA (i * aw + (4 * q + 3)) * pB ((4 * q + 3) * bw + j) else 0) :=
        Finset.sum_congr rfl fun q _ =>
          chunk4four
              (fun j => if n = i * cw + j then pA (i * aw + 4 * q) * pB (4 * q * bw + j) else 0)
              (fun j => if n = i * cw + j then pA (i * aw + (4 * q + 1)) * pB ((4 * q + 1) * bw + j) else 0)
              (fun j => if n = i * cw + j then pA (i * aw + (4 * q + 2)) * pB ((4 * q + 2) * bw + j) else 0)
              (fun j => if n = i * cw + j then pA (i * aw + (4 * q + 3)) * pB ((4 * q + 3) * bw + j) else 0)
              (bw / 4)
    _ = ∑ k in Finset.range (al4 aw), ∑ j in Finset.range (al4 bw),
          if n = i * cw + j then pA (i * aw + k) * pB (k * bw + j) else 0 :=
        chunk4
          (fun k => ∑ j in Finset.range (al4 bw),
            if n = i * cw + j then pA (i * aw + k) * pB (k * bw + j) else 0)
          (aw / 4)
    _ = ∑ j in Finset.range (al4 bw), ∑ k in Finset.range (al4 aw),
          if n = i * cw + j then pA (i * aw + k) * pB (k * bw + j) else 0 :=
        sum_swap (al4 aw) (al4 bw) _
    _ = ∑ j in Finset.range (al4 bw),
          if n = i * cw + j then ∑ k in Finset.range (al4 aw), pA (i * aw + k) * pB (k * bw + j) else 0 :=
        Finset.sum_congr rfl fun j _ => sum_ite_push _ _ _

theorem opt13Body_eq (pA pB : ℕ → ℚ) (ah aw bw cw : ℕ) (pC : ℕ → ℚ) (n : ℕ) :
    opt13Body pA pB ah aw bw cw pC n
      = pC n + mmAcc pA pB aw bw cw (al4 ah) (al4 bw) (al4 aw) n := by
  have h : isAdd (opt13Body pA pB ah aw bw cw)
      (fun n => ∑ qi in Finset.range (ah / 4), ∑ qk in Finset.range (aw / 4), ∑ r in Finset.range (bw / 4),
          (((if n = 4 * qi * cw + 4 * r then
                  pB (4 * qk * bw + 4 * r) * pA (4 * qi * aw + 4 * qk)
                  + pB (4 * qk * bw + 4 * r + bw) * pA (4 * qi * aw + 4 * qk + 1)
                  + pB (4 * qk * bw + 4 * r + bw * 2) * pA (4 * qi * aw + 4 * qk + 2)
                  + pB (4 * qk * bw + 4 * r + bw * 3) * pA (4 * qi * aw + 4 * qk + 3)
                else 0)
              + (if n = 4 * qi * cw + 4 * r + 1 then
                  pB (4 * qk * bw + 4 * r + 1) * pA (4 * qi * aw + 4 * qk)
                  + pB (4 * qk * bw + 4 * r + bw + 1) * pA (4 * qi * aw + 4 * qk + 1)
                  + pB (4 * qk * bw + 4 * r + bw * 2 + 1) * pA (4 * qi * aw + 4 * qk + 2)
                  + pB (4 * qk * bw + 4 * r + bw * 3 + 1) * pA (4 * qi * aw + 4 * qk + 3)
                else 0)
              + (if n = 4 * qi * cw + 4 * r + 2 then
                  pB (4 * qk * bw + 4 * r + 2) * pA (4 * qi * aw + 4 * qk)
                  + pB (4 * qk * bw + 4 * r + bw + 2) * pA (4 * qi * aw + 4 * qk + 1)
                  + pB (4 * qk * bw + 4 * r + bw * 2 + 2) * pA (4 * qi * aw + 4 * qk + 2)
                  + pB (4 * qk * bw + 4 * r + bw * 3 + 2) * pA (4 * qi * aw + 4 * qk + 3)
                else 0)
              + (if n = 4 * qi * cw + 4 * r + 3 then
                  pB (4 * qk * bw + 4 * r + 3) * pA (4 * qi * aw + 4 * qk)
                  + pB (4 * qk * bw + 4 * r + bw + 3) * pA (4 * qi * aw + 4 * qk + 1)
                  + pB (4 * qk * bw + 4 * r + bw * 2 + 3) * pA (4 * qi * aw + 4 * qk + 2)
                  + pB (4 * qk * bw + 4 * r + bw * 3 + 3) * pA (4 * qi * aw + 4 * qk + 3)
                else 0))
            + ((if n = 4 * qi * cw + 4 * r + cw then
                  pB (4 * qk * bw + 4 * r) * pA (4 * qi * aw + 4 * qk + aw)
                  + pB (4 * qk * bw + 4 * r + bw) * pA (4 * qi * aw + 4 * qk + aw + 1)
                  + pB (4 * qk * bw + 4 * r + bw * 2) * pA (4 * qi * aw + 4 * qk + aw + 2)
                  + pB (4 * qk * bw + 4 * r + bw * 3) * pA (4 * qi * aw + 4 * qk + aw + 3)
                else 0)
              + (if n = 4 * qi * cw + 4 * r + cw + 1 then
                  pB (4 * qk * bw + 4 * r + 1) * pA (4 * qi * aw + 4 * qk + aw)
                  + pB (4 * qk * bw + 4 * r + bw + 1) * pA (4 * qi * aw + 4 * qk + aw + 1)
                  + pB (4 * qk * bw + 4 * r + bw * 2 + 1) * pA (4 * qi * aw + 4 * qk + aw + 2)
                  + pB (4 * qk * bw + 4 * r + bw * 3 + 1) * pA (4 * qi * aw + 4 * qk + aw + 3)
                else 0)
              + (if n = 4 * qi * cw + 4 * r + cw + 2 then
                  pB (4 * qk * bw + 4 * r + 2) * pA (4 * qi * aw + 4 * qk + aw)
                  + pB (4 * qk * bw + 4 * r + bw + 2) * pA (4 * qi * aw + 4 * qk + aw + 1)
                  + pB (4 * qk * bw + 4 * r + bw * 2 + 2) * pA (4 * qi * aw + 4 * qk + aw + 2)
                  + pB (4 * qk * bw + 4 * r + bw * 3 + 2) * pA (4 * qi * aw + 4 * qk + aw + 3)
                else 0)
              + (if n = 4 * qi * cw + 4 * r + cw + 3 then
                  pB (4 * qk * bw + 4 * r + 3) * pA (4 * qi * aw + 4 * qk + aw)
                  + pB (4 * qk * bw + 4 * r + bw + 3) * pA (4 * qi * aw + 4 * qk + aw + 1)
                  + pB (4 * qk * bw + 4 * r + bw * 2 + 3) * pA (4 * qi * aw + 4 * qk + aw + 2)
                  + pB (4 * qk * bw + 4 * r + bw * 3 + 3) * pA (4 * qi * aw + 4 * qk + aw + 3)
                else 0))
            + ((if n = 4 * qi * cw + 4 * r + cw * 2 then
                  pB (4 * qk * bw + 4 * r) * pA (4 * qi * aw + 4 * qk + aw * 2)
                  + pB (4 * qk * bw + 4 * r + bw) * pA (4 * qi * aw + 4 * qk + aw * 2 + 1)
                  + pB (4 * qk * bw + 4 * r + bw * 2) * pA (4 * qi * aw + 4 * qk + aw * 2 + 2)
                  + pB (4 * qk * bw + 4 * r + bw * 3) * pA (4 * qi * aw + 4 * qk + aw * 2 + 3)
                else 0)
              + (if n = 4 * qi * cw + 4 * r + cw * 2 + 1 then
                  pB (4 * qk * bw + 4 * r + 1) * pA (4 * qi * aw + 4 * qk + aw * 2)
                  + pB (4 * qk * bw + 4 * r + bw + 1) * pA (4 * qi * aw + 4 * qk + aw * 2 + 1)
                  + pB (4 * qk * bw + 4 * r + bw * 2 + 1) * pA (4 * qi * aw + 4 * qk + aw * 2 + 2)
                  + pB (4 * qk * bw + 4 * r + bw * 3 + 1) * pA (4 * qi * aw + 4 * qk + aw * 2 + 3)
                else 0)
              + (if n = 4 * qi * cw + 4 * r + cw * 2 + 2 then
                  pB (4 * qk * bw + 4 * r + 2) * pA (4 * qi * aw + 4 * qk + aw * 2)
                  + pB (4 * qk * bw + 4 * r + bw + 2) * pA (4 * qi * aw + 4 * qk + aw * 2 + 1)
                  + pB (4 * qk * bw + 4 * r + bw * 2 + 2) * pA (4 * qi * aw + 4 * qk + aw * 2 + 2)
                  + pB (4 * qk * bw + 4 * r + bw * 3 + 2) * pA (4 * qi * aw + 4 * qk + aw * 2 + 3)
                else 0)
              + (if n = 4 * qi * cw + 4 * r + cw * 2 + 3 then
                  pB (4 * qk * bw + 4 * r + 3) * pA (4 * qi * aw + 4 * qk + aw * 2)
                  + pB (4 * qk * bw + 4 * r + bw + 3) * pA (4 * qi * aw + 4 * qk + aw * 2 + 1)
                  + pB (4 * qk * bw + 4 * r + bw * 2 + 3) * pA (4 * qi * aw + 4 * qk + aw * 2 + 2)
                  + pB (4 * qk * bw + 4 * r + bw * 3 + 3) * pA (4 * qi * aw + 4 * qk + aw * 2 + 3)
                else 0))
            + ((if n = 4 * qi * cw + 4 * r + cw * 3 then
                  pB (4 * qk * bw + 4 * r) * pA (4 * qi * aw + 4 * qk + aw * 3)
                  + pB (4 * qk * bw + 4 * r + bw) * pA (4 * qi * aw + 4 * qk + aw * 3 + 1)
                  + pB (4 * qk * bw + 4 * r + bw * 2) * pA (4 * qi * aw + 4 * qk + aw * 3 + 2)
                  + pB (4 * qk * bw + 4 * r + bw * 3) * pA (4 * qi * aw + 4 * qk + aw * 3 + 3)
                else 0)
              + (if n = 4 * qi * cw + 4 * r + cw * 3 + 1 then
                  pB (4 * qk * bw + 4 * r + 1) * pA (4 * qi * aw + 4 * qk + aw * 3)
                  + pB (4 * qk * bw + 4 * r + bw + 1) * pA (4 * qi * aw + 4 * qk + aw * 3 + 1)
                  + pB (4 * qk * bw + 4 * r + bw * 2 + 1) * pA (4 * qi * aw + 4 * qk + aw * 3 + 2)
                  + pB (4 * qk * bw + 4 * r + bw * 3 + 1) * pA (4 * qi * aw + 4 * qk + aw * 3 + 3)
                else 0)
              + (if n = 4 * qi * cw + 4 * r + cw * 3 + 2 then
                  pB (4 * qk * bw + 4 * r + 2) * pA (4 * qi * aw + 4 * qk + aw * 3)
                  + pB (4 * qk * bw + 4 * r + bw + 2) * pA (4 * qi * aw + 4 * qk + aw * 3 + 1)
                  + pB (4 * qk * bw + 4 * r + bw * 2 + 2) * pA (4 * qi * aw + 4 * qk + aw * 3 + 2)
                  + pB (4 * qk * bw + 4 * r + bw * 3 + 2) * pA (4 * qi * aw + 4 * qk + aw * 3 + 3)
                else 0)
              + (if n = 4 * qi * cw + 4 * r + cw * 3 + 3 then
                  pB (4 * qk * bw + 4 * r + 3) * pA (4 * qi * aw + 4 * qk + aw * 3)
                  + pB (4 * qk * bw + 4 * r + bw + 3) * pA (4 * qi * aw + 4 * qk + aw * 3 + 1)
                  + pB (4 * qk * bw + 4 * r + bw * 2 + 3) * pA (4 * qi * aw + 4 * qk + aw * 3 + 2)
                  + pB (4 * qk * bw + 4 * r + bw * 3 + 3) * pA (4 * qi * aw + 4 * qk + aw * 3 + 3)
                else 0)))) := by
    unfold opt13Body
    exact isAdd_foldl_range
      (fun qi => isAdd_foldl_range
        (fun qk => isAdd_foldl_range
          (fun r =>
            isAdd_seq (isAdd_seq (isAdd_seq
              (isAdd_congr (isAdd_vst_laneq4 _ _ _ _ _ _) (fun m => ite4_chain_eq_sum _ _ _ _ _ m))
              (isAdd_congr (isAdd_vst_laneq4 _ _ _ _ _ _) (fun m => ite4_chain_eq_sum _ _ _ _ _ m)))
              (isAdd_congr (isAdd_vst_laneq4 _ _ _ _ _ _) (fun m => ite4_chain_eq_sum _ _ _ _ _ m)))
              (isAdd_congr (isAdd_vst_laneq4 _ _ _ _ _ _) (fun m => ite4_chain_eq_sum _ _ _ _ _ m))) _) _) _
  rw [h pC n]
  congr 1
  unfold mmAcc
  dsimp only
  have hA1 : ∀ y x : ℕ, 4 * y * aw + x + aw = (4 * y + 1) * aw + x := fun y x => by ring
  have hA2 : ∀ y x : ℕ, 4 * y * aw + x + aw * 2 = (4 * y + 2) * aw + x := fun y x => by ring
  have hA3 : ∀ y x : ℕ, 4 * y * aw + x + aw * 3 = (4 * y + 3) * aw + x := fun y x => by ring
  have hB1 : ∀ y x : ℕ, 4 * y * bw + x + bw = (4 * y + 1) * bw + x := fun y x => by ring
  have hB2 : ∀ y x : ℕ, 4 * y * bw + x + bw * 2 = (4 * y + 2) * bw + x := fun y x => by ring
  have hB3 : ∀ y x : ℕ, 4 * y * bw + x + bw * 3 = (4 * y + 3) * bw + x := fun y x => by ring
  have hC1 : ∀ y x : ℕ, 4 * y * cw + x + cw = (4 * y + 1) * cw + x := fun y x => by ring
  have hC2 : ∀ y x : ℕ, 4 * y * cw + x + cw * 2 = (4 * y + 2) * cw + x := fun y x => by ring
  have hC3 : ∀ y x : ℕ, 4 * y * cw + x + cw * 3 = (4 * y + 3) * cw + x := fun y x => by ring
  simp only [hA1, hA2, hA3, hB1, hB2, hB3, hC1, hC2, hC3]
  simp only [Nat.add_assoc]
  refine (Finset.sum_congr rfl fun qi _ => ?_).trans
    (chunk4
      (fun i => ∑ j in Finset.range (al4 bw),
          if n = i * cw + j then ∑ k in Finset.range (al4 aw), pA (i * aw + k) * pB (k * bw + j) else 0)
      (ah / 4))
  refine ((Finset.sum_congr rfl fun qk _ => sum_split4 _ _ _ _ _).trans (sum_split4 _ _ _ _ _)).trans ?_
  refine congrArg₂ (· + ·) (congrArg₂ (· + ·) (congrArg₂ (· + ·) ?_ ?_) ?_) ?_
  · dsimp only
    rw [← blockSumC_eq pA pB aw bw cw n (4 * qi)]
    exact Finset.sum_congr rfl fun q _ => Finset.sum_congr rfl fun r _ => by
      split_ifs <;> first | (exfalso; omega) | ring
  · dsimp only
    rw [← blockSumC_eq pA pB aw bw cw n (4 * qi + 1)]
    exact Finset.sum_congr rfl fun q _ => Finset.sum_congr rfl fun r _ => by
      split_ifs <;> first | (exfalso; omega) | ring
  · dsimp only
    rw [← blockSumC_eq pA pB aw bw cw n (4 * qi + 2)]
    exact Finset.sum_congr rfl fun q _ => Finset.sum_congr rfl fun r _ => by
      split_ifs <;> first | (exfalso; omega) | ring
  · dsimp only
    rw [← blockSumC_eq pA pB aw bw cw n (4 * qi + 3)]
    exact Finset.sum_congr rfl fun q _ => Finset.sum_congr rfl fun r _ => by
      split_ifs <;> first | (exfalso; omega) | ring

theorem opt14Body_eq (pA pB : ℕ → ℚ) (ah aw bw cw : ℕ) (pC : ℕ → ℚ) (n : ℕ) :
    opt14Body pA pB ah aw bw cw pC n
      = pC n + mmAcc pA pB aw bw cw (al4 ah) (al4 bw) (al4 aw) n := by
  have h : isAdd (opt14Body pA pB ah aw bw cw)
      (fun n => ∑ qk in Finset.range (aw / 4), ∑ qi in Finset.range (ah / 4), ∑ r in Finset.range (bw / 4),
          (((if n = 4 * qi * cw + 4 * r then
                  pB (4 * qk * bw + 4 * r) * pA (4 * qi * aw + 4 * qk)
                  + pB (4 * qk * bw + 4 * r + bw) * pA (4 * qi * aw + 4 * qk + 1)
                  + pB (4 * qk * bw + 4 * r + bw * 2) * pA (4 * qi * aw + 4 * qk + 2)
                  + pB (4 * qk * bw + 4 * r + bw * 3) * pA (4 * qi * aw + 4 * qk + 3)
                else 0)
              + (if n = 4 * qi * cw + 4 * r + 1 then
                  pB (4 * qk * bw + 4 * r + 1) * pA (4 * qi * aw + 4 * qk)
                  + pB (4 * qk * bw + 4 * r + bw + 1) * pA (4 * qi * aw + 4 * qk + 1)
                  + pB (4 * qk * bw + 4 * r + bw * 2 + 1) * pA (4 * qi * aw + 4 * qk + 2)
                  + pB (4 * qk * bw + 4 * r + bw * 3 + 1) * pA (4 * qi * aw + 4 * qk + 3)
                else 0)
              + (if n = 4 * qi * cw + 4 * r + 2 then
                  pB (4 * qk * bw + 4 * r + 2) * pA (4 * qi * aw + 4 * qk)
                  + pB (4 * qk * bw + 4 * r + bw + 2) * pA (4 * qi * aw + 4 * qk + 1)
                  + pB (4 * qk * bw + 4 * r + bw * 2 + 2) * pA (4 * qi * aw + 4 * qk + 2)
                  + pB (4 * qk * bw + 4 * r + bw * 3 + 2) * pA (4 * qi * aw + 4 * qk + 3)
                else 0)
              + (if n = 4 * qi * cw + 4 * r + 3 then
                  pB (4 * qk * bw + 4 * r + 3) * pA (4 * qi * aw + 4 * qk)
                  + pB (4 * qk * bw + 4 * r + bw + 3) * pA (4 * qi * aw + 4 * qk + 1)
                  + pB (4 * qk * bw + 4 * r + bw * 2 + 3) * pA (4 * qi * aw + 4 * qk + 2)
                  + pB (4 * qk * bw + 4 * r + bw * 3 + 3) * pA (4 * qi * aw + 4 * qk + 3)
                else 0))
            + ((if n = 4 * qi * cw + 4 * r + cw then
                  pB (4 * qk * bw + 4 * r) * pA (4 * qi * aw + 4 * qk + aw)
                  + pB (4 * qk * bw + 4 * r + bw) * pA (4 * qi * aw + 4 * qk + aw + 1)
                  + pB (4 * qk * bw + 4 * r + bw * 2) * pA (4 * qi * aw + 4 * qk + aw + 2)
                  + pB (4 * qk * bw + 4 * r + bw * 3) * pA (4 * qi * aw + 4 * qk + aw + 3)
                else 0)
              + (if n = 4 * qi * cw + 4 * r + cw + 1 then
                  pB (4 * qk * bw + 4 * r + 1) * pA (4 * qi * aw + 4 * qk + aw)
                  + pB (4 * qk * bw + 4 * r + bw + 1) * pA (4 * qi * aw + 4 * qk + aw + 1)
                  + pB (4 * qk * bw + 4 * r + bw * 2 + 1) * pA (4 * qi * aw + 4 * qk + aw + 2)
                  + pB (4 * qk * bw + 4 * r + bw * 3 + 1) * pA (4 * qi * aw + 4 * qk + aw + 3)
                else 0)
              + (if n = 4 * qi * cw + 4 * r + cw + 2 then
                  pB (4 * qk * bw + 4 * r + 2) * pA (4 * qi * aw + 4 * qk + aw)
                  + pB (4 * qk * bw + 4 * r + bw + 2) * pA (4 * qi * aw + 4 * qk + aw + 1)
                  + pB (4 * qk * bw + 4 * r + bw * 2 + 2) * pA (4 * qi * aw + 4 * qk + aw + 2)
                  + pB (4 * qk * bw + 4 * r + bw * 3 + 2) * pA (4 * qi * aw + 4 * qk + aw + 3)
                else 0)
              + (if n = 4 * qi * cw + 4 * r + cw + 3 then
                  pB (4 * qk * bw + 4 * r + 3) * pA (4 * qi * aw + 4 * qk + aw)
                  + pB (4 * qk * bw + 4 * r + bw + 3) * pA (4 * qi * aw + 4 * qk + aw + 1)
                  + pB (4 * qk * bw + 4 * r + bw * 2 + 3) * pA (4 * qi * aw + 4 * qk + aw + 2)
                  + pB (4 * qk * bw + 4 * r + bw * 3 + 3) * pA (4 * qi * aw + 4 * qk + aw + 3)
                else 0))
            + ((if n = 4 * qi * cw + 4 * r + cw * 2 then
                  pB (4 * qk * bw + 4 * r) * pA (4 * qi * aw + 4 * qk + aw * 2)
                  + pB (4 * qk * bw + 4 * r + bw) * pA (4 * qi * aw + 4 * qk + aw * 2 + 1)
                  + pB (4 * qk * bw + 4 * r + bw * 2) * pA (4 * qi * aw + 4 * qk + aw * 2 + 2)
                  + pB (4 * qk * bw + 4 * r + bw * 3) * pA (4 * qi * aw + 4 * qk + aw * 2 + 3)
                else 0)
              + (if n = 4 * qi * cw + 4 * r + cw * 2 + 1 then
                  pB (4 * qk * bw + 4 * r + 1) * pA (4 * qi * aw + 4 * qk + aw * 2)
                  + pB (4 * qk * bw + 4 * r + bw + 1) * pA (4 * qi * aw + 4 * qk + aw * 2 + 1)
                  + pB (4 * qk * bw + 4 * r + bw * 2 + 1) * pA (4 * qi * aw + 4 * qk + aw * 2 + 2)
                  + pB (4 * qk * bw + 4 * r + bw * 3 + 1) * pA (4 * qi * aw + 4 * qk + aw * 2 + 3)
                else 0)
              + (if n = 4 * qi * cw + 4 * r + cw * 2 + 2 then
                  pB (4 * qk * bw + 4 * r + 2) * pA (4 * qi * aw + 4 * qk + aw * 2)
                  + pB (4 * qk * bw + 4 * r + bw + 2) * pA (4 * qi * aw + 4 * qk + aw * 2 + 1)
                  + pB (4 * qk * bw + 4 * r + bw * 2 + 2) * pA (4 * qi * aw + 4 * qk + aw * 2 + 2)
                  + pB (4 * qk * bw + 4 * r + bw * 3 + 2) * pA (4 * qi * aw + 4 * qk + aw * 2 + 3)
                else 0)
              + (if n = 4 * qi * cw + 4 * r + cw * 2 + 3 then
                  pB (4 * qk * bw + 4 * r + 3) * pA (4 * qi * aw + 4 * qk + aw * 2)
                  + pB (4 * qk * bw + 4 * r + bw + 3) * pA (4 * qi * aw + 4 * qk + aw * 2 + 1)
                  + pB (4 * qk * bw + 4 * r + bw * 2 + 3) * pA (4 * qi * aw + 4 * qk + aw * 2 + 2)
                  + pB (4 * qk * bw + 4 * r + bw * 3 + 3) * pA (4 * qi * aw + 4 * qk + aw * 2 + 3)
                else 0))
            + ((if n = 4 * qi * cw + 4 * r + cw * 3 then
                  pB (4 * qk * bw + 4 * r) * pA (4 * qi * aw + 4 * qk + aw * 3)
                  + pB (4 * qk * bw + 4 * r + bw) * pA (4 * qi * aw + 4 * qk + aw * 3 + 1)
                  + pB (4 * qk * bw + 4 * r + bw * 2) * pA (4 * qi * aw + 4 * qk + aw * 3 + 2)
                  + pB (4 * qk * bw + 4 * r + bw * 3) * pA (4 * qi * aw + 4 * qk + aw * 3 + 3)
                else 0)
              + (if n = 4 * qi * cw + 4 * r + cw * 3 + 1 then
                  pB (4 * qk * bw + 4 * r + 1) * pA (4 * qi * aw + 4 * qk + aw * 3)
                  + pB (4 * qk * bw + 4 * r + bw + 1) * pA (4 * qi * aw + 4 * qk + aw * 3 + 1)
                  + pB (4 * qk * bw + 4 * r + bw * 2 + 1) * pA (4 * qi * aw + 4 * qk + aw * 3 + 2)
                  + pB (4 * qk * bw + 4 * r + bw * 3 + 1) * pA (4 * qi * aw + 4 * qk + aw * 3 + 3)
                else 0)
              + (if n = 4 * qi * cw + 4 * r + cw * 3 + 2 then
                  pB (4 * qk * bw + 4 * r + 2) * pA (4 * qi * aw + 4 * qk + aw * 3)
                  + pB (4 * qk * bw + 4 * r + bw + 2) * pA (4 * qi * aw + 4 * qk + aw * 3 + 1)
                  + pB (4 * qk * bw + 4 * r + bw * 2 + 2) * pA (4 * qi * aw + 4 * qk + aw * 3 + 2)
                  + pB (4 * qk * bw + 4 * r + bw * 3 + 2) * pA (4 * qi * aw + 4 * qk + aw * 3 + 3)
                else 0)
              + (if n = 4 * qi * cw + 4 * r + cw * 3 + 3 then
                  pB (4 * qk * bw + 4 * r + 3) * pA (4 * qi * aw + 4 * qk + aw * 3)
                  + pB (4 * qk * bw + 4 * r + bw + 3) * pA (4 * qi * aw + 4 * qk + aw * 3 + 1)
                  + pB (4 * qk * bw + 4 * r + bw * 2 + 3) * pA (4 * qi * aw + 4 * qk + aw * 3 + 2)
                  + pB (4 * qk * bw + 4 * r + bw * 3 + 3) * pA (4 * qi * aw + 4 * qk + aw * 3 + 3)
                else 0)))) := by
    unfold opt14Body
    exact isAdd_foldl_range
      (fun qk => isAdd_foldl_range
        (fun qi => isAdd_foldl_range
          (fun r =>
            isAdd_seq (isAdd_seq (isAdd_seq
              (isAdd_congr (isAdd_vst_laneq4 _ _ _ _ _ _) (fun m => ite4_chain_eq_sum _ _ _ _ _ m))
              (isAdd_congr (isAdd_vst_laneq4 _ _ _ _ _ _) (fun m => ite4_chain_eq_sum _ _ _ _ _ m)))
              (isAdd_congr (isAdd_vst_laneq4 _ _ _ _ _ _) (fun m => ite4_chain_eq_sum _ _ _ _ _ m)))
              (isAdd_congr (isAdd_vst_laneq4 _ _ _ _ _ _) (fun m => ite4_chain_eq_sum _ _ _ _ _ m))) _) _) _
  rw [h pC n]
  congr 1
  unfold mmAcc
  dsimp only
  have hA1 : ∀ y x : ℕ, 4 * y * aw + x + aw = (4 * y + 1) * aw + x := fun y x => by ring
  have hA2 : ∀ y x : ℕ, 4 * y * aw + x + aw * 2 = (4 * y + 2) * aw + x := fun y x => by ring
  have hA3 : ∀ y x : ℕ, 4 * y * aw + x + aw * 3 = (4 * y + 3) * aw + x := fun y x => by ring
  have hB1 : ∀ y x : ℕ, 4 * y * bw + x + bw = (4 * y + 1) * bw + x := fun y x => by ring
  have hB2 : ∀ y x : ℕ, 4 * y * bw + x + bw * 2 = (4 * y + 2) * bw + x := fun y x => by ring
  have hB3 : ∀ y x : ℕ, 4 * y * bw + x + bw * 3 = (4 * y + 3) * bw + x := fun y x => by ring
  have hC1 : ∀ y x : ℕ, 4 * y * cw + x + cw = (4 * y + 1) * cw + x := fun y x => by ring
  have hC2 : ∀ y x : ℕ, 4 * y * cw + x + cw * 2 = (4 * y + 2) * cw + x := fun y x => by ring
  have hC3 : ∀ y x : ℕ, 4 * y * cw + x + cw * 3 = (4 * y + 3) * cw + x := fun y x => by ring
  simp only [hA1, hA2, hA3, hB1, hB2, hB3, hC1, hC2, hC3]
  simp only [Nat.add_assoc]
  rw [sum_swap (aw / 4) (ah / 4)]
  refine (Finset.sum_congr rfl fun qi _ => ?_).trans
    (chunk4
      (fun i => ∑ j in Finset.range (al4 bw),
          if n = i * cw + j then ∑ k in Finset.range (al4 aw), pA (i * aw + k) * pB (k * bw + j) else 0)
      (ah / 4))
  refine ((Finset.sum_congr rfl fun qk _ => sum_split4 _ _ _ _ _).trans (sum_split4 _ _ _ _ _)).trans ?_
  refine congrArg₂ (· + ·) (congrArg₂ (· + ·) (congrArg₂ (· + ·) ?_ ?_) ?_) ?_
  · dsimp only
    rw [← blockSumC_eq pA pB aw bw cw n (4 * qi)]
    exact Finset.sum_congr rfl fun q _ => Finset.sum_congr rfl fun r _ => by
      split_ifs <;> first | (exfalso; omega) | ring
  · dsimp only
    rw [← blockSumC_eq pA pB aw bw cw n (4 * qi + 1)]
    exact Finset.sum_congr rfl fun q _ => Finset.sum_congr rfl fun r _ => by
      split_ifs <;> first | (exfalso; omega) | ring
  · dsimp only
    rw [← blockSumC_eq pA pB aw bw cw n (4 * qi + 2)]
    exact Finset.sum_congr rfl fun q _ => Finset.sum_congr rfl fun r _ => by
      split_ifs <;> first | (exfalso; omega) | ring
  · dsimp only
    rw [← blockSumC_eq pA pB aw bw cw n (4 * qi + 3)]
    exact Finset.sum_congr rfl fun q _ => Finset.sum_congr rfl fun r _ => by
      split_ifs <;> first | (exfalso; omega) | ring

theorem opt15Body_eq (pA pB : ℕ → ℚ) (ah aw bw cw : ℕ) (pC : ℕ → ℚ) (n : ℕ) :
    opt15Body pA pB ah aw bw cw pC n
      = pC n + mmAcc pA pB aw bw cw (al4 ah) (al4 bw) (al4 aw) n := by
  have h : isAdd (opt15Body pA pB ah aw bw cw)
      (fun n => ∑ qi in Finset.range (ah / 4), ∑ qk in Finset.range (aw / 4), ∑ r in Finset.range (bw / 4),
          (((if n = 4 * qi * cw + 4 * r then
                  pB (4 * qk * bw + 4 * r) * pA (4 * qi * aw + 4 * qk)
                  + pB (4 * qk * bw + 4 * r + bw) * pA (4 * qi * aw + 4 * qk + 1)
                  + pB (4 * qk * bw + 4 * r + bw * 2) * pA (4 * qi * aw + 4 * qk + 2)
                  + pB (4 * qk * bw + 4 * r + bw * 3) * pA (4 * qi * aw + 4 * qk + 3)
                else 0)
              + (if n = 4 * qi * cw + 4 * r + 1 then
                  pB (4 * qk * bw + 4 * r + 1) * pA (4 * qi * aw + 4 * qk)
                  + pB (4 * qk * bw + 4 * r + bw + 1) * pA (4 * qi * aw + 4 * qk + 1)
                  + pB (4 * qk * bw + 4 * r + bw * 2 + 1) * pA (4 * qi * aw + 4 * qk + 2)
                  + pB (4 * qk * bw + 4 * r + bw * 3 + 1) * pA (4 * qi * aw + 4 * qk + 3)
                else 0)
              + (if n = 4 * qi * cw + 4 * r + 2 then
                  pB (4 * qk * bw + 4 * r + 2) * pA (4 * qi * aw + 4 * qk)
                  + pB (4 * qk * bw + 4 * r + bw + 2) * pA (4 * qi * aw + 4 * qk + 1)
                  + pB (4 * qk * bw + 4 * r + bw * 2 + 2) * pA (4 * qi * aw + 4 * qk + 2)
                  + pB (4 * qk * bw + 4 * r + bw * 3 + 2) * pA (4 * qi * aw + 4 * qk + 3)
                else 0)
              + (if n = 4 * qi * cw + 4 * r + 3 then
                  pB (4 * qk * bw + 4 * r + 3) * pA (4 * qi * aw + 4 * qk)
                  + pB (4 * qk * bw + 4 * r + bw + 3) * pA (4 * qi * aw + 4 * qk + 1)
                  + pB (4 * qk * bw + 4 * r + bw * 2 + 3) * pA (4 * qi * aw + 4 * qk + 2)
                  + pB (4 * qk * bw + 4 * r + bw * 3 + 3) * pA (4 * qi * aw + 4 * qk + 3)
                else 0))
            + ((if n = 4 * qi * cw + 4 * r + cw then
                  pB (4 * qk * bw + 4 * r) * pA (4 * qi * aw + 4 * qk + aw)
                  + pB (4 * qk * bw + 4 * r + bw) * pA (4 * qi * aw + 4 * qk + aw + 1)
                  + pB (4 * qk * bw + 4 * r + bw * 2) * pA (4 * qi * aw + 4 * qk + aw + 2)
                  + pB (4 * qk * bw + 4 * r + bw * 3) * pA (4 * qi * aw + 4 * qk + aw + 3)
                else 0)
              + (if n = 4 * qi * cw + 4 * r + cw + 1 then
                  pB (4 * qk * bw + 4 * r + 1) * pA (4 * qi * aw + 4 * qk + aw)
                  + pB (4 * qk * bw + 4 * r + bw + 1) * pA (4 * qi * aw + 4 * qk + aw + 1)
                  + pB (4 * qk * bw + 4 * r + bw * 2 + 1) * pA (4 * qi * aw + 4 * qk + aw + 2)
                  + pB (4 * qk * bw + 4 * r + bw * 3 + 1) * pA (4 * qi * aw + 4 * qk + aw + 3)
                else 0)
              + (if n = 4 * qi * cw + 4 * r + cw + 2 then
                  pB (4 * qk * bw + 4 * r + 2) * pA (4 * qi * aw + 4 * qk + aw)
                  + pB (4 * qk * bw + 4 * r + bw + 2) * pA (4 * qi * aw + 4 * qk + aw + 1)
                  + pB (4 * qk * bw + 4 * r + bw * 2 + 2) * pA (4 * qi * aw + 4 * qk + aw + 2)
                  + pB (4 * qk * bw + 4 * r + bw * 3 + 2) * pA (4 * qi * aw + 4 * qk + aw + 3)
                else 0)
              + (if n = 4 * qi * cw + 4 * r + cw + 3 then
                  pB (4 * qk * bw + 4 * r + 3) * pA (4 * qi * aw + 4 * qk + aw)
                  + pB (4 * qk * bw + 4 * r + bw + 3) * pA (4 * qi * aw + 4 * qk + aw + 1)
                  + pB (4 * qk * bw + 4 * r + bw * 2 + 3) * pA (4 * qi * aw + 4 * qk + aw + 2)
                  + pB (4 * qk * bw + 4 * r + bw * 3 + 3) * pA (4 * qi * aw + 4 * qk + aw + 3)
                else 0))
            + ((if n = 4 * qi * cw + 4 * r + cw * 2 then
                  pB (4 * qk * bw + 4 * r) * pA (4 * qi * aw + 4 * qk + aw * 2)
                  + pB (4 * qk * bw + 4 * r + bw) * pA (4 * qi * aw + 4 * qk + aw * 2 + 1)
                  + pB (4 * qk * bw + 4 * r + bw * 2) * pA (4 * qi * aw + 4 * qk + aw * 2 + 2)
                  + pB (4 * qk * bw + 4 * r + bw * 3) * pA (4 * qi * aw + 4 * qk + aw * 2 + 3)
                else 0)
              + (if n = 4 * qi * cw + 4 * r + cw * 2 + 1 then
                  pB (4 * qk * bw + 4 * r + 1) * pA (4 * qi * aw + 4 * qk + aw * 2)
                  + pB (4 * qk * bw + 4 * r + bw + 1) * pA (4 * qi * aw + 4 * qk + aw * 2 + 1)
                  + pB (4 * qk * bw + 4 * r + bw * 2 + 1) * pA (4 * qi * aw + 4 * qk + aw * 2 + 2)
                  + pB (4 * qk * bw + 4 * r + bw * 3 + 1) * pA (4 * qi * aw + 4 * qk + aw * 2 + 3)
                else 0)
              + (if n = 4 * qi * cw + 4 * r + cw * 2 + 2 then
                  pB (4 * qk * bw + 4 * r + 2) * pA (4 * qi * aw + 4 * qk + aw * 2)
                  + pB (4 * qk * bw + 4 * r + bw + 2) * pA (4 * qi * aw + 4 * qk + aw * 2 + 1)
                  + pB (4 * qk * bw + 4 * r + bw * 2 + 2) * pA (4 * qi * aw + 4 * qk + aw * 2 + 2)
                  + pB (4 * qk * bw + 4 * r + bw * 3 + 2) * pA (4 * qi * aw + 4 * qk + aw * 2 + 3)
                else 0)
              + (if n = 4 * qi * cw + 4 * r + cw * 2 + 3 then
                  pB (4 * qk * bw + 4 * r + 3) * pA (4 * qi * aw + 4 * qk + aw * 2)
                  + pB (4 * qk * bw + 4 * r + bw + 3) * pA (4 * qi * aw + 4 * qk + aw * 2 + 1)
                  + pB (4 * qk * bw + 4 * r + bw * 2 + 3) * pA (4 * qi * aw + 4 * qk + aw * 2 + 2)
                  + pB (4 * qk * bw + 4 * r + bw * 3 + 3) * pA (4 * qi * aw + 4 * qk + aw * 2 + 3)
                else 0))
            + ((if n = 4 * qi * cw + 4 * r + cw * 3 then
                  pB (4 * qk * bw + 4 * r) * pA (4 * qi * aw + 4 * qk + aw * 3)
                  + pB (4 * qk * bw + 4 * r + bw) * pA (4 * qi * aw + 4 * qk + aw * 3 + 1)
                  + pB (4 * qk * bw + 4 * r + bw * 2) * pA (4 * qi * aw + 4 * qk + aw * 3 + 2)
                  + pB (4 * qk * bw + 4 * r + bw * 3) * pA (4 * qi * aw + 4 * qk + aw * 3 + 3)
                else 0)
              + (if n = 4 * qi * cw + 4 * r + cw * 3 + 1 then
                  pB (4 * qk * bw + 4 * r + 1) * pA (4 * qi * aw + 4 * qk + aw * 3)
                  + pB (4 * qk * bw + 4 * r + bw + 1) * pA (4 * qi * aw + 4 * qk + aw * 3 + 1)
                  + pB (4 * qk * bw + 4 * r + bw * 2 + 1) * pA (4 * qi * aw + 4 * qk + aw * 3 + 2)
                  + pB (4 * qk * bw + 4 * r + bw * 3 + 1) * pA (4 * qi * aw + 4 * qk + aw * 3 + 3)
                else 0)
              + (if n = 4 * qi * cw + 4 * r + cw * 3 + 2 then
                  pB (4 * qk * bw + 4 * r + 2) * pA (4 * qi * aw + 4 * qk + aw * 3)
                  + pB (4 * qk * bw + 4 * r + bw + 2) * pA (4 * qi * aw + 4 * qk + aw * 3 + 1)
                  + pB (4 * qk * bw + 4 * r + bw * 2 + 2) * pA (4 * qi * aw + 4 * qk + aw * 3 + 2)
                  + pB (4 * qk * bw + 4 * r + bw * 3 + 2) * pA (4 * qi * aw + 4 * qk + aw * 3 + 3)
                else 0)
              + (if n = 4 * qi * cw + 4 * r + cw * 3 + 3 then
                  pB (4 * qk * bw + 4 * r + 3) * pA (4 * qi * aw + 4 * qk + aw * 3)
                  + pB (4 * qk * bw + 4 * r + bw + 3) * pA (4 * qi * aw + 4 * qk + aw * 3 + 1)
                  + pB (4 * qk * bw + 4 * r + bw * 2 + 3) * pA (4 * qi * aw + 4 * qk + aw * 3 + 2)
                  + pB (4 * qk * bw + 4 * r + bw * 3 + 3) * pA (4 * qi * aw + 4 * qk + aw * 3 + 3)
                else 0)))) := by
    unfold opt15Body
    exact isAdd_foldl_range
      (fun qi => isAdd_foldl_range
        (fun qk => isAdd_foldl_range
          (fun r =>
            isAdd_seq (isAdd_seq (isAdd_seq
              (isAdd_congr (isAdd_vst_laneq4 _ _ _ _ _ _) (fun m => ite4_chain_eq_sum _ _ _ _ _ m))
              (isAdd_congr (isAdd_vst_laneq4 _ _ _ _ _ _) (fun m => ite4_chain_eq_sum _ _ _ _ _ m)))
              (isAdd_congr (isAdd_vst_laneq4 _ _ _ _ _ _) (fun m => ite4_chain_eq_sum _ _ _ _ _ m)))
              (isAdd_congr (isAdd_vst_laneq4 _ _ _ _ _ _) (fun m => ite4_chain_eq_sum _ _ _ _ _ m))) _) _) _
  rw [h pC n]
  congr 1
  unfold mmAcc
  dsimp only
  have hA1 : ∀ y x : ℕ, 4 * y * aw + x + aw = (4 * y + 1) * aw + x := fun y x => by ring
  have hA2 : ∀ y x : ℕ, 4 * y * aw + x + aw * 2 = (4 * y + 2) * aw + x := fun y x => by ring
  have hA3 : ∀ y x : ℕ, 4 * y * aw + x + aw * 3 = (4 * y + 3) * aw + x := fun y x => by ring
  have hB1 : ∀ y x : ℕ, 4 * y * bw + x + bw = (4 * y + 1) * bw + x := fun y x => by ring
  have hB2 : ∀ y x : ℕ, 4 * y * bw + x + bw * 2 = (4 * y + 2) * bw + x := fun y x => by ring
  have hB3 : ∀ y x : ℕ, 4 * y * bw + x + bw * 3 = (4 * y + 3) * bw + x := fun y x => by ring
  have hC1 : ∀ y x : ℕ, 4 * y * cw + x + cw = (4 * y + 1) * cw + x := fun y x => by ring
  have hC2 : ∀ y x : ℕ, 4 * y * cw + x + cw * 2 = (4 * y + 2) * cw + x := fun y x => by ring
  have hC3 : ∀ y x : ℕ, 4 * y * cw + x + cw * 3 = (4 * y + 3) * cw + x := fun y x => by ring
  simp only [hA1, hA2, hA3, hB1, hB2, hB3, hC1, hC2, hC3]
  simp only [Nat.add_assoc]
  refine (Finset.sum_congr rfl fun qi _ => ?_).trans
    (chunk4
      (fun i => ∑ j in Finset.range (al4 bw),
          if n = i * cw + j then ∑ k in Finset.range (al4 aw), pA (i * aw + k) * pB (k * bw + j) else 0)
      (ah / 4))
  refine ((Finset.sum_congr rfl fun qk _ => sum_split4 _ _ _ _ _).trans (sum_split4 _ _ _ _ _)).trans ?_
  refine congrArg₂ (· + ·) (congrArg₂ (· + ·) (congrArg₂ (· + ·) ?_ ?_) ?_) ?_
  · dsimp only
    rw [← blockSumC_eq pA pB aw bw cw n (4 * qi)]
    exact Finset.sum_congr rfl fun q _ => Finset.sum_congr rfl fun r _ => by
      split_ifs <;> first | (exfalso; omega) | ring
  · dsimp only
    rw [← blockSumC_eq pA pB aw bw cw n (4 * qi + 1)]
    exact Finset.sum_congr rfl fun q _ => Finset.sum_congr rfl fun r _ => by
      split_ifs <;> first | (exfalso; omega) | ring
  · dsimp only
    rw [← blockSumC_eq pA pB aw bw cw n (4 * qi + 2)]
    exact Finset.sum_congr rfl fun q _ => Finset.sum_congr rfl fun r _ => by
      split_ifs <;> first | (exfalso; omega) | ring
  · dsimp only
    rw [← blockSumC_eq pA pB aw bw cw n (4 * qi + 3)]
    exact Finset.sum_congr rfl fun q _ => Finset.sum_congr rfl fun r _ => by
      split_ifs <;> first | (exfalso; omega) | ring

theorem opt16Body_eq (pA pB : ℕ → ℚ) (ah aw bw cw : ℕ) (pC : ℕ → ℚ) (n : ℕ) :
    opt16Body pA pB ah aw bw cw pC n
      = pC n + mmAcc pA pB aw bw cw (al4 ah) (al4 bw) (al4 aw) n := by
  have h : isAdd (opt16Body pA pB ah aw bw cw)
      (fun n => ∑ qk in Finset.range (aw / 4), ∑ qi in Finset.range (ah / 4), ∑ r in Finset.range (bw / 4),
          (((if n = 4 * qi * cw + 4 * r then
                  pB (4 * qk * bw + 4 * r) * pA (4 * qi * aw + 4 * qk)
                  + pB (4 * qk * bw + 4 * r + bw) * pA (4 * qi * aw + 4 * qk + 1)
                  + pB (4 * qk * bw + 4 * r + bw * 2) * pA (4 * qi * aw + 4 * qk + 2)
                  + pB (4 * qk * bw + 4 * r + bw * 3) * pA (4 * qi * aw + 4 * qk + 3)
                else 0)
              + (if n = 4 * qi * cw + 4 * r + 1 then
                  pB (4 * qk * bw + 4 * r + 1) * pA (4 * qi * aw + 4 * qk)
                  + pB (4 * qk * bw + 4 * r + bw + 1) * pA (4 * qi * aw + 4 * qk + 1)
                  + pB (4 * qk * bw + 4 * r + bw * 2 + 1) * pA (4 * qi * aw + 4 * qk + 2)
                  + pB (4 * qk * bw + 4 * r + bw * 3 + 1) * pA (4 * qi * aw + 4 * qk + 3)
                else 0)
              + (if n = 4 * qi * cw + 4 * r + 2 then
                  pB (4 * qk * bw + 4 * r + 2) * pA (4 * qi * aw + 4 * qk)
                  + pB (4 * qk * bw + 4 * r + bw + 2) * pA (4 * qi * aw + 4 * qk + 1)
                  + pB (4 * qk * bw + 4 * r + bw * 2 + 2) * pA (4 * qi * aw + 4 * qk + 2)
                  + pB (4 * qk * bw + 4 * r + bw * 3 + 2) * pA (4 * qi * aw + 4 * qk + 3)
                else 0)
              + (if n = 4 * qi * cw + 4 * r + 3 then
                  pB (4 * qk * bw + 4 * r + 3) * pA (4 * qi * aw + 4 * qk)
                  + pB (4 * qk * bw + 4 * r + bw + 3) * pA (4 * qi * aw + 4 * qk + 1)
                  + pB (4 * qk * bw + 4 * r + bw * 2 + 3) * pA (4 * qi * aw + 4 * qk + 2)
                  + pB (4 * qk * bw + 4 * r + bw * 3 + 3) * pA (4 * qi * aw + 4 * qk + 3)
                else 0))
            + ((if n = 4 * qi * cw + 4 * r + cw then
                  pB (4 * qk * bw + 4 * r) * pA (4 * qi * aw + 4 * qk + aw)
                  + pB (4 * qk * bw + 4 * r + bw) * pA (4 * qi * aw + 4 * qk + aw + 1)
                  + pB (4 * qk * bw + 4 * r + bw * 2) * pA (4 * qi * aw + 4 * qk + aw + 2)
                  + pB (4 * qk * bw + 4 * r + bw * 3) * pA (4 * qi * aw + 4 * qk + aw + 3)
                else 0)
              + (if n = 4 * qi * cw + 4 * r + cw + 1 then
                  pB (4 * qk * bw + 4 * r + 1) * pA (4 * qi * aw + 4 * qk + aw)
                  + pB (4 * qk * bw + 4 * r + bw + 1) * pA (4 * qi * aw + 4 * qk + aw + 1)
                  + pB (4 * qk * bw + 4 * r + bw * 2 + 1) * pA (4 * qi * aw + 4 * qk + aw + 2)
                  + pB (4 * qk * bw + 4 * r + bw * 3 + 1) * pA (4 * qi * aw + 4 * qk + aw + 3)
                else 0)
              + (if n = 4 * qi * cw + 4 * r + cw + 2 then
                  pB (4 * qk * bw + 4 * r + 2) * pA (4 * qi * aw + 4 * qk + aw)
                  + pB (4 * qk * bw + 4 * r + bw + 2) * pA (4 * qi * aw + 4 * qk + aw + 1)
                  + pB (4 * qk * bw + 4 * r + bw * 2 + 2) * pA (4 * qi * aw + 4 * qk + aw + 2)
                  + pB (4 * qk * bw + 4 * r + bw * 3 + 2) * pA (4 * qi * aw + 4 * qk + aw + 3)
                else 0)
              + (if n = 4 * qi * cw + 4 * r + cw + 3 then
                  pB (4 * qk * bw + 4 * r + 3) * pA (4 * qi * aw + 4 * qk + aw)
                  + pB (4 * qk * bw + 4 * r + bw + 3) * pA (4 * qi * aw + 4 * qk + aw + 1)
                  + pB (4 * qk * bw + 4 * r + bw * 2 + 3) * pA (4 * qi * aw + 4 * qk + aw + 2)
                  + pB (4 * qk * bw + 4 * r + bw * 3 + 3) * pA (4 * qi * aw + 4 * qk + aw + 3)
                else 0))
            + ((if n = 4 * qi * cw + 4 * r + cw * 2 then
                  pB (4 * qk * bw + 4 * r) * pA (4 * qi * aw + 4 * qk + aw * 2)
                  + pB (4 * qk * bw + 4 * r + bw) * pA (4 * qi * aw + 4 * qk + aw * 2 + 1)
                  + pB (4 * qk * bw + 4 * r + bw * 2) * pA (4 * qi * aw + 4 * qk + aw * 2 + 2)
                  + pB (4 * qk * bw + 4 * r + bw * 3) * pA (4 * qi * aw + 4 * qk + aw * 2 + 3)
                else 0)
              + (if n = 4 * qi * cw + 4 * r + cw * 2 + 1 then
                  pB (4 * qk * bw + 4 * r + 1) * pA (4 * qi * aw + 4 * qk + aw * 2)
                  + pB (4 * qk * bw + 4 * r + bw + 1) * pA (4 * qi * aw + 4 * qk + aw * 2 + 1)
                  + pB (4 * qk * bw + 4 * r + bw * 2 + 1) * pA (4 * qi * aw + 4 * qk + aw * 2 + 2)
                  + pB (4 * qk * bw + 4 * r + bw * 3 + 1) * pA (4 * qi * aw + 4 * qk + aw * 2 + 3)
                else 0)
              + (if n = 4 * qi * cw + 4 * r + cw * 2 + 2 then
                  pB (4 * qk * bw + 4 * r + 2) * pA (4 * qi * aw + 4 * qk + aw * 2)
                  + pB (4 * qk * bw + 4 * r + bw + 2) * pA (4 * qi * aw + 4 * qk + aw * 2 + 1)
                  + pB (4 * qk * bw + 4 * r + bw * 2 + 2) * pA (4 * qi * aw + 4 * qk + aw * 2 + 2)
                  + pB (4 * qk * bw + 4 * r + bw * 3 + 2) * pA (4 * qi * aw + 4 * qk + aw * 2 + 3)
                else 0)
              + (if n = 4 * qi * cw + 4 * r + cw * 2 + 3 then
                  pB (4 * qk * bw + 4 * r + 3) * pA (4 * qi * aw + 4 * qk + aw * 2)
                  + pB (4 * qk * bw + 4 * r + bw + 3) * pA (4 * qi * aw + 4 * qk + aw * 2 + 1)
                  + pB (4 * qk * bw + 4 * r + bw * 2 + 3) * pA (4 * qi * aw + 4 * qk + aw * 2 + 2)
                  + pB (4 * qk * bw + 4 * r + bw * 3 + 3) * pA (4 * qi * aw + 4 * qk + aw * 2 + 3)
                else 0))
            + ((if n = 4 * qi * cw + 4 * r + cw * 3 then
                  pB (4 * qk * bw + 4 * r) * pA (4 * qi * aw + 4 * qk + aw * 3)
                  + pB (4 * qk * bw + 4 * r + bw) * pA (4 * qi * aw + 4 * qk + aw * 3 + 1)
                  + pB (4 * qk * bw + 4 * r + bw * 2) * pA (4 * qi * aw + 4 * qk + aw * 3 + 2)
                  + pB (4 * qk * bw + 4 * r + bw * 3) * pA (4 * qi * aw + 4 * qk + aw * 3 + 3)
                else 0)
              + (if n = 4 * qi * cw + 4 * r + cw * 3 + 1 then
                  pB (4 * qk * bw + 4 * r + 1) * pA (4 * qi * aw + 4 * qk + aw * 3)
                  + pB (4 * qk * bw + 4 * r + bw + 1) * pA (4 * qi * aw + 4 * qk + aw * 3 + 1)
                  + pB (4 * qk * bw + 4 * r + bw * 2 + 1) * pA (4 * qi * aw + 4 * qk + aw * 3 + 2)
                  + pB (4 * qk * bw + 4 * r + bw * 3 + 1) * pA (4 * qi * aw + 4 * qk + aw * 3 + 3)
                else 0)
              + (if n = 4 * qi * cw + 4 * r + cw * 3 + 2 then
                  pB (4 * qk * bw + 4 * r + 2) * pA (4 * qi * aw + 4 * qk + aw * 3)
                  + pB (4 * qk * bw + 4 * r + bw + 2) * pA (4 * qi * aw + 4 * qk + aw * 3 + 1)
                  + pB (4 * qk * bw + 4 * r + bw * 2 + 2) * pA (4 * qi * aw + 4 * qk + aw * 3 + 2)
                  + pB (4 * qk * bw + 4 * r + bw * 3 + 2) * pA (4 * qi * aw + 4 * qk + aw * 3 + 3)
                else 0)
              + (if n = 4 * qi * cw + 4 * r + cw * 3 + 3 then
                  pB (4 * qk * bw + 4 * r + 3) * pA (4 * qi * aw + 4 * qk + aw * 3)
                  + pB (4 * qk * bw + 4 * r + bw + 3) * pA (4 * qi * aw + 4 * qk + aw * 3 + 1)
                  + pB (4 * qk * bw + 4 * r + bw * 2 + 3) * pA (4 * qi * aw + 4 * qk + aw * 3 + 2)
                  + pB (4 * qk * bw + 4 * r + bw * 3 + 3) * pA (4 * qi * aw + 4 * qk + aw * 3 + 3)
                else 0)))) := by
    unfold opt16Body
    exact isAdd_foldl_range
      (fun qk => isAdd_foldl_range
        (fun qi => isAdd_foldl_range
          (fun r =>
            isAdd_seq (isAdd_seq (isAdd_seq
              (isAdd_congr (isAdd_vst_laneq4 _ _ _ _ _ _) (fun m => ite4_chain_eq_sum _ _ _ _ _ m))
              (isAdd_congr (isAdd_vst_laneq4 _ _ _ _ _ _) (fun m => ite4_chain_eq_sum _ _ _ _ _ m)))
              (isAdd_congr (isAdd_vst_laneq4 _ _ _ _ _ _) (fun m => ite4_chain_eq_sum _ _ _ _ _ m)))
              (isAdd_congr (isAdd_vst_laneq4 _ _ _ _ _ _) (fun m => ite4_chain_eq_sum _ _ _ _ _ m))) _) _) _
  rw [h pC n]
  congr 1
  unfold mmAcc
  dsimp only
  have hA1 : ∀ y x : ℕ, 4 * y * aw + x + aw = (4 * y + 1) * aw + x := fun y x => by ring
  have hA2 : ∀ y x : ℕ, 4 * y * aw + x + aw * 2 = (4 * y + 2) * aw + x := fun y x => by ring
  have hA3 : ∀ y x : ℕ, 4 * y * aw + x + aw * 3 = (4 * y + 3) * aw + x := fun y x => by ring
  have hB1 : ∀ y x : ℕ, 4 * y * bw + x + bw = (4 * y + 1) * bw + x := fun y x => by ring
  have hB2 : ∀ y x : ℕ, 4 * y * bw + x + bw * 2 = (4 * y + 2) * bw + x := fun y x => by ring
  have hB3 : ∀ y x : ℕ, 4 * y * bw + x + bw * 3 = (4 * y + 3) * bw + x := fun y x => by ring
  have hC1 : ∀ y x : ℕ, 4 * y * cw + x + cw = (4 * y + 1) * cw + x := fun y x => by ring
  have hC2 : ∀ y x : ℕ, 4 * y * cw + x + cw * 2 = (4 * y + 2) * cw + x := fun y x => by ring
  have hC3 : ∀ y x : ℕ, 4 * y * cw + x + cw * 3 = (4 * y + 3) * cw + x := fun y x => by ring
  simp only [hA1, hA2, hA3, hB1, hB2, hB3, hC1, hC2, hC3]
  simp only [Nat.add_assoc]
  rw [sum_swap (aw / 4) (ah / 4)]
  refine (Finset.sum_congr rfl fun qi _ => ?_).trans
    (chunk4
      (fun i => ∑ j in Finset.range (al4 bw),
          if n = i * cw + j then ∑ k in Finset.range (al4 aw), pA (i * aw + k) * pB (k * bw + j) else 0)
      (ah / 4))
  refine ((Finset.sum_congr rfl fun qk _ => sum_split4 _ _ _ _ _).trans (sum_split4 _ _ _ _ _)).trans ?_
  refine congrArg₂ (· + ·) (congrArg₂ (· + ·) (congrArg₂ (· + ·) ?_ ?_) ?_) ?_
  · dsimp only
    rw [← blockSumC_eq pA pB aw bw cw n (4 * qi)]
    exact Finset.sum_congr rfl fun q _ => Finset.sum_congr rfl fun r _ => by
      split_ifs <;> first | (exfalso; omega) | ring
  · dsimp only
    rw [← blockSumC_eq pA pB aw bw cw n (4 * qi + 1)]
    exact Finset.sum_congr rfl fun q _ => Finset.sum_congr rfl fun r _ => by
      split_ifs <;> first | (exfalso; omega) | ring
  · dsimp only
    rw [← blockSumC_eq pA pB aw bw cw n (4 * qi + 2)]
    exact Finset.sum_congr rfl fun q _ => Finset.sum_congr rfl fun r _ => by
      split_ifs <;> first | (exfalso; omega) | ring
  · dsimp only
    rw [← blockSumC_eq pA pB aw bw cw n (4 * qi + 3)]
    exact Finset.sum_congr rfl fun q _ => Finset.sum_congr rfl fun r _ => by
      split_ifs <;> first | (exfalso; omega) | ring

theorem opt2Body_eq (pA pB : ℕ → ℚ) (ah aw bw cw : ℕ) (pC : ℕ → ℚ) (n : ℕ) :
    opt2Body pA pB ah aw bw cw pC n = pC n + mmAcc pA pB aw bw cw ah bw aw n := by
  have h : isAdd (opt2Body pA pB ah aw bw cw)
      (fun n => ∑ k in Finset.range aw, ∑ i in Finset.range ah, ∑ j in Finset.range bw,
        if n = i * cw + j then pA (i * aw + k) * pB (k * bw + j) else 0) := by
    unfold opt2Body
    exact isAdd_foldl_range
      (fun k => isAdd_foldl_range
        (fun i => isAdd_foldl_range (fun j => isAdd_addAt _ _) _) _) _
  rw [h pC n]
  congr 1
  unfold mmAcc
  dsimp only
  rw [sum_swap aw ah]
  refine Finset.sum_congr rfl fun i _ => ?_
  rw [sum_swap aw bw]
  refine Finset.sum_congr rfl fun j _ => ?_
  rw [sum_ite_push]

/-! ## Claim theorems -/

theorem al4_le (m : ℕ) : al4 m ≤ m := by
  unfold al4
  omega

theorem atIdx_mk (c : Matrix) (F : ℕ → ℚ) (n : ℕ) :
    Matrix.atIdx { c with data := some F } n = F n := rfl

theorem sum3 (f : ℕ → ℚ) : ∑ k in Finset.range 3, f k = f 0 + f 1 + f 2 := by
  rw [show (3 : ℕ) = 2 + 1 from rfl, Finset.sum_range_succ,
    show (2 : ℕ) = 1 + 1 from rfl, Finset.sum_range_succ,
    show (1 : ℕ) = 0 + 1 from rfl, Finset.sum_range_succ, Finset.sum_range_zero, zero_add]

theorem sum5 (f : ℕ → ℚ) :
    ∑ k in Finset.range 5, f k = f 0 + f 1 + f 2 + f 3 + f 4 := by
  rw [show (5 : ℕ) = 4 + 1 from rfl, Finset.sum_range_succ,
    show (4 : ℕ) = 3 + 1 from rfl, Finset.sum_range_succ,
    show (3 : ℕ) = 2 + 1 from rfl, Finset.sum_range_succ,
    show (2 : ℕ) = 1 + 1 from rfl, Finset.sum_range_succ,
    show (1 : ℕ) = 0 + 1 from rfl, Finset.sum_range_succ, Finset.sum_range_zero, zero_add]

theorem mmAcc_J0 (pA pB : ℕ → ℚ) (aw bw cw I K n : ℕ) :
    mmAcc pA pB aw bw cw I 0 K n = 0 := by
  unfold mmAcc
  simp

theorem CheckParam_false (a b c : Matrix)
    (h : a.w ≠ b.h ∨ a.h ≠ c.h ∨ b.w ≠ c.w
      ∨ a.data = none ∨ b.data = none ∨ c.data = none) :
    CheckParam a b c = false := by
  unfold CheckParam
  split_ifs with h1 h2 h3 h4
  any_goals rfl
  exfalso
  rcases h with h | h | h | h | h | h
  · exact h1 h
  · exact h2 h
  · exact h3 h
  · exact h4 (by simp [h])
  · exact h4 (by simp [h])
  · exact h4 (by simp [h])

theorem CheckResult_false_of (a b : Matrix) (i j : ℕ)
    (hA : a.data ≠ none) (hB : b.data ≠ none)
    (hi : i < a.h) (hj : j < a.w)
    (h : EPSILON < |a.atIdx (i * a.w + j) - b.atIdx (i * a.w + j)|) :
    CheckResult a b = false := by
  unfold CheckResult
  split_ifs with h1 h2 h3
  · rfl
  · rfl
  · rfl
  · by_contra hne
    rw [Bool.not_eq_false] at hne
    have h4 := List.all_eq_true.mp hne i (List.mem_range.mpr hi)
    have h5 := List.all_eq_true.mp h4 j (List.mem_range.mpr hj)
    rw [decide_eq_true_eq] at h5
    unfold Matrix.atIdx at h
    exact absurd h5 (not_le.mpr h)

theorem CheckResult_origin_kernel (a b c : Matrix)
    (hcp : CheckParam a b c = true)
    (K : Matrix → Matrix → Matrix → Matrix) (F : ℕ → ℚ)
    (hK : K a b c = { c with data := some F })
    (hbody : ∀ n, F n = originBody (dataOf a) (dataOf b) a.h a.w b.w c.w (dataOf c) n) :
    CheckResult (GeMM.Origin a b c) (K a b c) = true := by
  rw [Origin_run a b c hcp, hK]
  exact CheckResult_true_of _ _ _ _ rfl rfl rfl rfl fun n => (hbody n).symm

/-- C1: for every valid input triple (matching dimensions, non-null
buffers) with a zero-initialised C, each of the scalar kernels
`Optimize1`, `Optimize2` (loop reordering) and `Optimize3`, `Optimize4`,
`Optimize7`, `Optimize8` (unrolled with scalar tail loops) produces a
result that `CheckResult` accepts against `Origin`'s result (over the
exact rational embedding the two results are equal element-wise, hence
within the absolute tolerance 1e-5), for arbitrary dimensions including
those not a multiple of 4. -/
theorem C1_scalar_and_unrolled_kernels_equiv_origin (a b c : Matrix) (pA pB : ℕ → ℚ)
    (hab : a.w = b.h) (hh : a.h = c.h) (hw : b.w = c.w)
    (hA : a.data = some pA) (hB : b.data = some pB)
    (hC : c.data = some fun _ => (0 : ℚ)) :
    CheckResult (GeMM.Origin a b c) (GeMM.Optimize1 a b c) = true
      ∧ CheckResult (GeMM.Origin a b c) (GeMM.Optimize2 a b c) = true
      ∧ CheckResult (GeMM.Origin a b c) (GeMM.Optimize3 a b c) = true
      ∧ CheckResult (GeMM.Origin a b c) (GeMM.Optimize4 a b c) = true
      ∧ CheckResult (GeMM.Origin a b c) (GeMM.Optimize7 a b c) = true
      ∧ CheckResult (GeMM.Origin a b c) (GeMM.Optimize8 a b c) = true := by
  have hcp : CheckParam a b c = true :=
    CheckParam_true a b c hab hh hw (by simp [hA]) (by simp [hB]) (by simp [hC])
  refine ⟨?_, ?_, ?_, ?_, ?_, ?_⟩
  · exact CheckResult_origin_kernel a b c hcp _ _ (Optimize1_run a b c hcp)
      fun n => by rw [opt1Body_eq, originBody_eq]
  · exact CheckResult_origin_kernel a b c hcp _ _ (Optimize2_run a b c hcp)
      fun n => by rw [opt2Body_eq, originBody_eq]
  · exact CheckResult_origin_kernel a b c hcp _ _ (Optimize3_run a b c hcp)
      fun n => by rw [opt3Body_eq, originBody_eq]
  · exact CheckResult_origin_kernel a b c hcp _ _ (Optimize4_run a b c hcp)
      fun n => by rw [opt4Body_eq, originBody_eq]
  · exact CheckResult_origin_kernel a b c hcp _ _ (Optimize7_run a b c hcp)
      fun n => by rw [opt7Body_eq, originBody_eq]
  · exact CheckResult_origin_kernel a b c hcp _ _ (Optimize8_run a b c hcp)
      fun n => by rw [opt8Body_eq, originBody_eq]

theorem C1_scalar_and_unrolled_kernels_equiv_origin_witness :
    (tA.w = tB.h ∧ tA.h = tC.h ∧ tB.w = tC.w)
      ∧ (CheckResult (GeMM.Origin tA tB tC) (GeMM.Optimize1 tA tB tC) = true
        ∧ CheckResult (GeMM.Origin tA tB tC) (GeMM.Optimize2 tA tB tC) = true
        ∧ CheckResult (GeMM.Origin tA tB tC) (GeMM.Optimize3 tA tB tC) = true
        ∧ CheckResult (GeMM.Origin tA tB tC) (GeMM.Optimize4 tA tB tC) = true
        ∧ CheckResult (GeMM.Origin tA tB tC) (GeMM.Optimize7 tA tB tC) = true
        ∧ CheckResult (GeMM.Origin tA tB tC) (GeMM.Optimize8 tA tB tC) = true) :=
  ⟨⟨rfl, rfl, rfl⟩,
    C1_scalar_and_unrolled_kernels_equiv_origin tA tB tC _ _ rfl rfl rfl rfl rfl rfl⟩

/-- C3: for every valid input triple whose dimensions `A.h`,
`A.w = B.h`, `B.w` are all exact multiples of 4, with a zero-initialised
C, each aligned/blocked kernel `Optimize11` through `Optimize16`
produces a result that `CheckResult` accepts against `Origin`'s result
(over the exact rational embedding the results are equal element-wise,
hence within the absolute tolerance 1e-5). -/
theorem C3_aligned_kernels_equiv_origin_on_multiples_of_4 (a b c : Matrix) (pA pB : ℕ → ℚ)
    (hab : a.w = b.h) (hh : a.h = c.h) (hw : b.w = c.w)
    (h4h : 4 ∣ a.h) (h4w : 4 ∣ a.w) (h4b : 4 ∣ b.w)
    (hA : a.data = some pA) (hB : b.data = some pB)
    (hC : c.data = some fun _ => (0 : ℚ)) :
    CheckResult (GeMM.Origin a b c) (GeMM.Optimize11 a b c) = true
      ∧ CheckResult (GeMM.Origin a b c) (GeMM.Optimize12 a b c) = true
      ∧ CheckResult (GeMM.Origin a b c) (GeMM.Optimize13 a b c) = true
      ∧ CheckResult (GeMM.Origin a b c) (GeMM.Optimize14 a b c) = true
      ∧ CheckResult (GeMM.Origin a b c) (GeMM.Optimize15 a b c) = true
      ∧ CheckResult (GeMM.Origin a b c) (GeMM.Optimize16 a b c) = true := by
  have hcp : CheckParam a b c = true :=
    CheckParam_true a b c hab hh hw (by simp [hA]) (by simp [hB]) (by simp [hC])
  refine ⟨?_, ?_, ?_, ?_, ?_, ?_⟩
  · exact CheckResult_origin_kernel a b c hcp _ _ (Optimize11_run a b c hcp)
      fun n => by rw [opt11Body_eq, al4_dvd_eq h4b, al4_dvd_eq h4w, originBody_eq]
  · exact CheckResult_origin_kernel a b c hcp _ _ (Optimize12_run a b c hcp)
      fun n => by rw [opt12Body_eq, al4_dvd_eq h4b, al4_dvd_eq h4w, originBody_eq]
  · exact CheckResult_origin_kernel a b c hcp _ _ (Optimize13_run a b c hcp)
      fun n => by rw [opt13Body_eq, al4_dvd_eq h4h, al4_dvd_eq h4b, al4_dvd_eq h4w, originBody_eq]
  · exact CheckResult_origin_kernel a b c hcp _ _ (Optimize14_run a b c hcp)
      fun n => by rw [opt14Body_eq, al4_dvd_eq h4h, al4_dvd_eq h4b, al4_dvd_eq h4w, originBody_eq]
  · exact CheckResult_origin_kernel a b c hcp _ _ (Optimize15_run a b c hcp)
      fun n => by rw [opt15Body_eq, al4_dvd_eq h4h, al4_dvd_eq h4b, al4_dvd_eq h4w, originBody_eq]
  · exact CheckResult_origin_kernel a b c hcp _ _ (Optimize16_run a b c hcp)
      fun n => by rw [opt16Body_eq, al4_dvd_eq h4h, al4_dvd_eq h4b, al4_dvd_eq h4w, originBody_eq]

theorem C3_aligned_kernels_equiv_origin_on_multiples_of_4_witness :
    (fourA.w = fourB.h ∧ (4 ∣ fourA.h) ∧ (4 ∣ fourA.w) ∧ (4 ∣ fourB.w))
      ∧ (CheckResult (GeMM.Origin fourA fourB fourC) (GeMM.Optimize11 fourA fourB fourC) = true
        ∧ CheckResult (GeMM.Origin fourA fourB fourC) (GeMM.Optimize12 fourA fourB fourC) = true
        ∧ CheckResult (GeMM.Origin fourA fourB fourC) (GeMM.Optimize13 fourA fourB fourC) = true
        ∧ CheckResult (GeMM.Origin fourA fourB fourC) (GeMM.Optimize14 fourA fourB fourC) = true
        ∧ CheckResult (GeMM.Origin fourA fourB fourC) (GeMM.Optimize15 fourA fourB fourC) = true
        ∧ CheckResult (GeMM.Origin fourA fourB fourC) (GeMM.Optimize16 fourA fourB fourC) = true) :=
  ⟨⟨rfl, by decide, by decide, by decide⟩,
    C3_aligned_kernels_equiv_origin_on_multiples_of_4 fourA fourB fourC _ _ rfl rfl rfl
      (by decide) (by decide) (by decide) rfl rfl rfl⟩

theorem originT_entry (i j : ℕ) (hi : i < 2) (hj : j < 2) :
    (GeMM.Origin tA tB tC).atIdx (i * 2 + j)
      = ∑ k in Finset.range 3, dataOf tA (i * 3 + k) * dataOf tB (k * 2 + j) := by
  rw [Origin_run tA tB tC rfl, atIdx_mk,
    show tA.h = 2 from rfl, show tA.w = 3 from rfl, show tB.w = 2 from rfl,
    show tC.w = 2 from rfl, originBody_eq,
    mmAcc_apply (dataOf tA) (dataOf tB) 3 2 2 2 2 3 i j hi hj (le_refl 2)]
  have hC0 : ∀ m, dataOf tC m = 0 := fun m => rfl
  rw [hC0, zero_add]

theorem originT00 : (GeMM.Origin tA tB tC).atIdx 0 = 58 := by
  have h := originT_entry 0 0 (by norm_num) (by norm_num)
  rw [show (0 : ℕ) * 2 + 0 = 0 from rfl] at h
  rw [h, sum3]
  norm_num [show dataOf tA 0 = 1 from rfl, show dataOf tA 1 = 2 from rfl,
    show dataOf tA 2 = 3 from rfl, show dataOf tB 0 = 7 from rfl,
    show dataOf tB 2 = 9 from rfl, show dataOf tB 4 = 11 from rfl]

theorem originT01 : (GeMM.Origin tA tB tC).atIdx 1 = 64 := by
  have h := originT_entry 0 1 (by norm_num) (by norm_num)
  rw [show (0 : ℕ) * 2 + 1 = 1 from rfl] at h
  rw [h, sum3]
  norm_num [show dataOf tA 0 = 1 from rfl, show dataOf tA 1 = 2 from rfl,
    show dataOf tA 2 = 3 from rfl, show dataOf tB 1 = 8 from rfl,
    show dataOf tB 3 = 10 from rfl, show dataOf tB 5 = 12 from rfl]

theorem originT10 : (GeMM.Origin tA tB tC).atIdx 2 = 139 := by
  have h := originT_entry 1 0 (by norm_num) (by norm_num)
  rw [show (1 : ℕ) * 2 + 0 = 2 from rfl] at h
  rw [h, sum3]
  norm_num [show dataOf tA 3 = 4 from rfl, show dataOf tA 4 = 5 from rfl,
    show dataOf tA 5 = 6 from rfl, show dataOf tB 0 = 7 from rfl,
    show dataOf tB 2 = 9 from rfl, show dataOf tB 4 = 11 from rfl]

theorem originT11 : (GeMM.Origin tA tB tC).atIdx 3 = 154 := by
  have h := originT_entry 1 1 (by norm_num) (by norm_num)
  rw [show (1 : ℕ) * 2 + 1 = 3 from rfl] at h
  rw [h, sum3]
  norm_num [show dataOf tA 3 = 4 from rfl, show dataOf tA 4 = 5 from rfl,
    show dataOf tA 5 = 6 from rfl, show dataOf tB 1 = 8 from rfl,
    show dataOf tB 3 = 10 from rfl, show dataOf tB 5 = 12 from rfl]

theorem originY0 : (GeMM.Origin yA yB yC).atIdx 0 = 5 := by
  rw [Origin_run yA yB yC rfl, atIdx_mk,
    show yA.h = 1 from rfl, show yA.w = 5 from rfl, show yB.w = 1 from rfl,
    show yC.w = 1 from rfl, originBody_eq]
  have h := mmAcc_apply (dataOf yA) (dataOf yB) 5 1 1 1 1 5 0 0 (by norm_num) (by norm_num)
    (le_refl 1)
  rw [show (0 : ℕ) * 1 + 0 = 0 from rfl] at h
  have hC0 : ∀ m, dataOf yC m = 0 := fun m => rfl
  rw [h, hC0, zero_add, sum5]
  norm_num [show ∀ m, dataOf yA m = 1 from fun m => rfl,
    show ∀ m, dataOf yB m = 1 from fun m => rfl]

theorem opt10Y0 : (GeMM.Optimize10 yA yB yC).atIdx 0 = 2 := by
  rw [Optimize10_run yA yB yC rfl, atIdx_mk,
    show yA.h = 1 from rfl, show yA.w = 5 from rfl, show yB.w = 1 from rfl,
    show yC.w = 1 from rfl,
    show dataOf yA = fun _ => (1 : ℚ) from rfl, show dataOf yB = fun _ => (1 : ℚ) from rfl,
    show dataOf yC = fun _ => (0 : ℚ) from rfl]
  unfold opt10Body
  simp only [show (5 : ℕ) / 4 = 1 from rfl, show (1 : ℕ) / 4 = 0 from rfl,
    show al4 5 = 4 from rfl, show al4 1 = 0 from rfl,
    show List.range 1 = [0] from rfl, show List.range 0 = ([] : List ℕ) from rfl,
    show rangeFT 4 5 = [4] from rfl, show rangeFT 0 1 = [0] from rfl,
    List.foldl_cons, List.foldl_nil]
  norm_num [addAt]

/-- C2: the non-aligned SIMD kernels `Optimize5`, `Optimize6` and
`Optimize9` agree element-wise with `Origin` on every valid input with a
zero-initialised C — arbitrary dimensions, in particular not divisible
by 4 — but `Optimize10` does not: its scalar `j`-tail (gemm.cpp lines
613-618) stores the `a1`, `a2`, `a3` contributions at the staggered
offsets `j+1`, `j+2`, `j+3` instead of `j`, so on the 1x5 by 5x1
all-ones product (width 1 is not divisible by 4) it leaves C[0] = 2
where `Origin` computes 5 and `CheckResult` rejects the pair. -/
theorem C2_simd_tail_kernels_vs_origin (a b c : Matrix) (pA pB : ℕ → ℚ)
    (hab : a.w = b.h) (hh : a.h = c.h) (hw : b.w = c.w)
    (hA : a.data = some pA) (hB : b.data = some pB)
    (hC : c.data = some fun _ => (0 : ℚ)) :
    (CheckResult (GeMM.Origin a b c) (GeMM.Optimize5 a b c) = true
      ∧ CheckResult (GeMM.Origin a b c) (GeMM.Optimize6 a b c) = true
      ∧ CheckResult (GeMM.Origin a b c) (GeMM.Optimize9 a b c) = true)
    ∧ ((GeMM.Origin yA yB yC).atIdx 0 = 5
      ∧ (GeMM.Optimize10 yA yB yC).atIdx 0 = 2
      ∧ CheckResult (GeMM.Origin yA yB yC) (GeMM.Optimize10 yA yB yC) = false) := by
  have hcp : CheckParam a b c = true :=
    CheckParam_true a b c hab hh hw (by simp [hA]) (by simp [hB]) (by simp [hC])
  refine ⟨⟨?_, ?_, ?_⟩, originY0, opt10Y0, ?_⟩
  · exact CheckResult_origin_kernel a b c hcp _ _ (Optimize5_run a b c hcp)
      fun n => by rw [opt5Body_eq, originBody_eq]
  · exact CheckResult_origin_kernel a b c hcp _ _ (Optimize6_run a b c hcp)
      fun n => by rw [opt6Body_eq, originBody_eq]
  · exact CheckResult_origin_kernel a b c hcp _ _ (Optimize9_run a b c hcp)
      fun n => by rw [opt9Body_eq, originBody_eq]
  · have hidx : (0 : ℕ) * (GeMM.Origin yA yB yC).w + 0 = 0 := by simp
    refine CheckResult_false_of _ _ 0 0 ?_ ?_ ?_ ?_ ?_
    · rw [Origin_run yA yB yC rfl]; simp
    · rw [Optimize10_run yA yB yC rfl]; simp
    · rw [Origin_run yA yB yC rfl]; decide
    · rw [Origin_run yA yB yC rfl]; decide
    · rw [hidx, originY0, opt10Y0]
      norm_num [EPSILON]

theorem C2_simd_tail_kernels_vs_origin_witness :
    (yA.w = yB.h ∧ yA.h = yC.h ∧ yB.w = yC.w)
    ∧ (CheckResult (GeMM.Origin yA yB yC) (GeMM.Optimize5 yA yB yC) = true
      ∧ CheckResult (GeMM.Origin yA yB yC) (GeMM.Optimize6 yA yB yC) = true
      ∧ CheckResult (GeMM.Origin yA yB yC) (GeMM.Optimize9 yA yB yC) = true)
    ∧ ((GeMM.Origin yA yB yC).atIdx 0 = 5
      ∧ (GeMM.Optimize10 yA yB yC).atIdx 0 = 2
      ∧ CheckResult (GeMM.Origin yA yB yC) (GeMM.Optimize10 yA yB yC) = false) :=
  ⟨⟨rfl, rfl, rfl⟩,
    (C2_simd_tail_kernels_vs_origin yA yB yC _ _ rfl rfl rfl rfl rfl rfl).1,
    (C2_simd_tail_kernels_vs_origin yA yB yC _ _ rfl rfl rfl rfl rfl rfl).2⟩

/-- C4 (amended): on A = [[1,2,3],[4,5,6]], B = [[7,8],[9,10],[11,12]]
and a zero-initialised 2x2 C, `Origin` computes [[58,64],[139,154]] and
the kernels `Optimize1` through `Optimize10` all reproduce that result
within `CheckResult`'s tolerance. The original claim said all 16
optimized kernels do; the aligned kernels `Optimize11`-`Optimize16`
compute nothing at these dimensions (2, 3 and 2 all have aligned part
0), so they do not reproduce it — see the counterexample theorem. -/
theorem C4_concrete_scenario_amended :
    ((GeMM.Origin tA tB tC).atIdx 0 = 58 ∧ (GeMM.Origin tA tB tC).atIdx 1 = 64
      ∧ (GeMM.Origin tA tB tC).atIdx 2 = 139 ∧ (GeMM.Origin tA tB tC).atIdx 3 = 154)
    ∧ (CheckResult (GeMM.Origin tA tB tC) (GeMM.Optimize1 tA tB tC) = true
      ∧ CheckResult (GeMM.Origin tA tB tC) (GeMM.Optimize2 tA tB tC) = true
      ∧ CheckResult (GeMM.Origin tA tB tC) (GeMM.Optimize3 tA tB tC) = true
      ∧ CheckResult (GeMM.Origin tA tB tC) (GeMM.Optimize4 tA tB tC) = true
      ∧ CheckResult (GeMM.Origin tA tB tC) (GeMM.Optimize5 tA tB tC) = true
      ∧ CheckResult (GeMM.Origin tA tB tC) (GeMM.Optimize6 tA tB tC) = true
      ∧ CheckResult (GeMM.Origin tA tB tC) (GeMM.Optimize7 tA tB tC) = true
      ∧ CheckResult (GeMM.Origin tA tB tC) (GeMM.Optimize8 tA tB tC) = true
      ∧ CheckResult (GeMM.Origin tA tB tC) (GeMM.Optimize9 tA tB tC) = true
      ∧ CheckResult (GeMM.Origin tA tB tC) (GeMM.Optimize10 tA tB tC) = true) := by
  have hcp : CheckParam tA tB tC = true := rfl
  refine ⟨⟨originT00, originT01, originT10, originT11⟩,
    ?_, ?_, ?_, ?_, ?_, ?_, ?_, ?_, ?_, ?_⟩
  · exact CheckResult_origin_kernel tA tB tC hcp _ _ (Optimize1_run tA tB tC hcp)
      fun n => by rw [opt1Body_eq, originBody_eq]
  · exact CheckResult_origin_kernel tA tB tC hcp _ _ (Optimize2_run tA tB tC hcp)
      fun n => by rw [opt2Body_eq, originBody_eq]
  · exact CheckResult_origin_kernel tA tB tC hcp _ _ (Optimize3_run tA tB tC hcp)
      fun n => by rw [opt3Body_eq, originBody_eq]
  · exact CheckResult_origin_kernel tA tB tC hcp _ _ (Optimize4_run tA tB tC hcp)
      fun n => by rw [opt4Body_eq, originBody_eq]
  · exact CheckResult_origin_kernel tA tB tC hcp _ _ (Optimize5_run tA tB tC hcp)
      fun n => by rw [opt5Body_eq, originBody_eq]
  · exact CheckResult_origin_kernel tA tB tC hcp _ _ (Optimize6_run tA tB tC hcp)
      fun n => by rw [opt6Body_eq, originBody_eq]
  · exact CheckResult_origin_kernel tA tB tC hcp _ _ (Optimize7_run tA tB tC hcp)
      fun n => by rw [opt7Body_eq, originBody_eq]
  · exact CheckResult_origin_kernel tA tB tC hcp _ _ (Optimize8_run tA tB tC hcp)
      fun n => by rw [opt8Body_eq, originBody_eq]
  · exact CheckResult_origin_kernel tA tB tC hcp _ _ (Optimize9_run tA tB tC hcp)
      fun n => by rw [opt9Body_eq, originBody_eq]
  · exact CheckResult_origin_kernel tA tB tC hcp _ _ (Optimize10_run tA tB tC hcp)
      fun n => by
        rw [opt10Body_eq_small (dataOf tA) (dataOf tB) tA.h tA.w tB.w tC.w (by decide)
          (dataOf tC) n, originBody_eq]

theorem C4_counterexample_optimize11_zero_result :
    (GeMM.Optimize11 tA tB tC).atIdx 0 = 0
      ∧ CheckResult (GeMM.Origin tA tB tC) (GeMM.Optimize11 tA tB tC) = false := by
  have hcp : CheckParam tA tB tC = true := rfl
  have hv : (GeMM.Optimize11 tA tB tC).atIdx 0 = 0 := by
    rw [Optimize11_run tA tB tC hcp, atIdx_mk, opt11Body_eq,
      show al4 tB.w = 0 from rfl, mmAcc_J0]
    norm_num [show dataOf tC 0 = (0 : ℚ) from rfl]
  refine ⟨hv, ?_⟩
  have hidx : (0 : ℕ) * (GeMM.Origin tA tB tC).w + 0 = 0 := by simp
  refine CheckResult_false_of _ _ 0 0 ?_ ?_ ?_ ?_ ?_
  · rw [Origin_run tA tB tC hcp]; simp
  · rw [Optimize11_run tA tB tC hcp]; simp
  · rw [Origin_run tA tB tC hcp]; decide
  · rw [Origin_run tA tB tC hcp]; decide
  · rw [hidx, originT00, hv]
    norm_num [EPSILON]

/-- C5 (amended): the kernels accumulate into C — none clears it. For a
valid triple with arbitrary pre-existing contents `pC0`, `Origin` and
`Optimize1`-`Optimize9` leave C[i,j] = pC0[i,j] + Σ_k A[i,k]*B[k,j]
unconditionally; `Optimize10` does so when `B.w` is a multiple of 4, and
`Optimize11`-`Optimize16` when `A.h`, `A.w` and `B.w` are all multiples
of 4. The original claim's unconditional "every kernel adds the full
product contribution" fails for the aligned kernels (counterexample:
`Optimize11` on the 2x3 by 3x2 example adds nothing). -/
theorem C5_kernels_accumulate_amended (a b c : Matrix) (pA pB pC0 : ℕ → ℚ) (i j : ℕ)
    (hab : a.w = b.h) (hh : a.h = c.h) (hw : b.w = c.w)
    (hA : a.data = some pA) (hB : b.data = some pB) (hC : c.data = some pC0)
    (hi : i < a.h) (hj : j < b.w) :
    ((GeMM.Origin a b c).atIdx (i * c.w + j)
        = pC0 (i * c.w + j) + ∑ k in Finset.range a.w, pA (i * a.w + k) * pB (k * b.w + j))
    ∧ ((GeMM.Optimize1 a b c).atIdx (i * c.w + j)
        = pC0 (i * c.w + j) + ∑ k in Finset.range a.w, pA (i * a.w + k) * pB (k * b.w + j))
    ∧ ((GeMM.Optimize2 a b c).atIdx (i * c.w + j)
        = pC0 (i * c.w + j) + ∑ k in Finset.range a.w, pA (i * a.w + k) * pB (k * b.w + j))
    ∧ ((GeMM.Optimize3 a b c).atIdx (i * c.w + j)
        = pC0 (i * c.w + j) + ∑ k in Finset.range a.w, pA (i * a.w + k) * pB (k * b.w + j))
    ∧ ((GeMM.Optimize4 a b c).atIdx (i * c.w + j)
        = pC0 (i * c.w + j) + ∑ k in Finset.range a.w, pA (i * a.w + k) * pB (k * b.w + j))
    ∧ ((GeMM.Optimize5 a b c).atIdx (i * c.w + j)
        = pC0 (i * c.w + j) + ∑ k in Finset.range a.w, pA (i * a.w + k) * pB (k * b.w + j))
    ∧ ((GeMM.Optimize6 a b c).atIdx (i * c.w + j)
        = pC0 (i * c.w + j) + ∑ k in Finset.range a.w, pA (i * a.w + k) * pB (k * b.w + j))
    ∧ ((GeMM.Optimize7 a b c).atIdx (i * c.w + j)
        = pC0 (i * c.w + j) + ∑ k in Finset.range a.w, pA (i * a.w + k) * pB (k * b.w + j))
    ∧ ((GeMM.Optimize8 a b c).atIdx (i * c.w + j)
        = pC0 (i * c.w + j) + ∑ k in Finset.range a.w, pA (i * a.w + k) * pB (k * b.w + j))
    ∧ ((GeMM.Optimize9 a b c).atIdx (i * c.w + j)
        = pC0 (i * c.w + j) + ∑ k in Finset.range a.w, pA (i * a.w + k) * pB (k * b.w + j))
    ∧ (4 ∣ b.w →
        (GeMM.Optimize10 a b c).atIdx (i * c.w + j)
          = pC0 (i * c.w + j) + ∑ k in Finset.range a.w, pA (i * a.w + k) * pB (k * b.w + j))
    ∧ (4 ∣ a.h → 4 ∣ a.w → 4 ∣ b.w →
        ((GeMM.Optimize11 a b c).atIdx (i * c.w + j)
            = pC0 (i * c.w + j) + ∑ k in Finset.range a.w, pA (i * a.w + k) * pB (k * b.w + j)
          ∧ (GeMM.Optimize12 a b c).atIdx (i * c.w + j)
            = pC0 (i * c.w + j) + ∑ k in Finset.range a.w, pA (i * a.w + k) * pB (k * b.w + j)
          ∧ (GeMM.Optimize13 a b c).atIdx (i * c.w + j)
            = pC0 (i * c.w + j) + ∑ k in Finset.range a.w, pA (i * a.w + k) * pB (k * b.w + j)
          ∧ (GeMM.Optimize14 a b c).atIdx (i * c.w + j)
            = pC0 (i * c.w + j) + ∑ k in Finset.range a.w, pA (i * a.w + k) * pB (k * b.w + j)
          ∧ (GeMM.Optimize15 a b c).atIdx (i * c.w + j)
            = pC0 (i * c.w + j) + ∑ k in Finset.range a.w, pA (i * a.w + k) * pB (k * b.w + j)
          ∧ (GeMM.Optimize16 a b c).atIdx (i * c.w + j)
            = pC0 (i * c.w + j)
              + ∑ k in Finset.range a.w, pA (i * a.w + k) * pB (k * b.w + j))) := by
  have hcp : CheckParam a b c = true :=
    CheckParam_true a b c hab hh hw (by simp [hA]) (by simp [hB]) (by simp [hC])
  have hJ : b.w ≤ c.w := le_of_eq hw
  refine ⟨?_, ?_, ?_, ?_, ?_, ?_, ?_, ?_, ?_, ?_, ?_, ?_⟩
  · rw [Origin_run a b c hcp, atIdx_mk, dataOf_some hA, dataOf_some hB, dataOf_some hC,
      originBody_eq, mmAcc_apply pA pB a.w b.w c.w a.h b.w a.w i j hi hj hJ]
  · rw [Optimize1_run a b c hcp, atIdx_mk, dataOf_some hA, dataOf_some hB, dataOf_some hC,
      opt1Body_eq, mmAcc_apply pA pB a.w b.w c.w a.h b.w a.w i j hi hj hJ]
  · rw [Optimize2_run a b c hcp, atIdx_mk, dataOf_some hA, dataOf_some hB, dataOf_some hC,
      opt2Body_eq, mmAcc_apply pA pB a.w b.w c.w a.h b.w a.w i j hi hj hJ]
  · rw [Optimize3_run a b c hcp, atIdx_mk, dataOf_some hA, dataOf_some hB, dataOf_some hC,
      opt3Body_eq, mmAcc_apply pA pB a.w b.w c.w a.h b.w a.w i j hi hj hJ]
  · rw [Optimize4_run a b c hcp, atIdx_mk, dataOf_some hA, dataOf_some hB, dataOf_some hC,
      opt4Body_eq, mmAcc_apply pA pB a.w b.w c.w a.h b.w a.w i j hi hj hJ]
  · rw [Optimize5_run a b c hcp, atIdx_mk, dataOf_some hA, dataOf_some hB, dataOf_some hC,
      opt5Body_eq, mmAcc_apply pA pB a.w b.w c.w a.h b.w a.w i j hi hj hJ]
  · rw [Optimize6_run a b c hcp, atIdx_mk, dataOf_some hA, dataOf_some hB, dataOf_some hC,
      opt6Body_eq, mmAcc_apply pA pB a.w b.w c.w a.h b.w a.w i j hi hj hJ]
  · rw [Optimize7_run a b c hcp, atIdx_mk, dataOf_some hA, dataOf_some hB, dataOf_some hC,
      opt7Body_eq, mmAcc_apply pA pB a.w b.w c.w a.h b.w a.w i j hi hj hJ]
  · rw [Optimize8_run a b c hcp, atIdx_mk, dataOf_some hA, dataOf_some hB, dataOf_some hC,
      opt8Body_eq, mmAcc_apply pA pB a.w b.w c.w a.h b.w a.w i j hi hj hJ]
  · rw [Optimize9_run a b c hcp, atIdx_mk, dataOf_some hA, dataOf_some hB, dataOf_some hC,
      opt9Body_eq, mmAcc_apply pA pB a.w b.w c.w a.h b.w a.w i j hi hj hJ]
  · intro h4b
    rw [Optimize10_run a b c hcp, atIdx_mk, dataOf_some hA, dataOf_some hB, dataOf_some hC,
      opt10Body_eq pA pB a.h a.w b.w c.w h4b pC0 (i * c.w + j),
      mmAcc_apply pA pB a.w b.w c.w a.h b.w a.w i j hi hj hJ]
  · intro h4h h4w h4b
    refine ⟨?_, ?_, ?_, ?_, ?_, ?_⟩
    · rw [Optimize11_run a b c hcp, atIdx_mk, dataOf_some hA, dataOf_some hB, dataOf_some hC,
        opt11Body_eq, al4_dvd_eq h4b, al4_dvd_eq h4w,
        mmAcc_apply pA pB a.w b.w c.w a.h b.w a.w i j hi hj hJ]
    · rw [Optimize12_run a b c hcp, atIdx_mk, dataOf_some hA, dataOf_some hB, dataOf_some hC,
        opt12Body_eq, al4_dvd_eq h4b, al4_dvd_eq h4w,
        mmAcc_apply pA pB a.w b.w c.w a.h b.w a.w i j hi hj hJ]
    · rw [Optimize13_run a b c hcp, atIdx_mk, dataOf_some hA, dataOf_some hB, dataOf_some hC,
        opt13Body_eq, al4_dvd_eq h4h, al4_dvd_eq h4b, al4_dvd_eq h4w,
        mmAcc_apply pA pB a.w b.w c.w a.h b.w a.w i j hi hj hJ]
    · rw [Optimize14_run a b c hcp, atIdx_mk, dataOf_some hA, dataOf_some hB, dataOf_some hC,
        opt14Body_eq, al4_dvd_eq h4h, al4_dvd_eq h4b, al4_dvd_eq h4w,
        mmAcc_apply pA pB a.w b.w c.w a.h b.w a.w i j hi hj hJ]
    · rw [Optimize15_run a b c hcp, atIdx_mk, dataOf_some hA, dataOf_some hB, dataOf_some hC,
        opt15Body_eq, al4_dvd_eq h4h, al4_dvd_eq h4b, al4_dvd_eq h4w,
        mmAcc_apply pA pB a.w b.w c.w a.h b.w a.w i j hi hj hJ]
    · rw [Optimize16_run a b c hcp, atIdx_mk, dataOf_some hA, dataOf_some hB, dataOf_some hC,
        opt16Body_eq, al4_dvd_eq h4h, al4_dvd_eq h4b, al4_dvd_eq h4w,
        mmAcc_apply pA pB a.w b.w c.w a.h b.w a.w i j hi hj hJ]

theorem C5_kernels_accumulate_amended_witness :
    ((0 : ℕ) < tA.h ∧ (0 : ℕ) < tB.w)
      ∧ (GeMM.Origin tA tB tCpre).atIdx (0 * tCpre.w + 0)
          = 5 + ∑ k in Finset.range tA.w, dataOf tA (0 * tA.w + k) * dataOf tB (k * tB.w + 0) :=
  ⟨⟨by decide, by decide⟩,
    (C5_kernels_accumulate_amended tA tB tCpre (dataOf tA) (dataOf tB) (fun _ => 5) 0 0
      rfl rfl rfl rfl rfl rfl (by decide) (by decide)).1⟩

theorem C5_counterexample_optimize11_no_accumulate :
    (GeMM.Optimize11 tA tB tCpre).atIdx 0 = 5
      ∧ tCpre.atIdx 0
          + (∑ k in Finset.range tA.w, dataOf tA (0 * tA.w + k) * dataOf tB (k * tB.w + 0))
        = 63
      ∧ (5 : ℚ) < 63 := by
  refine ⟨?_, ?_, by norm_num⟩
  · have hcp : CheckParam tA tB tCpre = true := rfl
    rw [Optimize11_run tA tB tCpre hcp, atIdx_mk, opt11Body_eq,
      show al4 tB.w = 0 from rfl, mmAcc_J0]
    norm_num [show dataOf tCpre 0 = (5 : ℚ) from rfl]
  · rw [show tCpre.atIdx 0 = (5 : ℚ) from rfl, show tA.w = 3 from rfl,
      show tB.w = 2 from rfl, sum3]
    norm_num [show dataOf tA 0 = 1 from rfl, show dataOf tA 1 = 2 from rfl,
      show dataOf tA 2 = 3 from rfl, show dataOf tB 0 = 7 from rfl,
      show dataOf tB 2 = 9 from rfl, show dataOf tB 4 = 11 from rfl]

/-- C6: `CheckParam` validation gates every kernel. If the dimensions
mismatch or any buffer is absent, every one of the 17 kernels returns C
unchanged; otherwise validation passes and every kernel computes its
loop nest into C's buffer. -/
theorem C6_checkparam_gates_all_kernels (a b c : Matrix) :
    ((a.w ≠ b.h ∨ a.h ≠ c.h ∨ b.w ≠ c.w
        ∨ a.data = none ∨ b.data = none ∨ c.data = none) →
      (GeMM.Origin a b c = c ∧ GeMM.Optimize1 a b c = c ∧ GeMM.Optimize2 a b c = c
        ∧ GeMM.Optimize3 a b c = c ∧ GeMM.Optimize4 a b c = c ∧ GeMM.Optimize5 a b c = c
        ∧ GeMM.Optimize6 a b c = c ∧ GeMM.Optimize7 a b c = c ∧ GeMM.Optimize8 a b c = c
        ∧ GeMM.Optimize9 a b c = c ∧ GeMM.Optimize10 a b c = c ∧ GeMM.Optimize11 a b c = c
        ∧ GeMM.Optimize12 a b c = c ∧ GeMM.Optimize13 a b c = c ∧ GeMM.Optimize14 a b c = c
        ∧ GeMM.Optimize15 a b c = c ∧ GeMM.Optimize16 a b c = c))
    ∧ ((a.w = b.h ∧ a.h = c.h ∧ b.w = c.w
        ∧ a.data ≠ none ∧ b.data ≠ none ∧ c.data ≠ none) →
      (CheckParam a b c = true
        ∧ GeMM.Origin a b c
            = { c with data := some (originBody (dataOf a) (dataOf b) a.h a.w b.w c.w (dataOf c)) }
        ∧ GeMM.Optimize1 a b c
            = { c with data := some (opt1Body (dataOf a) (dataOf b) a.h a.w b.w c.w (dataOf c)) }
        ∧ GeMM.Optimize2 a b c
            = { c with data := some (opt2Body (dataOf a) (dataOf b) a.h a.w b.w c.w (dataOf c)) }
        ∧ GeMM.Optimize3 a b c
            = { c with data := some (opt3Body (dataOf a) (dataOf b) a.h a.w b.w c.w (dataOf c)) }
        ∧ GeMM.Optimize4 a b c
            = { c with data := some (opt4Body (dataOf a) (dataOf b) a.h a.w b.w c.w (dataOf c)) }
        ∧ GeMM.Optimize5 a b c
            = { c with data := some (opt5Body (dataOf a) (dataOf b) a.h a.w b.w c.w (dataOf c)) }
        ∧ GeMM.Optimize6 a b c
            = { c with data := some (opt6Body (dataOf a) (dataOf b) a.h a.w b.w c.w (dataOf c)) }
        ∧ GeMM.Optimize7 a b c
            = { c with data := some (opt7Body (dataOf a) (dataOf b) a.h a.w b.w c.w (dataOf c)) }
        ∧ GeMM.Optimize8 a b c
            = { c with data := some (opt8Body (dataOf a) (dataOf b) a.h a.w b.w c.w (dataOf c)) }
        ∧ GeMM.Optimize9 a b c
            = { c with data := some (opt9Body (dataOf a) (dataOf b) a.h a.w b.w c.w (dataOf c)) }
        ∧ GeMM.Optimize10 a b c
            = { c with data := some (opt10Body (dataOf a) (dataOf b) a.h a.w b.w c.w (dataOf c)) }
        ∧ GeMM.Optimize11 a b c
            = { c with data := some (opt11Body (dataOf a) (dataOf b) a.h a.w b.w c.w (dataOf c)) }
        ∧ GeMM.Optimize12 a b c
            = { c with data := some (opt12Body (dataOf a) (dataOf b) a.h a.w b.w c.w (dataOf c)) }
        ∧ GeMM.Optimize13 a b c
            = { c with data := some (opt13Body (dataOf a) (dataOf b) a.h a.w b.w c.w (dataOf c)) }
        ∧ GeMM.Optimize14 a b c
            = { c with data := some (opt14Body (dataOf a) (dataOf b) a.h a.w b.w c.w (dataOf c)) }
        ∧ GeMM.Optimize15 a b c
            = { c with data := some (opt15Body (dataOf a) (dataOf b) a.h a.w b.w c.w (dataOf c)) }
        ∧ GeMM.Optimize16 a b c
            = { c with data := some (opt16Body (dataOf a) (dataOf b) a.h a.w b.w c.w (dataOf c)) })) := by
  constructor
  · intro hinv
    have hcp := CheckParam_false a b c hinv
    exact ⟨Origin_skip a b c hcp, Optimize1_skip a b c hcp, Optimize2_skip a b c hcp,
      Optimize3_skip a b c hcp, Optimize4_skip a b c hcp, Optimize5_skip a b c hcp,
      Optimize6_skip a b c hcp, Optimize7_skip a b c hcp, Optimize8_skip a b c hcp,
      Optimize9_skip a b c hcp, Optimize10_skip a b c hcp, Optimize11_skip a b c hcp,
      Optimize12_skip a b c hcp, Optimize13_skip a b c hcp, Optimize14_skip a b c hcp,
      Optimize15_skip a b c hcp, Optimize16_skip a b c hcp⟩
  · rintro ⟨h1, h2, h3, h4, h5, h6⟩
    have hcp := CheckParam_true a b c h1 h2 h3 h4 h5 h6
    exact ⟨hcp, Origin_run a b c hcp, Optimize1_run a b c hcp, Optimize2_run a b c hcp,
      Optimize3_run a b c hcp, Optimize4_run a b c hcp, Optimize5_run a b c hcp,
      Optimize6_run a b c hcp, Optimize7_run a b c hcp, Optimize8_run a b c hcp,
      Optimize9_run a b c hcp, Optimize10_run a b c hcp, Optimize11_run a b c hcp,
      Optimize12_run a b c hcp, Optimize13_run a b c hcp, Optimize14_run a b c hcp,
      Optimize15_run a b c hcp, Optimize16_run a b c hcp⟩

theorem C6_checkparam_gates_all_kernels_witness :
    (badA.w ≠ badB.h ∨ badA.h ≠ badC.h ∨ badB.w ≠ badC.w
      ∨ badA.data = none ∨ badB.data = none ∨ badC.data = none)
    ∧ GeMM.Origin badA badB badC = badC
    ∧ CheckParam tA tB tC = true := by
  refine ⟨Or.inl (by decide), ?_, ?_⟩
  · exact ((C6_checkparam_gates_all_kernels badA badB badC).1 (Or.inl (by decide))).1
  · exact ((C6_checkparam_gates_all_kernels tA tB tC).2
      ⟨rfl, rfl, rfl, by simp [tA], by simp [tB], by simp [tC]⟩).1

/-- C7: `CheckResult` returns false exactly when the widths differ, the
heights differ, a buffer is absent, or some pair of same-position
elements differs in absolute value by strictly more than `EPSILON`
(1e-5); with matching shapes, present buffers and every pair within the
tolerance it returns true. -/
theorem C7_checkresult_false_iff (a b : Matrix) :
    CheckResult a b = false
      ↔ (a.w ≠ b.w ∨ a.h ≠ b.h ∨ a.data = none ∨ b.data = none
        ∨ ∃ i, i < a.h ∧ ∃ j, j < a.w
            ∧ EPSILON < |dataOf a (i * a.w + j) - dataOf b (i * a.w + j)|) := by
  unfold CheckResult
  split_ifs with h1 h2 h3
  · exact iff_of_true rfl (Or.inl h1)
  · exact iff_of_true rfl (Or.inr (Or.inl h2))
  · refine iff_of_true rfl (Or.inr (Or.inr ?_))
    simp only [Bool.or_eq_true, Option.isNone_iff_eq_none] at h3
    rcases h3 with h | h
    · exact Or.inl h
    · exact Or.inr (Or.inl h)
  · constructor
    · intro hfalse
      refine Or.inr (Or.inr (Or.inr (Or.inr ?_)))
      by_contra hno
      push_neg at hno
      have hall : ((List.range a.h).all fun i => (List.range a.w).all fun j =>
          decide (|dataOf a (i * a.w + j) - dataOf b (i * a.w + j)| ≤ EPSILON)) = true :=
        List.all_eq_true.mpr fun i hi => List.all_eq_true.mpr fun j hj => by
          rw [decide_eq_true_eq]
          exact hno i (List.mem_range.mp hi) j (List.mem_range.mp hj)
      rw [hfalse] at hall
      exact Bool.false_ne_true hall
    · intro hr
      rcases hr with h | h | h | h | ⟨i, hi, j, hj, hgt⟩
      · exact absurd h h1
      · exact absurd h h2
      · exact absurd (show (a.data.isNone || b.data.isNone) = true from by simp [h]) h3
      · exact absurd (show (a.data.isNone || b.data.isNone) = true from by simp [h]) h3
      · by_contra hne
        rw [Bool.not_eq_false] at hne
        have h4 := List.all_eq_true.mp hne i (List.mem_range.mpr hi)
        have h5 := List.all_eq_true.mp h4 j (List.mem_range.mpr hj)
        rw [decide_eq_true_eq] at h5
        exact absurd h5 (not_le.mpr hgt)

theorem C8_counterexample_checkresult_null_self :
    CheckResult nullView nullView = false := rfl

/-- C8 (amended): `CheckResult(X, X)` returns true for every view X
whose buffer is present; for a view with an absent buffer the null check
makes `CheckResult(X, X)` false, refuting the original "for every X"
(counterexample: `nullView`). -/
theorem C8_checkresult_self_true_amended (m : Matrix) (f : ℕ → ℚ)
    (h : m.data = some f) : CheckResult m m = true :=
  CheckResult_true_of m m f f rfl rfl h h fun _ => rfl

theorem C8_checkresult_self_true_witness :
    tA.data = some (listData [1, 2, 3, 4, 5, 6]) ∧ CheckResult tA tA = true :=
  ⟨rfl, C8_checkresult_self_true_amended tA (listData [1, 2, 3, 4, 5, 6]) rfl⟩

/-- C9: every kernel of the suite reads A and B and writes only C: a
call leaves the A and B views of the state unchanged. In the embedding
every store of every kernel goes through C's buffer (`addAt`/`vst1q_f32`
on `pC` only), exactly as every store in the C code goes through the
`pC` pointer. -/
theorem C9_kernels_read_only_A_B (K : Matrix → Matrix → Matrix → Matrix)
    (hK : K ∈ gemmKernels) (s : GemmState) :
    (callKernel K s).A = s.A ∧ (callKernel K s).B = s.B :=
  ⟨rfl, rfl⟩

theorem C9_kernels_read_only_A_B_witness :
    GeMM.Optimize16 ∈ gemmKernels
      ∧ ((callKernel GeMM.Optimize16 ⟨tA, tB, tC⟩).A = tA
        ∧ (callKernel GeMM.Optimize16 ⟨tA, tB, tC⟩).B = tB) := by
  have hm : GeMM.Optimize16 ∈ gemmKernels := by simp [gemmKernels]
  exact ⟨hm, C9_kernels_read_only_A_B GeMM.Optimize16 hm ⟨tA, tB, tC⟩⟩

/-- C10: for valid parameters the aligned kernels leave the tail of C
unchanged: `Optimize11` and `Optimize12` leave every C[i,j] with
`j ≥ al4 B.w` (B.w with its low two bits cleared) untouched, and
`Optimize13` through `Optimize16` leave every C[i,j] with
`i ≥ al4 A.h` or `j ≥ al4 B.w` untouched. -/
theorem C10_aligned_kernels_leave_tail_unchanged (a b c : Matrix) (pA pB pC0 : ℕ → ℚ)
    (i j : ℕ) (hab : a.w = b.h) (hh : a.h = c.h) (hw : b.w = c.w)
    (hA : a.data = some pA) (hB : b.data = some pB) (hC : c.data = some pC0)
    (hj : j < c.w) :
    (al4 b.w ≤ j →
      ((GeMM.Optimize11 a b c).atIdx (i * c.w + j) = pC0 (i * c.w + j)
        ∧ (GeMM.Optimize12 a b c).atIdx (i * c.w + j) = pC0 (i * c.w + j)))
    ∧ (al4 a.h ≤ i ∨ al4 b.w ≤ j →
      ((GeMM.Optimize13 a b c).atIdx (i * c.w + j) = pC0 (i * c.w + j)
        ∧ (GeMM.Optimize14 a b c).atIdx (i * c.w + j) = pC0 (i * c.w + j)
        ∧ (GeMM.Optimize15 a b c).atIdx (i * c.w + j) = pC0 (i * c.w + j)
        ∧ (GeMM.Optimize16 a b c).atIdx (i * c.w + j) = pC0 (i * c.w + j))) := by
  have hcp : CheckParam a b c = true :=
    CheckParam_true a b c hab hh hw (by simp [hA]) (by simp [hB]) (by simp [hC])
  have hJ : al4 b.w ≤ c.w := le_trans (al4_le b.w) (le_of_eq hw)
  constructor
  · intro htail
    constructor
    · rw [Optimize11_run a b c hcp, atIdx_mk, dataOf_some hA, dataOf_some hB,
        dataOf_some hC, opt11Body_eq,
        mmAcc_eq_zero pA pB a.w b.w c.w a.h (al4 b.w) (al4 a.w) i j hj hJ (Or.inr htail),
        add_zero]
    · rw [Optimize12_run a b c hcp, atIdx_mk, dataOf_some hA, dataOf_some hB,
        dataOf_some hC, opt12Body_eq,
        mmAcc_eq_zero pA pB a.w b.w c.w a.h (al4 b.w) (al4 a.w) i j hj hJ (Or.inr htail),
        add_zero]
  · intro hor
    refine ⟨?_, ?_, ?_, ?_⟩
    · rw [Optimize13_run a b c hcp, atIdx_mk, dataOf_some hA, dataOf_some hB,
        dataOf_some hC, opt13Body_eq,
        mmAcc_eq_zero pA pB a.w b.w c.w (al4 a.h) (al4 b.w) (al4 a.w) i j hj hJ hor,
        add_zero]
    · rw [Optimize14_run a b c hcp, atIdx_mk, dataOf_some hA, dataOf_some hB,
        dataOf_some hC, opt14Body_eq,
        mmAcc_eq_zero pA pB a.w b.w c.w (al4 a.h) (al4 b.w) (al4 a.w) i j hj hJ hor,
        add_zero]
    · rw [Optimize15_run a b c hcp, atIdx_mk, dataOf_some hA, dataOf_some hB,
        dataOf_some hC, opt15Body_eq,
        mmAcc_eq_zero pA pB a.w b.w c.w (al4 a.h) (al4 b.w) (al4 a.w) i j hj hJ hor,
        add_zero]
    · rw [Optimize16_run a b c hcp, atIdx_mk, dataOf_some hA, dataOf_some hB,
        dataOf_some hC, opt16Body_eq,
        mmAcc_eq_zero pA pB a.w b.w c.w (al4 a.h) (al4 b.w) (al4 a.w) i j hj hJ hor,
        add_zero]

theorem C10_aligned_kernels_leave_tail_unchanged_witness :
    ((4 : ℕ) < fiveC.w ∧ al4 fiveB.w ≤ 4 ∧ al4 fiveA.h ≤ 4)
      ∧ ((GeMM.Optimize11 fiveA fiveB fiveC).atIdx (4 * fiveC.w + 4)
            = ((4 * fiveC.w + 4 : ℕ) : ℚ)
        ∧ (GeMM.Optimize12 fiveA fiveB fiveC).atIdx (4 * fiveC.w + 4)
            = ((4 * fiveC.w + 4 : ℕ) : ℚ))
      ∧ ((GeMM.Optimize13 fiveA fiveB fiveC).atIdx (4 * fiveC.w + 4)
            = ((4 * fiveC.w + 4 : ℕ) : ℚ)
        ∧ (GeMM.Optimize14 fiveA fiveB fiveC).atIdx (4 * fiveC.w + 4)
            = ((4 * fiveC.w + 4 : ℕ) : ℚ)
        ∧ (GeMM.Optimize15 fiveA fiveB fiveC).atIdx (4 * fiveC.w + 4)
            = ((4 * fiveC.w + 4 : ℕ) : ℚ)
        ∧ (GeMM.Optimize16 fiveA fiveB fiveC).atIdx (4 * fiveC.w + 4)
            = ((4 * fiveC.w + 4 : ℕ) : ℚ)) := by
  refine ⟨⟨by decide, by decide, by decide⟩, ?_, ?_⟩
  · exact (C10_aligned_kernels_leave_tail_unchanged fiveA fiveB fiveC _ _ _ 4 4
      rfl rfl rfl rfl rfl rfl (by decide)).1 (by decide)
  · exact (C10_aligned_kernels_leave_tail_unchanged fiveA fiveB fiveC _ _ _ 4 4
      rfl rfl rfl rfl rfl rfl (by decide)).2 (Or.inr (by decide))

end MMO
